import Mathlib

/-!
Verification of the XO tic-tac-toe core (board model, rules engine,
minimax search) against its natural-language specification.

The board storage follows the source exactly: each of the nine squares
is one byte, `squares[col][row]`, holding bit flags
(EMPTY = 1, SIDE_X = 2, SIDE_O = 4, HOVER = 8, CLICK = 16).
A board is modelled as a byte store `Nat → Nat` indexed by
`col * 3 + row`, matching the layout of `uint8_t squares[3][3]`.

The search engine allocates simulation boards from a bump allocator
(`minimax_stack`, 10000 bytes, created fresh per top-level search).
Since `xo_stack_reset` is invoked at the start of every recursive
`xo_game_cpu_minimax_eval` call, allocations of different recursion
levels can coincide; the model therefore threads the stack memory
explicitly and addresses boards by pointer (external board vs stack
offset), reproducing the aliasing behaviour of the C code.
-/

namespace XO

/-- Bit flags of `enum xo_bit_meaning_type`. -/
def XO_BIT_MEANING_EMPTY : Nat := 1

def XO_BIT_MEANING_SIDE_X : Nat := 2

def XO_BIT_MEANING_SIDE_O : Nat := 4

/-- The C enumeration xo_win_state_type with its integer values. -/
inductive xo_win_state_type where
  | LOSE
  | TIE
  | WIN
  | NONE
deriving DecidableEq

/-- Integer value of each enumerator (`LOSE = -1, TIE = 0, WIN = 1, NONE = 2`). -/
def xo_win_state_type.val : xo_win_state_type → Int
  | .LOSE => -1
  | .TIE => 0
  | .WIN => 1
  | .NONE => 2

/-- Byte array of `struct xo_board_data`: index `col * 3 + row`. -/
def xo_board_data : Type := Nat → Nat

/-- Byte index of square `(col, row)` inside `uint8_t squares[3][3]`. -/
def xo_square_index (col row : Nat) : Nat := col * 3 + row

/-- Translation of `squares[col][row] |= bit` -/
def xo_board_bit_set_at (b : xo_board_data) (bit col row : Nat) : xo_board_data :=
  fun i => if i = xo_square_index col row then b i ||| bit else b i

/-- Translation of `squares[col][row] &= ~bit` (byte-truncated complement). -/
def xo_board_bit_clear_at (b : xo_board_data) (bit col row : Nat) : xo_board_data :=
  fun i => if i = xo_square_index col row then b i &&& (255 ^^^ bit) else b i

/-- Translation of `(squares[col][row] & bit) != 0` -/
def xo_board_bit_check_at (b : xo_board_data) (bit col row : Nat) : Bool :=
  b (xo_square_index col row) &&& bit ≠ 0

/-- Loop indices 0, 1, 2 of the C `for` loops over the board. -/
def xo_range3 : List Nat := [0, 1, 2]

/-- Translation of `xo_board_check_if_full`: true iff no square has the EMPTY bit. -/
def xo_board_check_if_full (b : xo_board_data) : Bool :=
  xo_range3.all fun col => xo_range3.all fun row =>
    ! xo_board_bit_check_at b XO_BIT_MEANING_EMPTY col row

/-- Translation of `xo_board_validate_win_conditions_for`: the four groups of line checks
of the source, in order: lines of constant `row`, lines of constant `col`,
the diagonal `(dia, dia)`, the diagonal `(3 - (dia+1), dia)`.
Early returns of the C code only short-circuit a pure disjunction. -/
def xo_board_validate_win_conditions_for (b : xo_board_data) (side : Nat) : Bool :=
  (xo_range3.any fun row => xo_range3.all fun col =>
    xo_board_bit_check_at b side col row)
  || (xo_range3.any fun col => xo_range3.all fun row =>
    xo_board_bit_check_at b side col row)
  || (xo_range3.all fun dia => xo_board_bit_check_at b side dia dia)
  || (xo_range3.all fun dia => xo_board_bit_check_at b side (3 - (dia + 1)) dia)

/-- Translation of `xo_board_test_if_final_state`: WIN if X has a line, else LOSE if O has
a line, else TIE if full, else NONE. -/
def xo_board_test_if_final_state (b : xo_board_data) : xo_win_state_type :=
  if xo_board_validate_win_conditions_for b XO_BIT_MEANING_SIDE_X then .WIN
  else if xo_board_validate_win_conditions_for b XO_BIT_MEANING_SIDE_O then .LOSE
  else if xo_board_check_if_full b then .TIE
  else .NONE

/-- Translation of `xo_game_play`: places `side` at `(col, row)` of the live board if the
square has the EMPTY bit, returning whether the move was accepted. -/
def xo_game_play (b : xo_board_data) (side col row : Nat) : Bool × xo_board_data :=
  if xo_board_bit_check_at b XO_BIT_MEANING_EMPTY col row then
    (true,
      xo_board_bit_set_at
        (xo_board_bit_clear_at b XO_BIT_MEANING_EMPTY col row) side col row)
  else
    (false, b)

/-- The freshly initialized live board: `memset(squares, 0x1, 9)`. -/
def xo_board_initial : xo_board_data := fun _ => 1

/-- Build a board byte store from an explicit list of nine bytes
(index `col * 3 + row`). -/
def xo_board_of_list (l : List Nat) : xo_board_data := fun i => l.getD i 0

/-! ### Search-engine memory model

`xo_game_cpu_find_next_play` creates `minimax_stack = xo_stack_new (10000)`
(zeroed by `calloc`) and destroys it after the search. All simulation
boards are 9-byte `xo_stack_alloc` blocks of that stack, addressed here by
their byte offset; the board passed to the top-level call lives outside
the stack (`app->game->board->data`) and is addressed by `external`. -/

/-- A `struct xo_board_data *` as seen by the search: the live board of
the app (outside `minimax_stack`), or a block at a byte offset inside
`minimax_stack`. -/
inductive xo_ptr where
  | external : xo_ptr
  | stack : Nat → xo_ptr
deriving DecidableEq

/-- A byte array encoded as a base-256 natural number: byte `i` is the
`i`-th base-256 digit. -/
def xo_byte_get (bits i : Nat) : Nat := bits / 256 ^ i % 256

/-- Replace byte `i` of the encoded array by `b` (truncated to a byte,
as storing through `uint8_t` does). -/
def xo_byte_set (bits i b : Nat) : Nat :=
  bits - xo_byte_get bits i * 256 ^ i + b % 256 * 256 ^ i

/-- The memory the search touches: the external board bytes, the bytes,
size and bump offset of `minimax_stack` (`struct xo_stack`), plus a flag
recording whether the `SDL_assert` in `xo_stack_alloc` was ever violated. -/
structure xo_memory where
  ext : Nat
  stackBits : Nat
  stackSize : Nat
  stackOffset : Nat
  overflowed : Bool
deriving DecidableEq

/-- Read one byte of the board designated by `p`. -/
def xo_mem_read (m : xo_memory) (p : xo_ptr) (i : Nat) : Nat :=
  match p with
  | .external => xo_byte_get m.ext i
  | .stack o => xo_byte_get m.stackBits (o + i)

/-- Write one byte of the board designated by `p`. -/
def xo_mem_write (m : xo_memory) (p : xo_ptr) (i b : Nat) : xo_memory :=
  match p with
  | .external => { m with ext := xo_byte_set m.ext i b }
  | .stack o => { m with stackBits := xo_byte_set m.stackBits (o + i) b }

/-- The board value currently stored at `p` (the view the read-only board
functions of the rules engine operate on when handed the pointer `p`). -/
def xo_mem_board (m : xo_memory) (p : xo_ptr) : xo_board_data :=
  fun i => xo_mem_read m p i

/-- Translation of `xo_stack_reset`: sets the bump offset of `minimax_stack` to 0. -/
def xo_stack_reset (m : xo_memory) : xo_memory :=
  { m with stackOffset := 0 }

/-- Translation of `xo_stack_alloc (minimax_stack, size)`: returns the current offset and
bumps it. The C code asserts `offset + size <= stack->size`; the model
records a violation in `overflowed` instead of aborting. -/
def xo_stack_alloc (m : xo_memory) (size : Nat) : Nat × xo_memory :=
  (m.stackOffset,
    { m with
      stackOffset := m.stackOffset + size
      overflowed := m.overflowed || decide (m.stackSize < m.stackOffset + size) })

/-- Translation of `memcpy (new_board->squares, last_board->squares, 9)`: snapshots the
nine source bytes, then writes them to the destination block. All blocks
handed out by `xo_stack_alloc` here start at multiples of 9, so distinct
blocks are disjoint and a copy between coinciding blocks is the identity,
which the snapshot semantics reproduces. -/
def xo_board_memcpy (m : xo_memory) (dst src : xo_ptr) : xo_memory :=
  let snapshot := xo_mem_board m src
  (List.range 9).foldl (fun acc i => xo_mem_write acc dst i (snapshot i)) m

/-- The function `xo_board_bit_clear_at` applied through a pointer. -/
def xo_mem_bit_clear_at (m : xo_memory) (p : xo_ptr) (bit col row : Nat) : xo_memory :=
  xo_mem_write m p (xo_square_index col row)
    (xo_mem_read m p (xo_square_index col row) &&& (255 ^^^ bit))

/-- The function `xo_board_bit_set_at` applied through a pointer. -/
def xo_mem_bit_set_at (m : xo_memory) (p : xo_ptr) (bit col row : Nat) : xo_memory :=
  xo_mem_write m p (xo_square_index col row)
    (xo_mem_read m p (xo_square_index col row) ||| bit)

/-- The C struct xo_cpu_response; `move = none` models `has_move == SDL_FALSE`,
in which case the `move` field of the C struct is left uninitialized. -/
structure xo_cpu_response where
  score : Int
  move : Option (Nat × Nat)
deriving DecidableEq

def INT32_MIN : Int := -(2 ^ 31)

def INT32_MAX : Int := 2 ^ 31 - 1

/-- The `(col, row)` pairs visited by the nested loops
`for col in 0..2 { for row in 0..2 }` of the search, in order. -/
def xo_scan_order : List (Nat × Nat) :=
  [(0, 0), (0, 1), (0, 2), (1, 0), (1, 1), (1, 2), (2, 0), (2, 1), (2, 2)]

/-- One iteration block of the search loop (lines allocating the copy and
placing the hypothetical mark): `xo_stack_alloc` of 9 bytes, `memcpy` from
`last_board`, clear the EMPTY bit, set the side bit. Returns the pointer
to the new simulation board and the new memory. -/
def xo_simulate_placement (m : xo_memory) (last_board : xo_ptr)
    (simulated_side col row : Nat) : xo_ptr × xo_memory :=
  let (off, m1) := xo_stack_alloc m 9
  let new_board := xo_ptr.stack off
  let m2 := xo_board_memcpy m1 new_board last_board
  let m3 := xo_mem_bit_clear_at m2 new_board XO_BIT_MEANING_EMPTY col row
  let m4 := xo_mem_bit_set_at m3 new_board simulated_side col row
  (new_board, m4)

/-- The scan loop of `xo_game_cpu_minimax_eval`, parametrized by the
recursive evaluator `evalf` (the search at one lower fuel). Threads the
memory and the running `best_score` / `best_move` / `move_found` state
through the remaining `(col, row)` pairs. Returns `none` if fuel runs out
inside a recursive evaluation. -/
def xo_minimax_loop
    (evalf : xo_memory → xo_ptr → Nat → Option (xo_cpu_response × xo_memory))
    (last_board : xo_ptr) (simulated_side : Nat) :
    List (Nat × Nat) → xo_memory → Int → Option (Nat × Nat) →
    Option (xo_cpu_response × xo_memory)
  | [], m, best_score, best_move => some (⟨best_score, best_move⟩, m)
  | (col, row) :: rest, m, best_score, best_move =>
    if xo_board_bit_check_at (xo_mem_board m last_board)
        XO_BIT_MEANING_EMPTY col row then
      let (new_board, m4) := xo_simulate_placement m last_board simulated_side col row
      match evalf m4 new_board
          (if simulated_side == XO_BIT_MEANING_SIDE_O
            then XO_BIT_MEANING_SIDE_X else XO_BIT_MEANING_SIDE_O) with
      | none => none
      | some (simulated_response, m5) =>
        if simulated_side == XO_BIT_MEANING_SIDE_O then
          if simulated_response.score > best_score then
            xo_minimax_loop evalf last_board simulated_side rest m5
              simulated_response.score (some (col, row))
          else
            xo_minimax_loop evalf last_board simulated_side rest m5
              best_score best_move
        else if simulated_side == XO_BIT_MEANING_SIDE_X then
          if simulated_response.score < best_score then
            xo_minimax_loop evalf last_board simulated_side rest m5
              simulated_response.score (some (col, row))
          else
            xo_minimax_loop evalf last_board simulated_side rest m5
              best_score best_move
        else
          xo_minimax_loop evalf last_board simulated_side rest m5
            best_score best_move
    else
      xo_minimax_loop evalf last_board simulated_side rest m best_score best_move

/-- Translation of `xo_game_cpu_minimax_eval`, fuel-indexed (`none` = fuel exhausted).
Terminal check first; otherwise initialize `best_score`
(`INT32_MIN` for O, `INT32_MAX` otherwise), `xo_stack_reset` the
minimax stack, and run the scan loop. -/
def xo_game_cpu_minimax_eval :
    Nat → xo_memory → xo_ptr → Nat → Option (xo_cpu_response × xo_memory)
  | 0, _, _, _ => none
  | fuel + 1, m, last_board, simulated_side =>
    let board_win_state := xo_board_test_if_final_state (xo_mem_board m last_board)
    if board_win_state ≠ xo_win_state_type.NONE then
      some (⟨board_win_state.val, none⟩, m)
    else
      let best_score : Int :=
        if simulated_side == XO_BIT_MEANING_SIDE_O then INT32_MIN else INT32_MAX
      let m1 := xo_stack_reset m
      xo_minimax_loop (xo_game_cpu_minimax_eval fuel) last_board simulated_side
        xo_scan_order m1 best_score none

/-- Pack the nine board bytes into the base-256 encoding. -/
def xo_board_pack (b : xo_board_data) : Nat :=
  ((List.range 9).map fun i => b i % 256 * 256 ^ i).sum

/-- The memory state `xo_game_cpu_find_next_play` sets up: the given live
board outside the stack, and `minimax_stack = xo_stack_new (10000)`
(zeroed bytes, offset 0). -/
def xo_initial_memory (b : xo_board_data) : xo_memory :=
  { ext := xo_board_pack b
    stackBits := 0
    stackSize := 10000
    stackOffset := 0
    overflowed := false }

/-- Translation of `xo_game_cpu_find_next_play`: runs the search on the live board with
`simulated_side = SIDE_O` over a fresh 10000-byte stack and returns the
response (whose `move` the caller uses). -/
def xo_game_cpu_find_next_play (fuel : Nat) (b : xo_board_data) :
    Option (xo_cpu_response × xo_memory) :=
  xo_game_cpu_minimax_eval fuel (xo_initial_memory b) xo_ptr.external
    XO_BIT_MEANING_SIDE_O

/-! ### Specification-side notions

The spec speaks of cells holding exactly one of three states, of a side
occupying all three cells of a row, a column, the main diagonal or the
anti-diagonal, and of a board with no Empty cell. These are written here
directly from the words of the spec, to be compared with the functions
translated from the source. -/

/-- The byte of square `(col, row)`. -/
def xo_cell (b : xo_board_data) (col row : Nat) : Nat :=
  b (xo_square_index col row)

/-- Well-formed board in the sense of the claims: every cell is exactly
one of Empty (1), the X mark (2), the O mark (4). -/
def xo_board_wf (b : xo_board_data) : Prop :=
  ∀ col row : Fin 3, xo_cell b col row = 1 ∨ xo_cell b col row = 2 ∨
    xo_cell b col row = 4

/-- Spec notion of a side having three marks in a line: all three cells of
some row, or of some column, or of the main diagonal (0,0)-(1,1)-(2,2), or
of the anti-diagonal (2,0)-(1,1)-(0,2). -/
def xo_spec_line_win (b : xo_board_data) (side : Nat) : Prop :=
  (∃ r : Fin 3, ∀ c : Fin 3, xo_cell b c r = side)
  ∨ (∃ c : Fin 3, ∀ r : Fin 3, xo_cell b c r = side)
  ∨ (xo_cell b 0 0 = side ∧ xo_cell b 1 1 = side ∧ xo_cell b 2 2 = side)
  ∨ (xo_cell b 2 0 = side ∧ xo_cell b 1 1 = side ∧ xo_cell b 0 2 = side)

/-- Spec notion of a full board: no cell is Empty. -/
def xo_spec_no_empty (b : xo_board_data) : Prop :=
  ∀ col row : Fin 3, xo_cell b col row ≠ 1

/-- A byte in which exactly one of the three occupancy bits
(EMPTY, SIDE_X, SIDE_O) is set. -/
def xo_exactly_one_occupancy_bit (v : Nat) : Prop :=
  (v &&& 1 ≠ 0 ∧ v &&& 2 = 0 ∧ v &&& 4 = 0)
  ∨ (v &&& 1 = 0 ∧ v &&& 2 ≠ 0 ∧ v &&& 4 = 0)
  ∨ (v &&& 1 = 0 ∧ v &&& 2 = 0 ∧ v &&& 4 ≠ 0)

/-- A sequence of `xo_game_play` calls applied to the live board
(each entry is `(side, col, row)`); rejected moves leave the board
unchanged, exactly as in the C function. -/
def xo_play_seq (b : xo_board_data) : List (Nat × Nat × Nat) → xo_board_data
  | [] => b
  | (side, col, row) :: rest => xo_play_seq (xo_game_play b side col row).2 rest

/-! ### Concrete boards appearing in the claims -/

/-- Board with the O mark (Computer) on the main diagonal, every other
cell Empty. -/
def xo_board_o_diagonal : xo_board_data :=
  xo_board_of_list [4, 1, 1, 1, 4, 1, 1, 1, 4]

/-- The C4 scenario board: Computer (O) at (0,0) and (1,1), Player (X) at
(0,1) and (0,2), all other cells Empty; bytes listed in `col * 3 + row`
order. -/
def xo_board_c4 : xo_board_data :=
  xo_board_of_list [4, 2, 2, 1, 4, 1, 1, 1, 1]

/-- The C5 scenario board: Player (X) at (0,0) and (1,0), all other cells
Empty. -/
def xo_board_c5 : xo_board_data :=
  xo_board_of_list [2, 1, 1, 2, 1, 1, 1, 1, 1]

/-- A board where X (the Player) already has the line (0,0)-(1,0)-(2,0)
while six cells are still Empty. -/
def xo_board_x_won : xo_board_data :=
  xo_board_of_list [2, 1, 1, 2, 1, 1, 2, 1, 1]

/-- Memory states occurring in the top-level search from the empty board:
the external board is the all-Empty board (packed value
18519084246547628289), with the given stack bytes and bump offset. -/
def xo_c3_mem (bits off : Nat) : xo_memory :=
  ⟨18519084246547628289, bits, 10000, off, false⟩

/-- Memory states occurring in the CPU search after the first player
click of the C7 trace: the external board has X at (0,0) and the other
eight squares Empty (packed value 18519084246547628290), with the given
stack bytes and bump offset. -/
def xo_c7_mem (bits off : Nat) : xo_memory :=
  ⟨18519084246547628290, bits, 10000, off, false⟩

/-! ### The C7 controller trace

`main` accepts a player click on an Empty square (`xo_game_play` with
SIDE_X), then immediately computes the CPU reply with
`xo_game_cpu_find_next_play` and applies it with `xo_game_play` with
SIDE_O. The boards below replay that loop for the player clicks
(0,0), (1,0), (2,0); the CPU replies, computed by the search itself,
are (0,1) and (0,2). -/

/-- Live board after the accepted player click at (0,0). -/
def xo_c7_b1 : xo_board_data :=
  (xo_game_play xo_board_initial XO_BIT_MEANING_SIDE_X 0 0).2

/-- Live board after the controller applies the CPU reply (0,1). -/
def xo_c7_b2 : xo_board_data :=
  (xo_game_play xo_c7_b1 XO_BIT_MEANING_SIDE_O 0 1).2

/-- Live board after the accepted player click at (1,0). -/
def xo_c7_b3 : xo_board_data :=
  (xo_game_play xo_c7_b2 XO_BIT_MEANING_SIDE_X 1 0).2

/-- Live board after the controller applies the CPU reply (0,2). -/
def xo_c7_b4 : xo_board_data :=
  (xo_game_play xo_c7_b3 XO_BIT_MEANING_SIDE_O 0 2).2

/-- Live board after the accepted player click at (2,0), which completes
the X line (0,0)-(1,0)-(2,0). -/
def xo_c7_b5 : xo_board_data :=
  (xo_game_play xo_c7_b4 XO_BIT_MEANING_SIDE_X 2 0).2

/-! ## Lemmas and claim theorems -/

set_option maxRecDepth 4000 in
/-- Boolean shape of the four groups of line checks, over an arbitrary
cell predicate on `Fin 3` coordinates. -/
lemma xo_line_shape (f : Fin 3 → Fin 3 → Bool) :
    ((List.finRange 3).any (fun row => (List.finRange 3).all fun col => f col row)
      || (List.finRange 3).any (fun col => (List.finRange 3).all fun row => f col row)
      || (List.finRange 3).all (fun dia => f dia dia)
      || (List.finRange 3).all (fun dia => f (2 - dia) dia)) = true
      ↔ ((∃ r : Fin 3, ∀ c : Fin 3, f c r = true)
        ∨ (∃ c : Fin 3, ∀ r : Fin 3, f c r = true)
        ∨ (f 0 0 = true ∧ f 1 1 = true ∧ f 2 2 = true)
        ∨ (f 2 0 = true ∧ f 1 1 = true ∧ f 0 2 = true)) := by
  revert f
  decide

/-- Unfolding of the win-condition scan to the generic line shape over
`Fin 3` coordinates. -/
lemma xo_validate_eq_shape (b : xo_board_data) (side : Nat) :
    xo_board_validate_win_conditions_for b side =
      ((List.finRange 3).any (fun row => (List.finRange 3).all fun col =>
          xo_board_bit_check_at b side col row)
        || (List.finRange 3).any (fun col => (List.finRange 3).all fun row =>
          xo_board_bit_check_at b side col row)
        || (List.finRange 3).all (fun dia =>
          xo_board_bit_check_at b side dia dia)
        || (List.finRange 3).all (fun dia =>
          xo_board_bit_check_at b side (((2 - dia : Fin 3)) : Nat) dia)) := rfl

/-- On a well-formed board, the bit test for a mark is the equality test
of the cell with that mark. -/
lemma xo_bit_check_iff_cell (b : xo_board_data) (side : Nat)
    (hb : xo_board_wf b) (hs : side = 2 ∨ side = 4) (col row : Fin 3) :
    xo_board_bit_check_at b side col row = true ↔ xo_cell b col row = side := by
  rcases hb col row with h | h | h <;> rcases hs with hs | hs <;>
    subst hs <;>
    simp [xo_board_bit_check_at, xo_cell, xo_square_index] at h ⊢ <;>
    rw [h] <;> decide

/-- The win-condition scan agrees with the spec notion of a line of marks
on every well-formed board, for either mark. -/
lemma xo_validate_iff_spec (b : xo_board_data) (side : Nat)
    (hb : xo_board_wf b) (hs : side = 2 ∨ side = 4) :
    xo_board_validate_win_conditions_for b side = true ↔
      xo_spec_line_win b side := by
  rw [xo_validate_eq_shape,
    xo_line_shape (fun c r => xo_board_bit_check_at b side c r)]
  simp only [xo_bit_check_iff_cell b side hb hs, xo_spec_line_win]
  norm_num

lemma xo_cell_play (b : xo_board_data) (side col row : Nat) (c r : Nat) :
    xo_cell (xo_game_play b side col row).2 c r
      = if xo_board_bit_check_at b XO_BIT_MEANING_EMPTY col row = true then
          (if xo_square_index c r = xo_square_index col row then
            (b (xo_square_index col row) &&& (255 ^^^ XO_BIT_MEANING_EMPTY)) ||| side
          else xo_cell b c r)
        else xo_cell b c r := by
  unfold xo_game_play xo_cell xo_board_bit_set_at xo_board_bit_clear_at
  by_cases hemp : xo_board_bit_check_at b XO_BIT_MEANING_EMPTY col row = true
  · simp only [hemp, if_true]
    by_cases heq : xo_square_index c r = xo_square_index col row
    · simp [heq]
    · simp only [if_neg heq]
  · simp only [hemp, if_false]
    simp at hemp
    simp [hemp]

lemma xo_square_index_inj (c r col row : Nat) (hc : c < 3) (hr : r < 3)
    (hc2 : col < 3) (hr2 : row < 3)
    (h : xo_square_index c r = xo_square_index col row) :
    c = col ∧ r = row := by
  unfold xo_square_index at h
  omega

lemma xo_game_play_wf (b : xo_board_data) (side col row : Nat)
    (hb : xo_board_wf b) (hs : side = 2 ∨ side = 4)
    (hc : col < 3) (hr : row < 3) :
    xo_board_wf (xo_game_play b side col row).2 := by
  intro c r
  rw [xo_cell_play]
  by_cases hemp : xo_board_bit_check_at b XO_BIT_MEANING_EMPTY col row = true
  · rw [if_pos hemp]
    by_cases heq : xo_square_index (c : Nat) (r : Nat) = xo_square_index col row
    · rw [if_pos heq]
      have hcr := xo_square_index_inj c r col row c.isLt r.isLt hc hr heq
      have hold : b (xo_square_index col row) = 1 := by
        have h9 := hb c r
        unfold xo_cell at h9
        rw [heq] at h9
        unfold xo_board_bit_check_at XO_BIT_MEANING_EMPTY at hemp
        rcases h9 with h | h | h
        · exact h
        · rw [h] at hemp; simp at hemp
        · rw [h] at hemp; simp at hemp
      rw [hold]
      rcases hs with hs | hs <;> subst hs
      · right; left; decide
      · right; right; decide
    · rw [if_neg heq]
      exact hb c r
  · rw [if_neg hemp]
    exact hb c r

lemma xo_play_seq_wf (moves : List (Nat × Nat × Nat)) :
    ∀ b : xo_board_data, xo_board_wf b →
    (∀ mv ∈ moves, (mv.1 = 2 ∨ mv.1 = 4) ∧ mv.2.1 < 3 ∧ mv.2.2 < 3) →
    xo_board_wf (xo_play_seq b moves) := by
  induction moves with
  | nil => intro b hb _; exact hb
  | cons mv rest ih =>
    intro b hb hm
    obtain ⟨side, col, row⟩ := mv
    have hmv := hm _ (List.mem_cons_self _ _)
    exact ih _ (xo_game_play_wf b side col row hb hmv.1 hmv.2.1 hmv.2.2)
      (fun p hp => hm p (List.mem_cons_of_mem _ hp))

lemma xo_board_initial_wf : xo_board_wf xo_board_initial := by
  intro c r
  left
  rfl

/-- C9: starting from the freshly initialized live board, after any
sequence of `xo_game_play` calls with an X or O mark and in-range
coordinates, every cell holds exactly one of the EMPTY, SIDE_X and SIDE_O
bits. -/
theorem xo_c9_claim (moves : List (Nat × Nat × Nat))
    (hm : ∀ mv ∈ moves, (mv.1 = 2 ∨ mv.1 = 4) ∧ mv.2.1 < 3 ∧ mv.2.2 < 3)
    (col row : Fin 3) :
    xo_exactly_one_occupancy_bit
      (xo_cell (xo_play_seq xo_board_initial moves) col row) := by
  rcases xo_play_seq_wf moves xo_board_initial xo_board_initial_wf hm col row
    with h | h | h <;> rw [h] <;> unfold xo_exactly_one_occupancy_bit <;> decide

/-! ### Stack-offset bounds for the search (C10) -/

lemma xo_simulate_placement_fields (m : xo_memory) (lb : xo_ptr)
    (side col row : Nat) :
    (xo_simulate_placement m lb side col row).1 = xo_ptr.stack m.stackOffset
    ∧ (xo_simulate_placement m lb side col row).2.stackSize = m.stackSize
    ∧ (xo_simulate_placement m lb side col row).2.stackOffset = m.stackOffset + 9
    ∧ (xo_simulate_placement m lb side col row).2.overflowed
        = (m.overflowed || decide (m.stackSize < m.stackOffset + 9))
    ∧ (xo_simulate_placement m lb side col row).2.ext = m.ext := by
  unfold xo_simulate_placement xo_stack_alloc xo_board_memcpy
    xo_mem_bit_clear_at xo_mem_bit_set_at
  rw [show List.range 9 = [0, 1, 2, 3, 4, 5, 6, 7, 8] from rfl]
  simp [xo_mem_write, List.foldl]

lemma xo_minimax_loop_stack_bound
    (evalf : xo_memory → xo_ptr → Nat → Option (xo_cpu_response × xo_memory))
    (K : Nat)
    (Heval : ∀ m lb side r m', evalf m lb side = some (r, m') →
      m.stackSize = 10000 → m.overflowed = false →
      m'.overflowed = false ∧ m'.stackSize = 10000 ∧
        m'.stackOffset ≤ max m.stackOffset K)
    (hK : K + 90 ≤ 10000)
    (lb : xo_ptr) (side : Nat) :
    ∀ cells : List (Nat × Nat), ∀ m : xo_memory, ∀ best bm r m',
    xo_minimax_loop evalf lb side cells m best bm = some (r, m') →
    m.stackSize = 10000 → m.overflowed = false →
    cells.length ≤ 9 →
    m.stackOffset + 9 * cells.length + 9 ≤ 10000 →
    m'.overflowed = false ∧ m'.stackSize = 10000 ∧
      m'.stackOffset ≤ max m.stackOffset K + 9 * cells.length := by
  intro cells
  induction cells with
  | nil =>
    intro m best bm r m' hrun hsz hovf _ _
    simp only [xo_minimax_loop, Option.some.injEq, Prod.mk.injEq] at hrun
    obtain ⟨-, hm'⟩ := hrun
    subst hm'
    exact ⟨hovf, hsz, by simp [Nat.le_max_left]⟩
  | cons p rest ih =>
    obtain ⟨col, row⟩ := p
    intro m best bm r m' hrun hsz hovf hlen hfit
    simp only [List.length_cons] at hlen hfit ⊢
    unfold xo_minimax_loop at hrun
    by_cases hemp : xo_board_bit_check_at (xo_mem_board m lb)
        XO_BIT_MEANING_EMPTY col row = true
    · rw [if_pos hemp] at hrun
      obtain ⟨hp1, hp2, hp3, hp4, hp5⟩ :=
        xo_simulate_placement_fields m lb side col row
      rcases hsp : xo_simulate_placement m lb side col row with ⟨nb, m4⟩
      rw [hsp] at hrun hp1 hp2 hp3 hp4 hp5
      simp only at hrun hp1 hp2 hp3 hp4 hp5
      have hm4sz : m4.stackSize = 10000 := by rw [hp2, hsz]
      have hm4ovf : m4.overflowed = false := by
        rw [hp4, hovf, hsz]
        simp
        omega
      have hm4off : m4.stackOffset = m.stackOffset + 9 := hp3
      rcases heval : evalf m4 nb
          (if side == XO_BIT_MEANING_SIDE_O
            then XO_BIT_MEANING_SIDE_X else XO_BIT_MEANING_SIDE_O)
        with - | rm5
      · rw [heval] at hrun
        simp at hrun
      obtain ⟨resp, m5⟩ := rm5
      rw [heval] at hrun
      simp only at hrun
      obtain ⟨h5ovf, h5sz, h5off⟩ := Heval m4 nb _ resp m5 heval hm4sz hm4ovf
      rw [hm4off] at h5off
      have h5c := le_max_iff.mp h5off
      have hnext : ∀ b2 bm2,
          xo_minimax_loop evalf lb side rest m5 b2 bm2 = some (r, m') →
          m'.overflowed = false ∧ m'.stackSize = 10000 ∧
            m'.stackOffset ≤ max m.stackOffset K + 9 * (rest.length + 1) := by
        intro b2 bm2 hrun2
        obtain ⟨j1, j2, j3⟩ := ih m5 b2 bm2 r m' hrun2 h5sz h5ovf
          (by omega) (by rcases h5c with h | h <;> omega)
        refine ⟨j1, j2, ?_⟩
        have hmaxl := Nat.le_max_left m.stackOffset K
        have hj : max m5.stackOffset K ≤ max m.stackOffset K + 9 := by
          rcases h5c with h | h <;> exact max_le (by omega) (by omega)
        omega
      split at hrun
      · split at hrun
        · exact hnext _ _ hrun
        · exact hnext _ _ hrun
      · split at hrun
        · split at hrun
          · exact hnext _ _ hrun
          · exact hnext _ _ hrun
        · exact hnext _ _ hrun
    · rw [if_neg hemp] at hrun
      obtain ⟨j1, j2, j3⟩ := ih m best bm r m' hrun hsz hovf (by omega) (by omega)
      exact ⟨j1, j2, by omega⟩

lemma xo_minimax_eval_stack_bound :
    ∀ fuel : Nat, ∀ m lb side r m',
    xo_game_cpu_minimax_eval fuel m lb side = some (r, m') →
    m.stackSize = 10000 → m.overflowed = false →
    81 * fuel + 90 ≤ 10000 →
    m'.overflowed = false ∧ m'.stackSize = 10000 ∧
      m'.stackOffset ≤ max m.stackOffset (81 * fuel) := by
  intro fuel
  induction fuel with
  | zero =>
    intro m lb side r m' hrun
    simp [xo_game_cpu_minimax_eval] at hrun
  | succ f ih =>
    intro m lb side r m' hrun hsz hovf hfuel
    unfold xo_game_cpu_minimax_eval at hrun
    by_cases hterm : xo_board_test_if_final_state (xo_mem_board m lb)
        ≠ xo_win_state_type.NONE
    · rw [if_pos hterm] at hrun
      simp only [Option.some.injEq, Prod.mk.injEq] at hrun
      obtain ⟨-, hm'⟩ := hrun
      subst hm'
      exact ⟨hovf, hsz, Nat.le_max_left _ _⟩
    · rw [if_neg hterm] at hrun
      have Heval : ∀ m2 lb2 side2 r2 m2',
          xo_game_cpu_minimax_eval f m2 lb2 side2 = some (r2, m2') →
          m2.stackSize = 10000 → m2.overflowed = false →
          m2'.overflowed = false ∧ m2'.stackSize = 10000 ∧
            m2'.stackOffset ≤ max m2.stackOffset (81 * f) :=
        fun m2 lb2 side2 r2 m2' h h2 h3 =>
          ih m2 lb2 side2 r2 m2' h h2 h3 (by omega)
      obtain ⟨j1, j2, j3⟩ := xo_minimax_loop_stack_bound
        (xo_game_cpu_minimax_eval f) (81 * f) Heval (by omega) lb side
        xo_scan_order (xo_stack_reset m) _ _ r m' hrun
        (by simp [xo_stack_reset, hsz]) (by simp [xo_stack_reset, hovf])
        (by rw [show xo_scan_order.length = 9 from rfl])
        (by rw [show xo_scan_order.length = 9 from rfl]
            simp [xo_stack_reset])
      refine ⟨j1, j2, ?_⟩
      have : (xo_stack_reset m).stackOffset = 0 := rfl
      rw [show xo_scan_order.length = 9 from rfl] at j3
      have hm : max (xo_stack_reset m).stackOffset (81 * f) = 81 * f := by
        rw [this]; omega
      rw [hm] at j3
      have : 81 * f + 9 * 9 = 81 * (f + 1) := by ring
      calc m'.stackOffset ≤ 81 * f + 9 * 9 := j3
        _ = 81 * (f + 1) := this
        _ ≤ max m.stackOffset (81 * (f + 1)) := Nat.le_max_right _ _

/-- C10: every completed search leaves the overflow flag clear: no
`xo_stack_alloc` during `xo_game_cpu_find_next_play` ever violates
`offset + size <= stack->size` (fuel bound 81 * fuel + 90 <= 10000, i.e.
recursion depth up to 122, far above the at most 9 plies of a real game). -/
theorem xo_c10_no_stack_overflow (b : xo_board_data) (fuel : Nat)
    (r : xo_cpu_response) (m' : xo_memory)
    (hfuel : 81 * fuel + 90 ≤ 10000)
    (hrun : xo_game_cpu_find_next_play fuel b = some (r, m')) :
    m'.overflowed = false :=
  (xo_minimax_eval_stack_bound fuel (xo_initial_memory b) xo_ptr.external
    XO_BIT_MEANING_SIDE_O r m' hrun rfl rfl hfuel).1

theorem xo_c10_no_stack_overflow_witness :
    (81 * 1 + 90 ≤ 10000) ∧ (xo_initial_memory xo_board_x_won).overflowed = false := by
  have h : xo_game_cpu_find_next_play 1 xo_board_x_won
      = some (⟨1, none⟩, xo_initial_memory xo_board_x_won) := by decide
  exact ⟨by norm_num,
    xo_c10_no_stack_overflow xo_board_x_won 1 ⟨1, none⟩ _ (by norm_num) h⟩

/-! ### Shape of the search response (C6) -/

lemma xo_stack_reset_board (m : xo_memory) (lb : xo_ptr) :
    xo_mem_board (xo_stack_reset m) lb = xo_mem_board m lb := rfl

lemma xo_mem_board_ext_congr (m1 m2 : xo_memory) (h : m1.ext = m2.ext) :
    xo_mem_board m1 xo_ptr.external = xo_mem_board m2 xo_ptr.external := by
  funext i
  simp [xo_mem_board, xo_mem_read, h]

lemma xo_scan_empty_to_full (b : xo_board_data)
    (h : ∀ p ∈ xo_scan_order,
      xo_board_bit_check_at b XO_BIT_MEANING_EMPTY p.1 p.2 = false) :
    xo_board_check_if_full b = true := by
  have h00 := h (0, 0) (by decide)
  have h01 := h (0, 1) (by decide)
  have h02 := h (0, 2) (by decide)
  have h10 := h (1, 0) (by decide)
  have h11 := h (1, 1) (by decide)
  have h12 := h (1, 2) (by decide)
  have h20 := h (2, 0) (by decide)
  have h21 := h (2, 1) (by decide)
  have h22 := h (2, 2) (by decide)
  simp only at h00 h01 h02 h10 h11 h12 h20 h21 h22
  simp [xo_board_check_if_full, xo_range3, h00, h01, h02, h10, h11, h12,
    h20, h21, h22]

lemma xo_full_final (b : xo_board_data)
    (h : xo_board_check_if_full b = true) :
    xo_board_test_if_final_state b ≠ xo_win_state_type.NONE := by
  unfold xo_board_test_if_final_state
  rw [h]
  split <;> simp
  split <;> simp

lemma xo_minimax_loop_response
    (evalf : xo_memory → xo_ptr → Nat → Option (xo_cpu_response × xo_memory))
    (HA : ∀ m lb2 side2 r m', (side2 = XO_BIT_MEANING_SIDE_X ∨
        side2 = XO_BIT_MEANING_SIDE_O) →
      evalf m lb2 side2 = some (r, m') →
      (r.score = -1 ∨ r.score = 0 ∨ r.score = 1) ∧ m'.ext = m.ext)
    (lb : xo_ptr) (side : Nat)
    (hside : side = XO_BIT_MEANING_SIDE_X ∨ side = XO_BIT_MEANING_SIDE_O) :
    ∀ cells : List (Nat × Nat), ∀ m best bm r m',
    xo_minimax_loop evalf lb side cells m best bm = some (r, m') →
    (bm = none →
      (side = XO_BIT_MEANING_SIDE_O ∧ best = INT32_MIN) ∨
      (side = XO_BIT_MEANING_SIDE_X ∧ best = INT32_MAX)) →
    (∀ p : Nat × Nat, bm = some p → p ∈ xo_scan_order ∧
      (lb = xo_ptr.external → xo_board_bit_check_at
        (xo_mem_board m xo_ptr.external) XO_BIT_MEANING_EMPTY p.1 p.2 = true)) →
    (bm ≠ none → (best = -1 ∨ best = 0 ∨ best = 1)) →
    (∀ p ∈ cells, p ∈ xo_scan_order) →
    m'.ext = m.ext ∧
    (r.move = none → r.score = best ∧ bm = none ∧
      ∀ p ∈ cells, xo_board_bit_check_at (xo_mem_board m lb)
        XO_BIT_MEANING_EMPTY p.1 p.2 = false) ∧
    (r.move ≠ none → (r.score = -1 ∨ r.score = 0 ∨ r.score = 1)) ∧
    (∀ p : Nat × Nat, r.move = some p → p ∈ xo_scan_order ∧
      (lb = xo_ptr.external → xo_board_bit_check_at
        (xo_mem_board m xo_ptr.external) XO_BIT_MEANING_EMPTY p.1 p.2 = true)) := by
  intro cells
  induction cells with
  | nil =>
    intro m best bm r m' hrun hbm hbm2 hbest hcells
    simp only [xo_minimax_loop, Option.some.injEq, Prod.mk.injEq] at hrun
    obtain ⟨hr, hm'⟩ := hrun
    subst hm'
    refine ⟨rfl, ?_, ?_, ?_⟩
    · intro hmv
      rw [← hr] at hmv
      simp only at hmv
      subst hmv
      rw [← hr]
      exact ⟨rfl, rfl, fun p hp => absurd hp (List.not_mem_nil p)⟩
    · intro hmv
      rw [← hr]
      simp only
      apply hbest
      intro hno
      apply hmv
      rw [← hr, hno]
    · intro p hp
      apply hbm2
      rw [← hr] at hp
      exact hp
  | cons q rest ih =>
    obtain ⟨col, row⟩ := q
    intro m best bm r m' hrun hbm hbm2 hbest hcells
    have hqscan : (col, row) ∈ xo_scan_order :=
      hcells (col, row) (List.mem_cons_self _ _)
    have hrest : ∀ p ∈ rest, p ∈ xo_scan_order :=
      fun p hp => hcells p (List.mem_cons_of_mem _ hp)
    unfold xo_minimax_loop at hrun
    by_cases hemp : xo_board_bit_check_at (xo_mem_board m lb)
        XO_BIT_MEANING_EMPTY col row = true
    · rw [if_pos hemp] at hrun
      obtain ⟨hp1, hp2, hp3, hp4, hp5⟩ :=
        xo_simulate_placement_fields m lb side col row
      rcases hsp : xo_simulate_placement m lb side col row with ⟨nb, m4⟩
      rw [hsp] at hrun hp5
      simp only at hrun hp5
      rcases heval : evalf m4 nb
          (if side == XO_BIT_MEANING_SIDE_O
            then XO_BIT_MEANING_SIDE_X else XO_BIT_MEANING_SIDE_O)
        with - | rm5
      · rw [heval] at hrun
        simp at hrun
      obtain ⟨resp, m5⟩ := rm5
      rw [heval] at hrun
      simp only at hrun
      have hopp : (if side == XO_BIT_MEANING_SIDE_O
          then XO_BIT_MEANING_SIDE_X else XO_BIT_MEANING_SIDE_O)
          = XO_BIT_MEANING_SIDE_X ∨
          (if side == XO_BIT_MEANING_SIDE_O
          then XO_BIT_MEANING_SIDE_X else XO_BIT_MEANING_SIDE_O)
          = XO_BIT_MEANING_SIDE_O := by
        split <;> simp
      obtain ⟨hscore5, hext5⟩ := HA m4 nb _ resp m5 hopp heval
      have hext5m : m5.ext = m.ext := by rw [hext5, hp5]
      have hboard5 : xo_mem_board m5 xo_ptr.external
          = xo_mem_board m xo_ptr.external :=
        xo_mem_board_ext_congr m5 m hext5m
      -- transfer of the incoming assumptions to memory m5
      have hbm2m5 : ∀ bmv : Option (Nat × Nat),
          (∀ p : Nat × Nat, bmv = some p → p ∈ xo_scan_order ∧
            (lb = xo_ptr.external → xo_board_bit_check_at
              (xo_mem_board m xo_ptr.external) XO_BIT_MEANING_EMPTY
                p.1 p.2 = true)) →
          (∀ p : Nat × Nat, bmv = some p → p ∈ xo_scan_order ∧
            (lb = xo_ptr.external → xo_board_bit_check_at
              (xo_mem_board m5 xo_ptr.external) XO_BIT_MEANING_EMPTY
                p.1 p.2 = true)) := by
        intro bmv hprev p hp
        rw [hboard5]
        exact hprev p hp
      have hback : ∀ best2 bm2,
          xo_minimax_loop evalf lb side rest m5 best2 bm2 = some (r, m') →
          (bm2 = none →
            (side = XO_BIT_MEANING_SIDE_O ∧ best2 = INT32_MIN) ∨
            (side = XO_BIT_MEANING_SIDE_X ∧ best2 = INT32_MAX)) →
          (∀ p : Nat × Nat, bm2 = some p → p ∈ xo_scan_order ∧
            (lb = xo_ptr.external → xo_board_bit_check_at
              (xo_mem_board m5 xo_ptr.external) XO_BIT_MEANING_EMPTY
                p.1 p.2 = true)) →
          (bm2 ≠ none → (best2 = -1 ∨ best2 = 0 ∨ best2 = 1)) →
          bm2 ≠ none →
          m'.ext = m.ext ∧
          (r.move = none → r.score = best ∧ bm = none ∧
            ∀ p ∈ (col, row) :: rest, xo_board_bit_check_at
              (xo_mem_board m lb) XO_BIT_MEANING_EMPTY p.1 p.2 = false) ∧
          (r.move ≠ none → (r.score = -1 ∨ r.score = 0 ∨ r.score = 1)) ∧
          (∀ p : Nat × Nat, r.move = some p → p ∈ xo_scan_order ∧
            (lb = xo_ptr.external → xo_board_bit_check_at
              (xo_mem_board m xo_ptr.external) XO_BIT_MEANING_EMPTY
                p.1 p.2 = true)) := by
        intro best2 bm2 hrun2 k1 k2 k3 kne
        obtain ⟨j1, j2, j3, j4⟩ := ih m5 best2 bm2 r m' hrun2 k1 k2 k3 hrest
        refine ⟨by rw [j1, hext5m], ?_, j3, ?_⟩
        · intro hmv
          exact absurd (j2 hmv).2.1 kne
        · intro p hp
          obtain ⟨jm, je⟩ := j4 p hp
          refine ⟨jm, ?_⟩
          intro hlb
          rw [← hboard5]
          exact je hlb
      rcases hside with hs | hs <;> subst hs
      · -- simulated side is X: the minimizing branch
        rw [show (XO_BIT_MEANING_SIDE_X == XO_BIT_MEANING_SIDE_O) = false
            from rfl,
          show (XO_BIT_MEANING_SIDE_X == XO_BIT_MEANING_SIDE_X) = true
            from rfl] at hrun
        simp only [reduceIte] at hrun
        by_cases hlt : resp.score < best
        · rw [if_pos hlt] at hrun
          refine hback resp.score (some (col, row)) hrun
            (fun h => by simp at h) ?_ (fun _ => hscore5)
            (Option.some_ne_none _)
          intro p hp
          rw [Option.some_inj] at hp
          subst hp
          refine ⟨hqscan, fun hlb => ?_⟩
          rw [hboard5]
          rw [hlb] at hemp
          exact hemp
        · rw [if_neg hlt] at hrun
          have hbmne : bm ≠ none := by
            intro hno
            rcases hbm hno with ⟨hcontra, -⟩ | ⟨-, hmax⟩
            · exact absurd hcontra (by decide)
            · subst hmax
              rcases hscore5 with h | h | h <;> rw [h] at hlt <;>
                exact hlt (by norm_num [INT32_MAX])
          exact hback best bm hrun hbm (hbm2m5 bm hbm2) hbest hbmne
      · -- simulated side is O: the maximizing branch
        rw [show (XO_BIT_MEANING_SIDE_O == XO_BIT_MEANING_SIDE_O) = true
            from rfl] at hrun
        simp only [reduceIte] at hrun
        by_cases hgt : resp.score > best
        · rw [if_pos hgt] at hrun
          refine hback resp.score (some (col, row)) hrun
            (fun h => by simp at h) ?_ (fun _ => hscore5)
            (Option.some_ne_none _)
          intro p hp
          rw [Option.some_inj] at hp
          subst hp
          refine ⟨hqscan, fun hlb => ?_⟩
          rw [hboard5]
          rw [hlb] at hemp
          exact hemp
        · rw [if_neg hgt] at hrun
          have hbmne : bm ≠ none := by
            intro hno
            rcases hbm hno with ⟨-, hmin⟩ | ⟨hcontra, -⟩
            · subst hmin
              rcases hscore5 with h | h | h <;> rw [h] at hgt <;>
                exact hgt (by norm_num [INT32_MIN])
            · exact absurd hcontra (by decide)
          exact hback best bm hrun hbm (hbm2m5 bm hbm2) hbest hbmne
    · rw [if_neg hemp] at hrun
      obtain ⟨j1, j2, j3, j4⟩ := ih m best bm r m' hrun hbm hbm2 hbest hrest
      refine ⟨j1, ?_, j3, j4⟩
      intro hmv
      obtain ⟨k1, k2, k3⟩ := j2 hmv
      refine ⟨k1, k2, ?_⟩
      intro p hp
      rcases List.mem_cons.mp hp with hp | hp
      · subst hp
        simp at hemp
        exact hemp
      · exact k3 p hp

lemma xo_minimax_eval_response :
    ∀ fuel : Nat, ∀ m lb side r m',
    (side = XO_BIT_MEANING_SIDE_X ∨ side = XO_BIT_MEANING_SIDE_O) →
    xo_game_cpu_minimax_eval fuel m lb side = some (r, m') →
    (r.score = -1 ∨ r.score = 0 ∨ r.score = 1) ∧
    m'.ext = m.ext ∧
    (r.move = none ↔ xo_board_test_if_final_state (xo_mem_board m lb)
      ≠ xo_win_state_type.NONE) ∧
    (∀ p : Nat × Nat, r.move = some p → p ∈ xo_scan_order ∧
      (lb = xo_ptr.external → xo_board_bit_check_at
        (xo_mem_board m xo_ptr.external) XO_BIT_MEANING_EMPTY
          p.1 p.2 = true)) := by
  intro fuel
  induction fuel with
  | zero =>
    intro m lb side r m' hside hrun
    simp [xo_game_cpu_minimax_eval] at hrun
  | succ f ih =>
    intro m lb side r m' hside hrun
    unfold xo_game_cpu_minimax_eval at hrun
    by_cases hterm : xo_board_test_if_final_state (xo_mem_board m lb)
        ≠ xo_win_state_type.NONE
    · rw [if_pos hterm] at hrun
      simp only [Option.some.injEq, Prod.mk.injEq] at hrun
      obtain ⟨hr, hm'⟩ := hrun
      subst hm'
      refine ⟨?_, rfl, ?_, ?_⟩
      · rw [← hr]
        simp only
        rcases hst : xo_board_test_if_final_state (xo_mem_board m lb) <;>
          simp [xo_win_state_type.val]
        rw [hst] at hterm
        simp at hterm
      · rw [← hr]
        simp only
        simp [hterm]
      · intro p hp
        rw [← hr] at hp
        simp at hp
    · rw [if_neg hterm] at hrun
      have HA : ∀ m2 lb2 side2 r2 m2', (side2 = XO_BIT_MEANING_SIDE_X ∨
            side2 = XO_BIT_MEANING_SIDE_O) →
          xo_game_cpu_minimax_eval f m2 lb2 side2 = some (r2, m2') →
          (r2.score = -1 ∨ r2.score = 0 ∨ r2.score = 1) ∧ m2'.ext = m2.ext :=
        fun m2 lb2 side2 r2 m2' h2 hr2 =>
          ⟨(ih m2 lb2 side2 r2 m2' h2 hr2).1, (ih m2 lb2 side2 r2 m2' h2 hr2).2.1⟩
      have hbminit : (none : Option (Nat × Nat)) = none →
          (side = XO_BIT_MEANING_SIDE_O ∧
            (if side == XO_BIT_MEANING_SIDE_O then INT32_MIN else INT32_MAX)
              = INT32_MIN) ∨
          (side = XO_BIT_MEANING_SIDE_X ∧
            (if side == XO_BIT_MEANING_SIDE_O then INT32_MIN else INT32_MAX)
              = INT32_MAX) := by
        intro _
        rcases hside with hs | hs <;> subst hs
        · exact Or.inr ⟨rfl, rfl⟩
        · exact Or.inl ⟨rfl, rfl⟩
      obtain ⟨j1, j2, j3, j4⟩ := xo_minimax_loop_response
        (xo_game_cpu_minimax_eval f) HA lb side hside xo_scan_order
        (xo_stack_reset m) _ none r m' hrun hbminit
        (fun p hp => by simp at hp)
        (fun h => absurd rfl h)
        (fun p hp => hp)
      have hmove : r.move ≠ none := by
        intro hmv
        obtain ⟨-, -, hall⟩ := j2 hmv
        rw [show xo_mem_board (xo_stack_reset m) lb = xo_mem_board m lb
          from rfl] at hall
        exact hterm (xo_full_final _ (xo_scan_empty_to_full _ hall))
      refine ⟨j3 hmove, j1, ?_, ?_⟩
      · constructor
        · intro hmv
          exact absurd hmv hmove
        · intro ht
          exact absurd ht hterm
      · intro p hp
        obtain ⟨jm, je⟩ := j4 p hp
        exact ⟨jm, je⟩

/-! ### Full-board test vs spec -/

lemma xo_full_eq_shape (b : xo_board_data) :
    xo_board_check_if_full b =
      ((List.finRange 3).all fun col => (List.finRange 3).all fun row =>
        ! xo_board_bit_check_at b XO_BIT_MEANING_EMPTY col row) := rfl

set_option maxRecDepth 4000 in
lemma xo_full_shape (f : Fin 3 → Fin 3 → Bool) :
    ((List.finRange 3).all fun col => (List.finRange 3).all fun row =>
      ! f col row) = true ↔ (∀ col row : Fin 3, ¬ f col row = true) := by
  revert f
  decide

lemma xo_empty_check_iff_cell (b : xo_board_data) (hb : xo_board_wf b)
    (col row : Fin 3) :
    xo_board_bit_check_at b XO_BIT_MEANING_EMPTY col row = true ↔
      xo_cell b col row = 1 := by
  rcases hb col row with h | h | h <;>
    simp [xo_board_bit_check_at, xo_cell, xo_square_index,
      XO_BIT_MEANING_EMPTY] at h ⊢ <;>
    rw [h] <;> decide

lemma xo_full_iff_spec (b : xo_board_data) (hb : xo_board_wf b) :
    xo_board_check_if_full b = true ↔ xo_spec_no_empty b := by
  rw [xo_full_eq_shape,
    xo_full_shape (fun c r => xo_board_bit_check_at b XO_BIT_MEANING_EMPTY c r)]
  unfold xo_spec_no_empty
  constructor
  · intro h c r
    intro hc
    exact h c r ((xo_empty_check_iff_cell b hb c r).mpr hc)
  · intro h c r hc
    exact h c r ((xo_empty_check_iff_cell b hb c r).mp hc)

/-- C1 amended: the four-way classification of
`xo_board_test_if_final_state`, with WIN tied to the Player (X) line and
LOSE to the Computer (O) line. -/
theorem xo_c1_classification (b : xo_board_data) (hb : xo_board_wf b) :
    (xo_board_test_if_final_state b = xo_win_state_type.WIN ↔
      xo_spec_line_win b XO_BIT_MEANING_SIDE_X)
    ∧ (xo_board_test_if_final_state b = xo_win_state_type.LOSE ↔
      ¬ xo_spec_line_win b XO_BIT_MEANING_SIDE_X ∧
        xo_spec_line_win b XO_BIT_MEANING_SIDE_O)
    ∧ (xo_board_test_if_final_state b = xo_win_state_type.TIE ↔
      ¬ xo_spec_line_win b XO_BIT_MEANING_SIDE_X ∧
        ¬ xo_spec_line_win b XO_BIT_MEANING_SIDE_O ∧ xo_spec_no_empty b)
    ∧ (xo_board_test_if_final_state b = xo_win_state_type.NONE ↔
      ¬ xo_spec_line_win b XO_BIT_MEANING_SIDE_X ∧
        ¬ xo_spec_line_win b XO_BIT_MEANING_SIDE_O ∧ ¬ xo_spec_no_empty b) := by
  have hX := xo_validate_iff_spec b XO_BIT_MEANING_SIDE_X hb (Or.inl rfl)
  have hO := xo_validate_iff_spec b XO_BIT_MEANING_SIDE_O hb (Or.inr rfl)
  have hF := xo_full_iff_spec b hb
  unfold xo_board_test_if_final_state
  rcases hvX : xo_board_validate_win_conditions_for b XO_BIT_MEANING_SIDE_X <;>
    rcases hvO : xo_board_validate_win_conditions_for b XO_BIT_MEANING_SIDE_O <;>
    rcases hvF : xo_board_check_if_full b <;>
    rw [hvX] at hX <;> rw [hvO] at hO <;> rw [hvF] at hF <;>
    simp only [Bool.false_eq_true, false_iff, true_iff, iff_false,
      iff_true] at hX hO hF <;>
    simp [hX, hO, hF]

theorem xo_c1_classification_witness :
    xo_board_wf xo_board_o_diagonal ∧
    (xo_board_test_if_final_state xo_board_o_diagonal = xo_win_state_type.WIN ↔
      xo_spec_line_win xo_board_o_diagonal XO_BIT_MEANING_SIDE_X) :=
  ⟨by unfold xo_board_wf; decide,
    (xo_c1_classification xo_board_o_diagonal
      (by unfold xo_board_wf; decide)).1⟩

/-- C1 counterexample: on the board whose main diagonal is three Computer
(O) marks, the Computer has three in a line, yet the classifier does not
return Win (it returns Lose). -/
theorem xo_c1_counterexample :
    xo_spec_line_win xo_board_o_diagonal XO_BIT_MEANING_SIDE_O ∧
    xo_board_test_if_final_state xo_board_o_diagonal ≠ xo_win_state_type.WIN ∧
    xo_board_test_if_final_state xo_board_o_diagonal
      = xo_win_state_type.LOSE := by
  refine ⟨?_, by decide, by decide⟩
  unfold xo_spec_line_win
  decide

/-- C8: the win-condition check returns true exactly when the given side
occupies a full row, column, main diagonal or anti-diagonal. -/
theorem xo_c8_win_conditions (b : xo_board_data) (side : Nat)
    (hb : xo_board_wf b)
    (hs : side = XO_BIT_MEANING_SIDE_X ∨ side = XO_BIT_MEANING_SIDE_O) :
    xo_board_validate_win_conditions_for b side = true ↔
      xo_spec_line_win b side :=
  xo_validate_iff_spec b side hb hs

theorem xo_c8_win_conditions_witness :
    xo_board_validate_win_conditions_for xo_board_o_diagonal
      XO_BIT_MEANING_SIDE_O = true ↔
      xo_spec_line_win xo_board_o_diagonal XO_BIT_MEANING_SIDE_O :=
  xo_c8_win_conditions xo_board_o_diagonal XO_BIT_MEANING_SIDE_O
    (by unfold xo_board_wf; decide) (Or.inr rfl)

theorem xo_c9_claim_witness :
    (∀ mv ∈ [((2 : Nat), (0 : Nat), (0 : Nat))],
      (mv.1 = 2 ∨ mv.1 = 4) ∧ mv.2.1 < 3 ∧ mv.2.2 < 3) ∧
    xo_exactly_one_occupancy_bit
      (xo_cell (xo_play_seq xo_board_initial [(2, 0, 0)]) (0 : Fin 3)
        (0 : Fin 3)) :=
  ⟨by decide, xo_c9_claim [(2, 0, 0)] (by decide) 0 0⟩

/-- C6 counterexample: a board on which the Player has already completed
a line but six cells are still Empty; the search returns no move although
Empty cells exist. -/
theorem xo_c6_counterexample :
    xo_board_bit_check_at xo_board_x_won XO_BIT_MEANING_EMPTY 0 1 = true ∧
    (xo_game_cpu_find_next_play 1 xo_board_x_won).map (fun p => p.1)
      = some ⟨1, none⟩ := by
  constructor <;> decide

/-- C6 amended: a move is absent exactly when the evaluated board is
terminal (a side has three in a line, or the board is full); when a move
is present, it lies in the scan order (so its coordinates are in 0..2)
and its square held the EMPTY bit in the input board. -/
theorem xo_c6_amended (b : xo_board_data) (fuel : Nat)
    (r : xo_cpu_response) (m' : xo_memory)
    (hrun : xo_game_cpu_find_next_play fuel b = some (r, m')) :
    (r.move = none ↔ xo_board_test_if_final_state
      (xo_mem_board (xo_initial_memory b) xo_ptr.external)
        ≠ xo_win_state_type.NONE) ∧
    (∀ col row : Nat, r.move = some (col, row) →
      (col, row) ∈ xo_scan_order ∧
      xo_board_bit_check_at (xo_mem_board (xo_initial_memory b) xo_ptr.external)
        XO_BIT_MEANING_EMPTY col row = true) := by
  obtain ⟨-, -, j3, j4⟩ := xo_minimax_eval_response fuel (xo_initial_memory b)
    xo_ptr.external XO_BIT_MEANING_SIDE_O r m' (Or.inr rfl) hrun
  exact ⟨j3, fun col row hp =>
    ⟨(j4 (col, row) hp).1, (j4 (col, row) hp).2 rfl⟩⟩

theorem xo_c6_amended_witness :
    ((xo_cpu_response.mk 1 none).move = none ↔ xo_board_test_if_final_state
      (xo_mem_board (xo_initial_memory xo_board_x_won) xo_ptr.external)
        ≠ xo_win_state_type.NONE) ∧
    (∀ col row : Nat, (xo_cpu_response.mk 1 none).move = some (col, row) →
      (col, row) ∈ xo_scan_order ∧
      xo_board_bit_check_at
        (xo_mem_board (xo_initial_memory xo_board_x_won) xo_ptr.external)
        XO_BIT_MEANING_EMPTY col row = true) :=
  xo_c6_amended xo_board_x_won 1 ⟨1, none⟩
    (xo_initial_memory xo_board_x_won) (by decide)

/-- C2: the aliasing of simulation boards, replayed on the first two
levels of the search from the empty board. The top-level call sees a
non-terminal board, resets the stack and simulates O at its first Empty
square (0,0); the recursive call on that simulation board sees a
non-terminal board, resets the stack again, finds (0,1) as its first
Empty square, and its own simulation board is handed out at the very same
stack block, so placing the X mark overwrites the cell (0,1) of the board
of the enclosing call (byte 1, EMPTY, becomes byte 2, SIDE_X). -/
theorem xo_c2_alias_mutation :
    xo_board_test_if_final_state
      (xo_mem_board (xo_initial_memory xo_board_initial) xo_ptr.external)
      = xo_win_state_type.NONE ∧
    (let m0 := xo_stack_reset (xo_initial_memory xo_board_initial)
    let s1 := xo_simulate_placement m0 xo_ptr.external
      XO_BIT_MEANING_SIDE_O 0 0
    xo_board_test_if_final_state (xo_mem_board s1.2 s1.1)
      = xo_win_state_type.NONE ∧
    xo_board_bit_check_at (xo_mem_board s1.2 s1.1)
      XO_BIT_MEANING_EMPTY 0 0 = false ∧
    xo_board_bit_check_at (xo_mem_board s1.2 s1.1)
      XO_BIT_MEANING_EMPTY 0 1 = true ∧
    (let s2 := xo_simulate_placement (xo_stack_reset s1.2) s1.1
      XO_BIT_MEANING_SIDE_X 0 1
    s2.1 = s1.1 ∧
    xo_mem_read s1.2 s1.1 (xo_square_index 0 1) = 1 ∧
    xo_mem_read s2.2 s1.1 (xo_square_index 0 1) = 2)) := by
  decide

/-- C4: on the board with O at (0,0),(1,1) and X at (0,1),(0,2), the
search for the Computer returns score -1 with move (1,0), not the
immediate winning move (2,2) with score +1 that the spec requires. -/
theorem xo_c4_eval :
    (xo_game_cpu_find_next_play 10 xo_board_c4).map (fun p => p.1)
      = some ⟨-1, some (1, 0)⟩ := by
  decide!

/-- C5: on the board where the Player threatens (0,0)-(1,0)-(2,0), the
search for the Computer returns move (1,2), not the forced block (2,0)
that the spec requires. -/
theorem xo_c5_eval :
    (xo_game_cpu_find_next_play 10 xo_board_c5).map (fun p => p.1)
      = some ⟨1, some (1, 2)⟩ := by
  decide!

/-! Helper equations used to replay concrete runs of the search. -/

lemma xo_minimax_eval_succ_live (fuel : Nat) (m : xo_memory) (lb : xo_ptr)
    (side : Nat)
    (h : xo_board_test_if_final_state (xo_mem_board m lb) = xo_win_state_type.NONE) :
    xo_game_cpu_minimax_eval (fuel + 1) m lb side
      = xo_minimax_loop (xo_game_cpu_minimax_eval fuel) lb side xo_scan_order
          (xo_stack_reset m)
          (if side == XO_BIT_MEANING_SIDE_O then INT32_MIN else INT32_MAX)
          none := by
  simp only [xo_game_cpu_minimax_eval, h, ne_eq, not_true_eq_false, if_false,
    reduceIte]

lemma xo_minimax_loop_cons_O_update
    {evalf : xo_memory → xo_ptr → Nat → Option (xo_cpu_response × xo_memory)}
    {lb : xo_ptr} {col row : Nat} {rest : List (Nat × Nat)} {m : xo_memory}
    {best : Int} {bm : Option (Nat × Nat)} {nb : xo_ptr} {m4 m5 : xo_memory}
    {resp : xo_cpu_response}
    (hcheck : xo_board_bit_check_at (xo_mem_board m lb) XO_BIT_MEANING_EMPTY
      col row = true)
    (hplace : xo_simulate_placement m lb XO_BIT_MEANING_SIDE_O col row = (nb, m4))
    (heval : evalf m4 nb XO_BIT_MEANING_SIDE_X = some (resp, m5))
    (hgt : resp.score > best) :
    xo_minimax_loop evalf lb XO_BIT_MEANING_SIDE_O ((col, row) :: rest) m best bm
      = xo_minimax_loop evalf lb XO_BIT_MEANING_SIDE_O rest m5 resp.score
          (some (col, row)) := by
  simp only [xo_minimax_loop, hcheck, hplace, beq_self_eq_true, if_true, heval,
    reduceIte, hgt]

lemma xo_minimax_loop_cons_O_keep
    {evalf : xo_memory → xo_ptr → Nat → Option (xo_cpu_response × xo_memory)}
    {lb : xo_ptr} {col row : Nat} {rest : List (Nat × Nat)} {m : xo_memory}
    {best : Int} {bm : Option (Nat × Nat)} {nb : xo_ptr} {m4 m5 : xo_memory}
    {resp : xo_cpu_response}
    (hcheck : xo_board_bit_check_at (xo_mem_board m lb) XO_BIT_MEANING_EMPTY
      col row = true)
    (hplace : xo_simulate_placement m lb XO_BIT_MEANING_SIDE_O col row = (nb, m4))
    (heval : evalf m4 nb XO_BIT_MEANING_SIDE_X = some (resp, m5))
    (hng : ¬ resp.score > best) :
    xo_minimax_loop evalf lb XO_BIT_MEANING_SIDE_O ((col, row) :: rest) m best bm
      = xo_minimax_loop evalf lb XO_BIT_MEANING_SIDE_O rest m5 best bm := by
  simp only [xo_minimax_loop, hcheck, hplace, beq_self_eq_true, if_true, heval,
    reduceIte, hng]

lemma xo_minimax_loop_cons_X_update
    {evalf : xo_memory → xo_ptr → Nat → Option (xo_cpu_response × xo_memory)}
    {lb : xo_ptr} {col row : Nat} {rest : List (Nat × Nat)} {m : xo_memory}
    {best : Int} {bm : Option (Nat × Nat)} {nb : xo_ptr} {m4 m5 : xo_memory}
    {resp : xo_cpu_response}
    (hcheck : xo_board_bit_check_at (xo_mem_board m lb) XO_BIT_MEANING_EMPTY
      col row = true)
    (hplace : xo_simulate_placement m lb XO_BIT_MEANING_SIDE_X col row = (nb, m4))
    (heval : evalf m4 nb XO_BIT_MEANING_SIDE_O = some (resp, m5))
    (hlt : resp.score < best) :
    xo_minimax_loop evalf lb XO_BIT_MEANING_SIDE_X ((col, row) :: rest) m best bm
      = xo_minimax_loop evalf lb XO_BIT_MEANING_SIDE_X rest m5 resp.score
          (some (col, row)) := by
  simp only [xo_minimax_loop, hcheck, hplace,
    show (XO_BIT_MEANING_SIDE_X == XO_BIT_MEANING_SIDE_O) = false from rfl,
    Bool.false_eq_true, if_false, beq_self_eq_true, if_true, heval,
    reduceIte, hlt]

lemma xo_minimax_loop_cons_X_keep
    {evalf : xo_memory → xo_ptr → Nat → Option (xo_cpu_response × xo_memory)}
    {lb : xo_ptr} {col row : Nat} {rest : List (Nat × Nat)} {m : xo_memory}
    {best : Int} {bm : Option (Nat × Nat)} {nb : xo_ptr} {m4 m5 : xo_memory}
    {resp : xo_cpu_response}
    (hcheck : xo_board_bit_check_at (xo_mem_board m lb) XO_BIT_MEANING_EMPTY
      col row = true)
    (hplace : xo_simulate_placement m lb XO_BIT_MEANING_SIDE_X col row = (nb, m4))
    (heval : evalf m4 nb XO_BIT_MEANING_SIDE_O = some (resp, m5))
    (hnl : ¬ resp.score < best) :
    xo_minimax_loop evalf lb XO_BIT_MEANING_SIDE_X ((col, row) :: rest) m best bm
      = xo_minimax_loop evalf lb XO_BIT_MEANING_SIDE_X rest m5 best bm := by
  simp only [xo_minimax_loop, hcheck, hplace,
    show (XO_BIT_MEANING_SIDE_X == XO_BIT_MEANING_SIDE_O) = false from rfl,
    Bool.false_eq_true, if_false, beq_self_eq_true, if_true, heval,
    reduceIte, hnl]

lemma xo_minimax_loop_cons_skip
    {evalf : xo_memory → xo_ptr → Nat → Option (xo_cpu_response × xo_memory)}
    {lb : xo_ptr} {side col row : Nat} {rest : List (Nat × Nat)}
    {m : xo_memory} {best : Int} {bm : Option (Nat × Nat)}
    (hcheck : xo_board_bit_check_at (xo_mem_board m lb) XO_BIT_MEANING_EMPTY
      col row = false) :
    xo_minimax_loop evalf lb side ((col, row) :: rest) m best bm
      = xo_minimax_loop evalf lb side rest m best bm := by
  simp only [xo_minimax_loop, hcheck, Bool.false_eq_true, if_false]

/-! Replay of the CPU search on the board after the first player click
of the C7 trace, one call at a time, with the exact intermediate
states of the minimax stack; `xo_c7_mem bits off` is the memory whose
external board is the board after the click at (0, 0). -/

set_option maxRecDepth 8000 in
set_option maxHeartbeats 2000000 in
lemma xo_c7_call1 :
    xo_game_cpu_minimax_eval 10 (xo_c7_mem 482365316561323586033183905731280170311569252585227845880650359806530346362693504124670703965659643325118423839144307545014873371888621689209613036561558818020566972491878974167078790110098944264753273208956807438206352521024355552443507184667681877078967298 108) (xo_ptr.stack 99) XO_BIT_MEANING_SIDE_X
      = some (⟨1, some (0, 1)⟩, xo_c7_mem 482365316561323586033183905731280170311569252585227845880650359792860776109267861418771930426433562501403362147367012220446800155799014208456188039140909867752291471168483356698968508141232565711607033184927137791499616136070888782303068638480942472609661442 27) := by
  have hterm : xo_board_test_if_final_state
      (xo_mem_board (xo_c7_mem 482365316561323586033183905731280170311569252585227845880650359806530346362693504124670703965659643325118423839144307545014873371888621689209613036561558818020566972491878974167078790110098944264753273208956807438206352521024355552443507184667681877078967298 108) (xo_ptr.stack 99)) = xo_win_state_type.NONE := by
    decide!
  have hc0 : xo_board_bit_check_at (xo_mem_board (xo_c7_mem 482365316561323586033183905731280170311569252585227845880650359806530346362693504124670703965659643325118423839144307545014873371888621689209613036561558818020566972491878974167078790110098944264753273208956807438206352521024355552443507184667681877078967298 0) (xo_ptr.stack 99))
      XO_BIT_MEANING_EMPTY 0 0 = false := by decide!
  have hc1 : xo_board_bit_check_at (xo_mem_board (xo_c7_mem 482365316561323586033183905731280170311569252585227845880650359806530346362693504124670703965659643325118423839144307545014873371888621689209613036561558818020566972491878974167078790110098944264753273208956807438206352521024355552443507184667681877078967298 0) (xo_ptr.stack 99))
      XO_BIT_MEANING_EMPTY 0 1 = true := by decide!
  have hp1 : xo_simulate_placement (xo_c7_mem 482365316561323586033183905731280170311569252585227845880650359806530346362693504124670703965659643325118423839144307545014873371888621689209613036561558818020566972491878974167078790110098944264753273208956807438206352521024355552443507184667681877078967298 0) (xo_ptr.stack 99)
      XO_BIT_MEANING_SIDE_X 0 1
      = (xo_ptr.stack 0, (xo_c7_mem 482365316561323586033183905731280170311569252585227845880650359806530346362693504124670703965659643325118423839144307545014873371888621689209613036561558818020566972491878974167078790110098944264753273208956807438206352521024355552443507184667397099222204930 9)) := by decide!
  have he1 : xo_game_cpu_minimax_eval 9 (xo_c7_mem 482365316561323586033183905731280170311569252585227845880650359806530346362693504124670703965659643325118423839144307545014873371888621689209613036561558818020566972491878974167078790110098944264753273208956807438206352521024355552443507184667397099222204930 9)
      (xo_ptr.stack 0) XO_BIT_MEANING_SIDE_O
      = some (⟨1, some (1, 0)⟩, (xo_c7_mem 482365316561323586033183905731280170311569252585227845880650359806530346362693504124670703965659643325118423839144307545014873371888621689209613036561558818020566972491878974167078790110098944264753273208956807438206352521024355552443507203330598732902433282 9)) := by decide!
  have hc2 : xo_board_bit_check_at (xo_mem_board (xo_c7_mem 482365316561323586033183905731280170311569252585227845880650359806530346362693504124670703965659643325118423839144307545014873371888621689209613036561558818020566972491878974167078790110098944264753273208956807438206352521024355552443507203330598732902433282 9) (xo_ptr.stack 99))
      XO_BIT_MEANING_EMPTY 0 2 = false := by decide!
  have hc3 : xo_board_bit_check_at (xo_mem_board (xo_c7_mem 482365316561323586033183905731280170311569252585227845880650359806530346362693504124670703965659643325118423839144307545014873371888621689209613036561558818020566972491878974167078790110098944264753273208956807438206352521024355552443507203330598732902433282 9) (xo_ptr.stack 99))
      XO_BIT_MEANING_EMPTY 1 0 = true := by decide!
  have hp3 : xo_simulate_placement (xo_c7_mem 482365316561323586033183905731280170311569252585227845880650359806530346362693504124670703965659643325118423839144307545014873371888621689209613036561558818020566972491878974167078790110098944264753273208956807438206352521024355552443507203330598732902433282 9) (xo_ptr.stack 99)
      XO_BIT_MEANING_SIDE_X 1 0
      = (xo_ptr.stack 9, (xo_c7_mem 482365316561323586033183905731280170311569252585227845880650359806530346362693504124670703965659643325118423839144307545014873371888621689209613036561558818020566972491878974167078790110098944264753273208956807438206352179397163304893937946151339867452473858 18)) := by decide!
  have he3 : xo_game_cpu_minimax_eval 9 (xo_c7_mem 482365316561323586033183905731280170311569252585227845880650359806530346362693504124670703965659643325118423839144307545014873371888621689209613036561558818020566972491878974167078790110098944264753273208956807438206352179397163304893937946151339867452473858 18)
      (xo_ptr.stack 9) XO_BIT_MEANING_SIDE_O
      = some (⟨1, some (0, 1)⟩, (xo_c7_mem 482365316561323586033183905731280170311569252585227845880650359806530346362693504124673594820877054875270837536647867238229924218397430764691514035837565878393864443476119898347677812644086714991859593254892357070916875478675728460925184609292667408838034434 72)) := by decide!
  have hc4 : xo_board_bit_check_at (xo_mem_board (xo_c7_mem 482365316561323586033183905731280170311569252585227845880650359806530346362693504124673594820877054875270837536647867238229924218397430764691514035837565878393864443476119898347677812644086714991859593254892357070916875478675728460925184609292667408838034434 72) (xo_ptr.stack 99))
      XO_BIT_MEANING_EMPTY 1 1 = true := by decide!
  have hp4 : xo_simulate_placement (xo_c7_mem 482365316561323586033183905731280170311569252585227845880650359806530346362693504124673594820877054875270837536647867238229924218397430764691514035837565878393864443476119898347677812644086714991859593254892357070916875478675728460925184609292667408838034434 72) (xo_ptr.stack 99)
      XO_BIT_MEANING_SIDE_X 1 1
      = (xo_ptr.stack 72, (xo_c7_mem 482365316561323586033183905731280170311569252585227845880650359792842954076667550704332647547400955386960844552872444899301661006418927974033605018871403846669870496376561562381559809411157550988013761196975964475110891620936030376293395479338689008215786498 81)) := by decide!
  have he4 : xo_game_cpu_minimax_eval 9 (xo_c7_mem 482365316561323586033183905731280170311569252585227845880650359792842954076667550704332647547400955386960844552872444899301661006418927974033605018871403846669870496376561562381559809411157550988013761196975964475110891620936030376293395479338689008215786498 81)
      (xo_ptr.stack 72) XO_BIT_MEANING_SIDE_O
      = some (⟨1, some (0, 1)⟩, (xo_c7_mem 482365316561323586033183905731280170311569252585227845880650359792842954076667550704329745355381470367339343718752426903911861325447452920123813497977502403540262148079256673242757254649298616362576374596557763972316564100545333153404211175701410851894592002 9)) := by decide!
  have hc5 : xo_board_bit_check_at (xo_mem_board (xo_c7_mem 482365316561323586033183905731280170311569252585227845880650359792842954076667550704329745355381470367339343718752426903911861325447452920123813497977502403540262148079256673242757254649298616362576374596557763972316564100545333153404211175701410851894592002 9) (xo_ptr.stack 99))
      XO_BIT_MEANING_EMPTY 1 2 = true := by decide!
  have hp5 : xo_simulate_placement (xo_c7_mem 482365316561323586033183905731280170311569252585227845880650359792842954076667550704329745355381470367339343718752426903911861325447452920123813497977502403540262148079256673242757254649298616362576374596557763972316564100545333153404211175701410851894592002 9) (xo_ptr.stack 99)
      XO_BIT_MEANING_SIDE_X 1 2
      = (xo_ptr.stack 9, (xo_c7_mem 482365316561323586033183905731280170311569252585227845880650359792842954076667550704329745355381470367339343718752426903911861325447452920123813497977502403540262148079256673242757254649298616362576374596557763972316302419417466444276969027453437913415811586 18)) := by decide!
  have he5 : xo_game_cpu_minimax_eval 9 (xo_c7_mem 482365316561323586033183905731280170311569252585227845880650359792842954076667550704329745355381470367339343718752426903911861325447452920123813497977502403540262148079256673242757254649298616362576374596557763972316302419417466444276969027453437913415811586 18)
      (xo_ptr.stack 9) XO_BIT_MEANING_SIDE_O
      = some (⟨1, some (0, 1)⟩, (xo_c7_mem 482365316561323586033183905731280170311569252585227845880650359792842954076667550704332647547286233085199993045110751873963324396202229381725192604110838039489518667127405449206928134801883610299441557686011077512972017426170605823454929078269710904536073218 72)) := by decide!
  have hc6 : xo_board_bit_check_at (xo_mem_board (xo_c7_mem 482365316561323586033183905731280170311569252585227845880650359792842954076667550704332647547286233085199993045110751873963324396202229381725192604110838039489518667127405449206928134801883610299441557686011077512972017426170605823454929078269710904536073218 72) (xo_ptr.stack 99))
      XO_BIT_MEANING_EMPTY 2 0 = true := by decide!
  have hp6 : xo_simulate_placement (xo_c7_mem 482365316561323586033183905731280170311569252585227845880650359792842954076667550704332647547286233085199993045110751873963324396202229381725192604110838039489518667127405449206928134801883610299441557686011077512972017426170605823454929078269710904536073218 72) (xo_ptr.stack 99)
      XO_BIT_MEANING_SIDE_X 2 0
      = (xo_ptr.stack 72, (xo_c7_mem 482365316561323586033183905731280170311569252585227845880650359792843023692924269197996272791612465917262977134880692356037498147345423308619783566014293861518690570729878070531343897130771691775595343826348946918755634362774825101419597473258929393141810178 81)) := by decide!
  have he6 : xo_game_cpu_minimax_eval 9 (xo_c7_mem 482365316561323586033183905731280170311569252585227845880650359792843023692924269197996272791612465917262977134880692356037498147345423308619783566014293861518690570729878070531343897130771691775595343826348946918755634362774825101419597473258929393141810178 81)
      (xo_ptr.stack 72) XO_BIT_MEANING_SIDE_O
      = some (⟨1, some (0, 1)⟩, (xo_c7_mem 482365316561323586033183905731280170311569252585227845880650359792843023692924269197996272791554204983583419727107293935179659935104975078722005014939211682328825155409808231453861195885192961208122518357753434607829537093484430267348228539513572303455912450 72)) := by decide!
  have hc7 : xo_board_bit_check_at (xo_mem_board (xo_c7_mem 482365316561323586033183905731280170311569252585227845880650359792843023692924269197996272791554204983583419727107293935179659935104975078722005014939211682328825155409808231453861195885192961208122518357753434607829537093484430267348228539513572303455912450 72) (xo_ptr.stack 99))
      XO_BIT_MEANING_EMPTY 2 1 = true := by decide!
  have hp7 : xo_simulate_placement (xo_c7_mem 482365316561323586033183905731280170311569252585227845880650359792843023692924269197996272791554204983583419727107293935179659935104975078722005014939211682328825155409808231453861195885192961208122518357753434607829537093484430267348228539513572303455912450 72) (xo_ptr.stack 99)
      XO_BIT_MEANING_SIDE_X 2 1
      = (xo_ptr.stack 72, (xo_c7_mem 482365316561323586033183905731280170311569252585227845880650359792860776109267861418771930426433562501403362556534606904880247308335936919048515829355090096740536729307262360313438627737369255454093446346790825181507045098519895639692617387814828604100182530 81)) := by decide!
  have he7 : xo_game_cpu_minimax_eval 9 (xo_c7_mem 482365316561323586033183905731280170311569252585227845880650359792860776109267861418771930426433562501403362556534606904880247308335936919048515829355090096740536729307262360313438627737369255454093446346790825181507045098519895639692617387814828604100182530 81)
      (xo_ptr.stack 72) XO_BIT_MEANING_SIDE_O
      = some (⟨1, some (1, 2)⟩, (xo_c7_mem 482365316561323586033183905731280170311569252585227845880650359792860776109267861418771930426433562501403361943579266855818827291295160888890344663758310978768450174839075734465662705628325144619153744194456782189027820610600625765438599479250580722522784258 54)) := by decide!
  have hc8 : xo_board_bit_check_at (xo_mem_board (xo_c7_mem 482365316561323586033183905731280170311569252585227845880650359792860776109267861418771930426433562501403361943579266855818827291295160888890344663758310978768450174839075734465662705628325144619153744194456782189027820610600625765438599479250580722522784258 54) (xo_ptr.stack 99))
      XO_BIT_MEANING_EMPTY 2 2 = true := by decide!
  have hp8 : xo_simulate_placement (xo_c7_mem 482365316561323586033183905731280170311569252585227845880650359792860776109267861418771930426433562501403361943579266855818827291295160888890344663758310978768450174839075734465662705628325144619153744194456782189027820610600625765438599479250580722522784258 54) (xo_ptr.stack 99)
      XO_BIT_MEANING_SIDE_X 2 2
      = (xo_ptr.stack 54, (xo_c7_mem 482365316561323586033183905731280170311569252585227845880650359792860776109267861418771930426433562501403362147357646974795852179191683258098861604109551937509771989472264587931053700566165529212375233870022183589050403422660748511596107896151980661226603010 63)) := by decide!
  have he8 : xo_game_cpu_minimax_eval 9 (xo_c7_mem 482365316561323586033183905731280170311569252585227845880650359792860776109267861418771930426433562501403362147357646974795852179191683258098861604109551937509771989472264587931053700566165529212375233870022183589050403422660748511596107896151980661226603010 63)
      (xo_ptr.stack 54) XO_BIT_MEANING_SIDE_O
      = some (⟨1, some (1, 2)⟩, (xo_c7_mem 482365316561323586033183905731280170311569252585227845880650359792860776109267861418771930426433562501403362147367012220446800155799014208456188039140909867752291471168483356698968508141232565711607033184927137791499616136070888782303068638480942472609661442 27)) := by decide!
  rw [show (10 : Nat) = 9 + 1 from rfl,
    xo_minimax_eval_succ_live 9 (xo_c7_mem 482365316561323586033183905731280170311569252585227845880650359806530346362693504124670703965659643325118423839144307545014873371888621689209613036561558818020566972491878974167078790110098944264753273208956807438206352521024355552443507184667681877078967298 108) (xo_ptr.stack 99) XO_BIT_MEANING_SIDE_X hterm]
  rw [show xo_stack_reset (xo_c7_mem 482365316561323586033183905731280170311569252585227845880650359806530346362693504124670703965659643325118423839144307545014873371888621689209613036561558818020566972491878974167078790110098944264753273208956807438206352521024355552443507184667681877078967298 108) = xo_c7_mem 482365316561323586033183905731280170311569252585227845880650359806530346362693504124670703965659643325118423839144307545014873371888621689209613036561558818020566972491878974167078790110098944264753273208956807438206352521024355552443507184667681877078967298 0 from rfl]
  rw [show (if XO_BIT_MEANING_SIDE_X == XO_BIT_MEANING_SIDE_O
      then INT32_MIN else INT32_MAX) = INT32_MAX from rfl]
  rw [show xo_scan_order = [((0 : Nat), (0 : Nat)), (0, 1), (0, 2), (1, 0),
    (1, 1), (1, 2), (2, 0), (2, 1), (2, 2)] from rfl]
  rw [xo_minimax_loop_cons_skip hc0]
  rw [xo_minimax_loop_cons_X_update hc1 hp1 he1 (by decide)]
  rw [xo_minimax_loop_cons_skip hc2]
  rw [xo_minimax_loop_cons_X_keep hc3 hp3 he3 (by decide)]
  rw [xo_minimax_loop_cons_X_keep hc4 hp4 he4 (by decide)]
  rw [xo_minimax_loop_cons_X_keep hc5 hp5 he5 (by decide)]
  rw [xo_minimax_loop_cons_X_keep hc6 hp6 he6 (by decide)]
  rw [xo_minimax_loop_cons_X_keep hc7 hp7 he7 (by decide)]
  rw [xo_minimax_loop_cons_X_keep hc8 hp8 he8 (by decide)]
  simp [xo_minimax_loop]

set_option maxRecDepth 8000 in
set_option maxHeartbeats 2000000 in
lemma xo_c7_call0 :
    xo_game_cpu_minimax_eval 11 (xo_c7_mem 0 0) xo_ptr.external XO_BIT_MEANING_SIDE_O
      = some (⟨1, some (0, 1)⟩, xo_c7_mem 482365316561323586033082162992401797095873981869059505401736233890183890678992415852726190886625704149999418242447782926684320257628120096554299883008123268530859478217419957732265519361456754976999135783960305627045039727744742882173215903038930124684788226 18) := by
  have hterm : xo_board_test_if_final_state
      (xo_mem_board (xo_c7_mem 0 0) xo_ptr.external) = xo_win_state_type.NONE := by
    decide!
  have hc0 : xo_board_bit_check_at (xo_mem_board (xo_c7_mem 0 0) xo_ptr.external)
      XO_BIT_MEANING_EMPTY 0 0 = false := by decide!
  have hc1 : xo_board_bit_check_at (xo_mem_board (xo_c7_mem 0 0) xo_ptr.external)
      XO_BIT_MEANING_EMPTY 0 1 = true := by decide!
  have hp1 : xo_simulate_placement (xo_c7_mem 0 0) xo_ptr.external
      XO_BIT_MEANING_SIDE_O 0 1
      = (xo_ptr.stack 0, (xo_c7_mem 18519084246547629058 9)) := by decide!
  have he1 : xo_game_cpu_minimax_eval 10 (xo_c7_mem 18519084246547629058 9)
      (xo_ptr.stack 0) XO_BIT_MEANING_SIDE_X
      = some (⟨1, some (0, 2)⟩, (xo_c7_mem 203892225367697266588205603077623351218552498169943802001307184777944767611729905245487575157018651709459283616359258940903179220217241383652495226555168131377887874338359306215441938256228908472712113622120850083366469423970088325874690 99)) := by decide!
  have hc2 : xo_board_bit_check_at (xo_mem_board (xo_c7_mem 203892225367697266588205603077623351218552498169943802001307184777944767611729905245487575157018651709459283616359258940903179220217241383652495226555168131377887874338359306215441938256228908472712113622120850083366469423970088325874690 99) xo_ptr.external)
      XO_BIT_MEANING_EMPTY 0 2 = true := by decide!
  have hp2 : xo_simulate_placement (xo_c7_mem 203892225367697266588205603077623351218552498169943802001307184777944767611729905245487575157018651709459283616359258940903179220217241383652495226555168131377887874338359306215441938256228908472712113622120850083366469423970088325874690 99) xo_ptr.external
      XO_BIT_MEANING_SIDE_O 0 2
      = (xo_ptr.stack 99, (xo_c7_mem 482365316561323586033183905731280170311569252585227845880650359806530346362693504124670703965659643325118423839144307545014873371888621689209613036561558818020566972491878974167078790110098944264753273208956807438206352521024355552443507184667681877078967298 108)) := by decide!
  have hc3 : xo_board_bit_check_at (xo_mem_board (xo_c7_mem 482365316561323586033183905731280170311569252585227845880650359792860776109267861418771930426433562501403362147367012220446800155799014208456188039140909867752291471168483356698968508141232565711607033184927137791499616136070888782303068638480942472609661442 27) xo_ptr.external)
      XO_BIT_MEANING_EMPTY 1 0 = true := by decide!
  have hp3 : xo_simulate_placement (xo_c7_mem 482365316561323586033183905731280170311569252585227845880650359792860776109267861418771930426433562501403362147367012220446800155799014208456188039140909867752291471168483356698968508141232565711607033184927137791499616136070888782303068638480942472609661442 27) xo_ptr.external
      XO_BIT_MEANING_SIDE_O 1 0
      = (xo_ptr.stack 27, (xo_c7_mem 482365316561323586033183905731280170311569252585227845880650359792860776109267861418771930426433562501403362147367012220446800155799014208456188039140909867752291471168483354733444689137444250346152505879182711318821206735909513107781287182256496482114077186 36)) := by decide!
  have he3 : xo_game_cpu_minimax_eval 10 (xo_c7_mem 482365316561323586033183905731280170311569252585227845880650359792860776109267861418771930426433562501403362147367012220446800155799014208456188039140909867752291471168483354733444689137444250346152505879182711318821206735909513107781287182256496482114077186 36)
      (xo_ptr.stack 27) XO_BIT_MEANING_SIDE_X
      = some (⟨1, some (0, 1)⟩, (xo_c7_mem 482365316561323586033183905731280170311569252585227845880650359797458931228436873787609702839230774264971376377025543759513405610064042479026121125698837509251842005046448292656691621565330432855729580731686732441428941233195486324949734084555152611346613250 81)) := by decide!
  have hc4 : xo_board_bit_check_at (xo_mem_board (xo_c7_mem 482365316561323586033183905731280170311569252585227845880650359797458931228436873787609702839230774264971376377025543759513405610064042479026121125698837509251842005046448292656691621565330432855729580731686732441428941233195486324949734084555152611346613250 81) xo_ptr.external)
      XO_BIT_MEANING_EMPTY 1 1 = true := by decide!
  have hp4 : xo_simulate_placement (xo_c7_mem 482365316561323586033183905731280170311569252585227845880650359797458931228436873787609702839230774264971376377025543759513405610064042479026121125698837509251842005046448292656691621565330432855729580731686732441428941233195486324949734084555152611346613250 81) xo_ptr.external
      XO_BIT_MEANING_SIDE_O 1 1
      = (xo_ptr.stack 81, (xo_c7_mem 482365316561323586033183905731280170311569252500733070297478821896568388648476492490719186794164718206133891944744688860025548521701044116670842836877030204920633041206169872783408903118715103209150244257058838146817162740777327997115532763978192162727789570 90)) := by decide!
  have he4 : xo_game_cpu_minimax_eval 10 (xo_c7_mem 482365316561323586033183905731280170311569252500733070297478821896568388648476492490719186794164718206133891944744688860025548521701044116670842836877030204920633041206169872783408903118715103209150244257058838146817162740777327997115532763978192162727789570 90)
      (xo_ptr.stack 81) XO_BIT_MEANING_SIDE_X
      = some (⟨1, some (0, 1)⟩, (xo_c7_mem 482365316561323586033183905731280170311569252500733070297555366957368824760426718221888599939981918502621611893761512764303656216985163118231347457756716869134812109946287894303624424454986108632852207808590671477611307215008613416657978635569280360961410050 36)) := by decide!
  have hc5 : xo_board_bit_check_at (xo_mem_board (xo_c7_mem 482365316561323586033183905731280170311569252500733070297555366957368824760426718221888599939981918502621611893761512764303656216985163118231347457756716869134812109946287894303624424454986108632852207808590671477611307215008613416657978635569280360961410050 36) xo_ptr.external)
      XO_BIT_MEANING_EMPTY 1 2 = true := by decide!
  have hp5 : xo_simulate_placement (xo_c7_mem 482365316561323586033183905731280170311569252500733070297555366957368824760426718221888599939981918502621611893761512764303656216985163118231347457756716869134812109946287894303624424454986108632852207808590671477611307215008613416657978635569280360961410050 36) xo_ptr.external
      XO_BIT_MEANING_SIDE_O 1 2
      = (xo_ptr.stack 36, (xo_c7_mem 482365316561323586033183905731280170311569252500733070297555366957368824760426718221888599939981918502621611893761512764303656216985163118231347457756707659164441795404462903391362593964512446198632033661703381167189356340701773130605659171267202416243770370 45)) := by decide!
  have he5 : xo_game_cpu_minimax_eval 10 (xo_c7_mem 482365316561323586033183905731280170311569252500733070297555366957368824760426718221888599939981918502621611893761512764303656216985163118231347457756707659164441795404462903391362593964512446198632033661703381167189356340701773130605659171267202416243770370 45)
      (xo_ptr.stack 36) XO_BIT_MEANING_SIDE_X
      = some (⟨1, some (0, 1)⟩, (xo_c7_mem 482365316561323586033183905731280170311569317221777814100938462620034007544228573087576615908599391817081624774560463364229626806743498917487422214498079093414986566868782453823207624870512603220579108479914714364291497570431320005867326920511488042496950786 90)) := by decide!
  have hc6 : xo_board_bit_check_at (xo_mem_board (xo_c7_mem 482365316561323586033183905731280170311569317221777814100938462620034007544228573087576615908599391817081624774560463364229626806743498917487422214498079093414986566868782453823207624870512603220579108479914714364291497570431320005867326920511488042496950786 90) xo_ptr.external)
      XO_BIT_MEANING_EMPTY 2 0 = true := by decide!
  have hp6 : xo_simulate_placement (xo_c7_mem 482365316561323586033183905731280170311569317221777814100938462620034007544228573087576615908599391817081624774560463364229626806743498917487422214498079093414986566868782453823207624870512603220579108479914714364291497570431320005867326920511488042496950786 90) xo_ptr.external
      XO_BIT_MEANING_SIDE_O 2 0
      = (xo_ptr.stack 90, (xo_c7_mem 482365316561323586033082162992401796734400195237916175867930498404203329665696826359238395308299846379079268400567866594421664392031378151152178847578900479114069645958836432671478216759248304509317990955770942943649547926459120289757013753480397509517115906 99)) := by decide!
  have he6 : xo_game_cpu_minimax_eval 10 (xo_c7_mem 482365316561323586033082162992401796734400195237916175867930498404203329665696826359238395308299846379079268400567866594421664392031378151152178847578900479114069645958836432671478216759248304509317990955770942943649547926459120289757013753480397509517115906 99)
      (xo_ptr.stack 90) XO_BIT_MEANING_SIDE_X
      = some (⟨-1, some (0, 1)⟩, (xo_c7_mem 482365316561323586033082162992401797095873981869059505401736233890183890678992415852726190886625704149999417833283322328407369618936296787479587336296962134517681738179006521882336165210806354299892346634174537720414188699740305709286575706749727612961162242 36)) := by decide!
  have hc7 : xo_board_bit_check_at (xo_mem_board (xo_c7_mem 482365316561323586033082162992401797095873981869059505401736233890183890678992415852726190886625704149999417833283322328407369618936296787479587336296962134517681738179006521882336165210806354299892346634174537720414188699740305709286575706749727612961162242 36) xo_ptr.external)
      XO_BIT_MEANING_EMPTY 2 1 = true := by decide!
  have hp7 : xo_simulate_placement (xo_c7_mem 482365316561323586033082162992401797095873981869059505401736233890183890678992415852726190886625704149999417833283322328407369618936296787479587336296962134517681738179006521882336165210806354299892346634174537720414188699740305709286575706749727612961162242 36) xo_ptr.external
      XO_BIT_MEANING_SIDE_O 2 1
      = (xo_ptr.stack 36, (xo_c7_mem 482365316561323586033082162992401797095873981869059505401736233890183890678992415852726190886625704149999417833283322328407369618936296787479587336296962134097729598988075656781463960223927921137533765325854255628011252258851082673336297651621810325600470018 45)) := by decide!
  have he7 : xo_game_cpu_minimax_eval 10 (xo_c7_mem 482365316561323586033082162992401797095873981869059505401736233890183890678992415852726190886625704149999417833283322328407369618936296787479587336296962134097729598988075656781463960223927921137533765325854255628011252258851082673336297651621810325600470018 45)
      (xo_ptr.stack 36) XO_BIT_MEANING_SIDE_X
      = some (⟨-1, some (0, 1)⟩, (xo_c7_mem 482365316561323586033082162992401797095873981869059505401736233890183890678992415852726190886625704149999417833283322328407369619066773372987963567026451615605470213262969210194260013090553102571472958792345687272361767189670928943536845316173848842342760962 54)) := by decide!
  have hc8 : xo_board_bit_check_at (xo_mem_board (xo_c7_mem 482365316561323586033082162992401797095873981869059505401736233890183890678992415852726190886625704149999417833283322328407369619066773372987963567026451615605470213262969210194260013090553102571472958792345687272361767189670928943536845316173848842342760962 54) xo_ptr.external)
      XO_BIT_MEANING_EMPTY 2 2 = true := by decide!
  have hp8 : xo_simulate_placement (xo_c7_mem 482365316561323586033082162992401797095873981869059505401736233890183890678992415852726190886625704149999417833283322328407369619066773372987963567026451615605470213262969210194260013090553102571472958792345687272361767189670928943536845316173848842342760962 54) xo_ptr.external
      XO_BIT_MEANING_SIDE_O 2 2
      = (xo_ptr.stack 54, (xo_c7_mem 482365316561323586033082162992401797095873981869059505401736233890183890678992415852726190886625704149999418242447782926683593418904332183260331799405548349444547911880002993059804431792407883727345416803283281419434090451752272437603893906396143962470744578 63)) := by decide!
  have he8 : xo_game_cpu_minimax_eval 10 (xo_c7_mem 482365316561323586033082162992401797095873981869059505401736233890183890678992415852726190886625704149999418242447782926683593418904332183260331799405548349444547911880002993059804431792407883727345416803283281419434090451752272437603893906396143962470744578 63)
      (xo_ptr.stack 54) XO_BIT_MEANING_SIDE_X
      = some (⟨-1, some (0, 1)⟩, (xo_c7_mem 482365316561323586033082162992401797095873981869059505401736233890183890678992415852726190886625704149999418242447782926684320257628120096554299883008123268530859478217419957732265519361456754976999135783960305627045039727744742882173215903038930124684788226 18)) := by decide!
  rw [show (11 : Nat) = 10 + 1 from rfl,
    xo_minimax_eval_succ_live 10 (xo_c7_mem 0 0) xo_ptr.external XO_BIT_MEANING_SIDE_O hterm]
  rw [show xo_stack_reset (xo_c7_mem 0 0) = xo_c7_mem 0 0 from rfl]
  rw [show (if XO_BIT_MEANING_SIDE_O == XO_BIT_MEANING_SIDE_O
      then INT32_MIN else INT32_MAX) = INT32_MIN from rfl]
  rw [show xo_scan_order = [((0 : Nat), (0 : Nat)), (0, 1), (0, 2), (1, 0),
    (1, 1), (1, 2), (2, 0), (2, 1), (2, 2)] from rfl]
  rw [xo_minimax_loop_cons_skip hc0]
  rw [xo_minimax_loop_cons_O_update hc1 hp1 he1 (by decide)]
  rw [xo_minimax_loop_cons_O_keep hc2 hp2 xo_c7_call1 (by decide)]
  rw [xo_minimax_loop_cons_O_keep hc3 hp3 he3 (by decide)]
  rw [xo_minimax_loop_cons_O_keep hc4 hp4 he4 (by decide)]
  rw [xo_minimax_loop_cons_O_keep hc5 hp5 he5 (by decide)]
  rw [xo_minimax_loop_cons_O_keep hc6 hp6 he6 (by decide)]
  rw [xo_minimax_loop_cons_O_keep hc7 hp7 he7 (by decide)]
  rw [xo_minimax_loop_cons_O_keep hc8 hp8 he8 (by decide)]
  simp [xo_minimax_loop]

set_option maxHeartbeats 1000000 in
/-- C7: a reachable controller trace in which the CPU response applied by
`main` carries no move at all: the player clicks (0,0), (1,0), (2,0)
(each accepted), the CPU replies (0,1) and (0,2); the third click
completes the X line, the live board still has Empty squares, and the
following CPU search returns `has_move = SDL_FALSE`, so `main` passes the
uninitialized `move` field to `xo_game_play`. -/
theorem xo_c7_trace :
    (xo_game_play xo_board_initial XO_BIT_MEANING_SIDE_X 0 0).1 = true ∧
    (xo_game_cpu_find_next_play 11 xo_c7_b1).map (fun p => p.1.move)
      = some (some (0, 1)) ∧
    (xo_game_play xo_c7_b2 XO_BIT_MEANING_SIDE_X 1 0).1 = true ∧
    (xo_game_cpu_find_next_play 11 xo_c7_b3).map (fun p => p.1.move)
      = some (some (0, 2)) ∧
    (xo_game_play xo_c7_b4 XO_BIT_MEANING_SIDE_X 2 0).1 = true ∧
    xo_spec_line_win xo_c7_b5 XO_BIT_MEANING_SIDE_X ∧
    xo_board_bit_check_at xo_c7_b5 XO_BIT_MEANING_EMPTY 1 1 = true ∧
    (xo_game_cpu_find_next_play 11 xo_c7_b5).map (fun p => p.1)
      = some ⟨1, none⟩ := by
  refine ⟨by decide, ?_, by decide, ?_, by decide, ?_, by decide, ?_⟩
  · have hm : xo_initial_memory xo_c7_b1 = xo_c7_mem 0 0 := by decide!
    unfold xo_game_cpu_find_next_play
    rw [hm, xo_c7_call0]
    rfl
  · decide!
  · unfold xo_spec_line_win
    decide
  · decide!

/-! Replay of the search on the freshly initialized all-Empty live
board, one call at a time, with the exact intermediate states of
`minimax_stack`; `xo_c3_mem bits off` is the memory whose external
board is the empty board. -/

set_option maxRecDepth 8000 in
set_option maxHeartbeats 2000000 in
lemma xo_c3_call11 :
    xo_game_cpu_minimax_eval 9 (xo_c3_mem 51391972259987750104921870443109333608831237933764972409906795610326412090604104230719363231486568525090004565205547984360740424492182790198667659877440839708866549178724460076376695428315426513500072177013191093068957154080559929142702058752855138763039746712905941477279514027724304063440029243190872913303909921980679170 90) (xo_ptr.stack 81) XO_BIT_MEANING_SIDE_X
      = some (⟨1, some (0, 0)⟩, xo_c3_mem 51391972259987750104921870443109333608831237933764972409906795610326412090604104230719363231486568525090004565290700291941936468543860514944668219159809367086231145243738990213267666612086634680287534842750669193935140777571197668264874257811227759810974892592180384662892478778653280888208691304704049456122763115640390148 90) := by
  have hterm : xo_board_test_if_final_state
      (xo_mem_board (xo_c3_mem 51391972259987750104921870443109333608831237933764972409906795610326412090604104230719363231486568525090004565205547984360740424492182790198667659877440839708866549178724460076376695428315426513500072177013191093068957154080559929142702058752855138763039746712905941477279514027724304063440029243190872913303909921980679170 90) (xo_ptr.stack 81)) = xo_win_state_type.NONE := by
    decide!
  have hc0 : xo_board_bit_check_at (xo_mem_board (xo_c3_mem 51391972259987750104921870443109333608831237933764972409906795610326412090604104230719363231486568525090004565205547984360740424492182790198667659877440839708866549178724460076376695428315426513500072177013191093068957154080559929142702058752855138763039746712905941477279514027724304063440029243190872913303909921980679170 0) (xo_ptr.stack 81))
      XO_BIT_MEANING_EMPTY 0 0 = true := by decide!
  have hp0 : xo_simulate_placement (xo_c3_mem 51391972259987750104921870443109333608831237933764972409906795610326412090604104230719363231486568525090004565205547984360740424492182790198667659877440839708866549178724460076376695428315426513500072177013191093068957154080559929142702058752855138763039746712905941477279514027724304063440029243190872913303909921980679170 0) (xo_ptr.stack 81)
      XO_BIT_MEANING_SIDE_X 0 0
      = (xo_ptr.stack 0, (xo_c3_mem 51391972259987750104921870443109333608831237933764972409906795610326412090604104230719363231486568525090004565205547984360740424492182790198667659877440839708866549178724460076376695428315426513500072177013191093068957154080559929142702058752855138763039746712905941477279514027724304063440029243190872949981225274384122114 9)) := by decide!
  have he0 : xo_game_cpu_minimax_eval 8 (xo_c3_mem 51391972259987750104921870443109333608831237933764972409906795610326412090604104230719363231486568525090004565205547984360740424492182790198667659877440839708866549178724460076376695428315426513500072177013191093068957154080559929142702058752855138763039746712905941477279514027724304063440029243190872949981225274384122114 9)
      (xo_ptr.stack 0) XO_BIT_MEANING_SIDE_O
      = some (⟨1, some (0, 1)⟩, (xo_c3_mem 51391972259987750104921870443109333608831237933764972409906795610326412090604104230719363231486568525090004565205547984360740424492182790198667659877440839708866549178724460485544314406325834774823263873516348737071157959075189259939242493973826195791610859778356722549536001896819113866462451980819156519631371982394754050 63)) := by decide!
  have hc1 : xo_board_bit_check_at (xo_mem_board (xo_c3_mem 51391972259987750104921870443109333608831237933764972409906795610326412090604104230719363231486568525090004565205547984360740424492182790198667659877440839708866549178724460485544314406325834774823263873516348737071157959075189259939242493973826195791610859778356722549536001896819113866462451980819156519631371982394754050 63) (xo_ptr.stack 81))
      XO_BIT_MEANING_EMPTY 0 1 = true := by decide!
  have hp1 : xo_simulate_placement (xo_c3_mem 51391972259987750104921870443109333608831237933764972409906795610326412090604104230719363231486568525090004565205547984360740424492182790198667659877440839708866549178724460485544314406325834774823263873516348737071157959075189259939242493973826195791610859778356722549536001896819113866462451980819156519631371982394754050 63) (xo_ptr.stack 81)
      XO_BIT_MEANING_SIDE_X 0 1
      = (xo_ptr.stack 63, (xo_c3_mem 51391972259987750104921870443109333608831237933764972409906795610326412090604104230719363231486568525090004565205547984360740424492182790198667659877442760640825308605515800332051548971109369789848822930298867350055421001740094320548561705417361766811799567353081199395979682377577091848688298071864753922517884283641791490 72)) := by decide!
  have he1 : xo_game_cpu_minimax_eval 8 (xo_c3_mem 51391972259987750104921870443109333608831237933764972409906795610326412090604104230719363231486568525090004565205547984360740424492182790198667659877442760640825308605515800332051548971109369789848822930298867350055421001740094320548561705417361766811799567353081199395979682377577091848688298071864753922517884283641791490 72)
      (xo_ptr.stack 63) XO_BIT_MEANING_SIDE_O
      = some (⟨1, some (0, 0)⟩, (xo_c3_mem 51391972259987750104921870443109333608831237933764972409906795610326412090604104230719363231486568525090004565205547984360740424492182790198667659877442771977627609673878739219424579438765804161931990198930725916277937695858499072147993296064928601604240696556911739448014128566146895341968125338841966607811513594677559810 72)) := by decide!
  have hc2 : xo_board_bit_check_at (xo_mem_board (xo_c3_mem 51391972259987750104921870443109333608831237933764972409906795610326412090604104230719363231486568525090004565205547984360740424492182790198667659877442771977627609673878739219424579438765804161931990198930725916277937695858499072147993296064928601604240696556911739448014128566146895341968125338841966607811513594677559810 72) (xo_ptr.stack 81))
      XO_BIT_MEANING_EMPTY 0 2 = true := by decide!
  have hp2 : xo_simulate_placement (xo_c3_mem 51391972259987750104921870443109333608831237933764972409906795610326412090604104230719363231486568525090004565205547984360740424492182790198667659877442771977627609673878739219424579438765804161931990198930725916277937695858499072147993296064928601604240696556911739448014128566146895341968125338841966607811513594677559810 72) (xo_ptr.stack 81)
      XO_BIT_MEANING_SIDE_X 0 2
      = (xo_ptr.stack 72, (xo_c3_mem 51391972259987750104921870443109333608831237933764972409906795610326412090604104230719363231486568525090004565205547984360740424501253995661948339729303977846279262316714651424376218682585336629472118920256801454382539748010247899498190452094289853635488378373233789348680113195768890874376909229643312239780271404131549698 81)) := by decide!
  have he2 : xo_game_cpu_minimax_eval 8 (xo_c3_mem 51391972259987750104921870443109333608831237933764972409906795610326412090604104230719363231486568525090004565205547984360740424501253995661948339729303977846279262316714651424376218682585336629472118920256801454382539748010247899498190452094289853635488378373233789348680113195768890874376909229643312239780271404131549698 81)
      (xo_ptr.stack 72) XO_BIT_MEANING_SIDE_O
      = some (⟨1, some (0, 0)⟩, (xo_c3_mem 51391972259987750104921870443109333608831237933764972409906795610326412090604104230719363231486568525090004565205547984360740424501253995661948339729303977875648619694645908693304212316015577294611810504454142265535862062644987647142438937050018531207861502203778689412579570963774016615576352358793653333705163322425476098 72)) := by decide!
  have hc3 : xo_board_bit_check_at (xo_mem_board (xo_c3_mem 51391972259987750104921870443109333608831237933764972409906795610326412090604104230719363231486568525090004565205547984360740424501253995661948339729303977875648619694645908693304212316015577294611810504454142265535862062644987647142438937050018531207861502203778689412579570963774016615576352358793653333705163322425476098 72) (xo_ptr.stack 81))
      XO_BIT_MEANING_EMPTY 1 0 = true := by decide!
  have hp3 : xo_simulate_placement (xo_c3_mem 51391972259987750104921870443109333608831237933764972409906795610326412090604104230719363231486568525090004565205547984360740424501253995661948339729303977875648619694645908693304212316015577294611810504454142265535862062644987647142438937050018531207861502203778689412579570963774016615576352358793653333705163322425476098 72) (xo_ptr.stack 81)
      XO_BIT_MEANING_SIDE_X 1 0
      = (xo_ptr.stack 72, (xo_c3_mem 51391972259987750104921870443109333608831237933764972409906795610326412090604104230719363231486568525090004565205547984360740424501253995661952473035827667927228387913416382310856978619879725034492665553747388814234730389118940480335726091220110290821478227599253340832596094411834607057305645564810061932767145294802584578 81)) := by decide!
  have he3 : xo_game_cpu_minimax_eval 8 (xo_c3_mem 51391972259987750104921870443109333608831237933764972409906795610326412090604104230719363231486568525090004565205547984360740424501253995661952473035827667927228387913416382310856978619879725034492665553747388814234730389118940480335726091220110290821478227599253340832596094411834607057305645564810061932767145294802584578 81)
      (xo_ptr.stack 72) XO_BIT_MEANING_SIDE_O
      = some (⟨1, some (2, 0)⟩, (xo_c3_mem 51391972259987750104921870443109333608831237933764972409906795610326412090604104230719363231486568525090004565290700291941936468543860514944668219159809367086231145243738990213267666612086634680287534842750669193935140777571197668264874257811227759810974892592180384662892478778653280888208691304704049456122763115640390148 90)) := by decide!
  have hc4 : xo_board_bit_check_at (xo_mem_board (xo_c3_mem 51391972259987750104921870443109333608831237933764972409906795610326412090604104230719363231486568525090004565290700291941936468543860514944668219159809367086231145243738990213267666612086634680287534842750669193935140777571197668264874257811227759810974892592180384662892478778653280888208691304704049456122763115640390148 90) (xo_ptr.stack 81))
      XO_BIT_MEANING_EMPTY 1 1 = false := by decide!
  have hc5 : xo_board_bit_check_at (xo_mem_board (xo_c3_mem 51391972259987750104921870443109333608831237933764972409906795610326412090604104230719363231486568525090004565290700291941936468543860514944668219159809367086231145243738990213267666612086634680287534842750669193935140777571197668264874257811227759810974892592180384662892478778653280888208691304704049456122763115640390148 90) (xo_ptr.stack 81))
      XO_BIT_MEANING_EMPTY 1 2 = false := by decide!
  have hc6 : xo_board_bit_check_at (xo_mem_board (xo_c3_mem 51391972259987750104921870443109333608831237933764972409906795610326412090604104230719363231486568525090004565290700291941936468543860514944668219159809367086231145243738990213267666612086634680287534842750669193935140777571197668264874257811227759810974892592180384662892478778653280888208691304704049456122763115640390148 90) (xo_ptr.stack 81))
      XO_BIT_MEANING_EMPTY 2 0 = false := by decide!
  have hc7 : xo_board_bit_check_at (xo_mem_board (xo_c3_mem 51391972259987750104921870443109333608831237933764972409906795610326412090604104230719363231486568525090004565290700291941936468543860514944668219159809367086231145243738990213267666612086634680287534842750669193935140777571197668264874257811227759810974892592180384662892478778653280888208691304704049456122763115640390148 90) (xo_ptr.stack 81))
      XO_BIT_MEANING_EMPTY 2 1 = false := by decide!
  have hc8 : xo_board_bit_check_at (xo_mem_board (xo_c3_mem 51391972259987750104921870443109333608831237933764972409906795610326412090604104230719363231486568525090004565290700291941936468543860514944668219159809367086231145243738990213267666612086634680287534842750669193935140777571197668264874257811227759810974892592180384662892478778653280888208691304704049456122763115640390148 90) (xo_ptr.stack 81))
      XO_BIT_MEANING_EMPTY 2 2 = false := by decide!
  rw [show (9 : Nat) = 8 + 1 from rfl,
    xo_minimax_eval_succ_live 8 (xo_c3_mem 51391972259987750104921870443109333608831237933764972409906795610326412090604104230719363231486568525090004565205547984360740424492182790198667659877440839708866549178724460076376695428315426513500072177013191093068957154080559929142702058752855138763039746712905941477279514027724304063440029243190872913303909921980679170 90) (xo_ptr.stack 81) XO_BIT_MEANING_SIDE_X hterm]
  rw [show xo_stack_reset (xo_c3_mem 51391972259987750104921870443109333608831237933764972409906795610326412090604104230719363231486568525090004565205547984360740424492182790198667659877440839708866549178724460076376695428315426513500072177013191093068957154080559929142702058752855138763039746712905941477279514027724304063440029243190872913303909921980679170 90) = xo_c3_mem 51391972259987750104921870443109333608831237933764972409906795610326412090604104230719363231486568525090004565205547984360740424492182790198667659877440839708866549178724460076376695428315426513500072177013191093068957154080559929142702058752855138763039746712905941477279514027724304063440029243190872913303909921980679170 0 from rfl]
  rw [show (if XO_BIT_MEANING_SIDE_X == XO_BIT_MEANING_SIDE_O
      then INT32_MIN else INT32_MAX) = INT32_MAX from rfl]
  rw [show xo_scan_order = [((0 : Nat), (0 : Nat)), (0, 1), (0, 2), (1, 0),
    (1, 1), (1, 2), (2, 0), (2, 1), (2, 2)] from rfl]
  rw [xo_minimax_loop_cons_X_update hc0 hp0 he0 (by decide)]
  rw [xo_minimax_loop_cons_X_keep hc1 hp1 he1 (by decide)]
  rw [xo_minimax_loop_cons_X_keep hc2 hp2 he2 (by decide)]
  rw [xo_minimax_loop_cons_X_keep hc3 hp3 he3 (by decide)]
  rw [xo_minimax_loop_cons_skip hc4]
  rw [xo_minimax_loop_cons_skip hc5]
  rw [xo_minimax_loop_cons_skip hc6]
  rw [xo_minimax_loop_cons_skip hc7]
  rw [xo_minimax_loop_cons_skip hc8]
  simp [xo_minimax_loop]

set_option maxRecDepth 8000 in
set_option maxHeartbeats 2000000 in
lemma xo_c3_call10 :
    xo_game_cpu_minimax_eval 8 (xo_c3_mem 51391972259987750104921870443109333608831237933764972409906795610326412090604104230719363231486568525090004500569988169362699832045107325798755095979470222586809423240868607075071504810824267171291414339277736306117979885389262728667401268992909196617749070327025619997802153403736365468955472979153383470237548671909757442 81) (xo_ptr.stack 72) XO_BIT_MEANING_SIDE_O
      = some (⟨1, some (0, 0)⟩, xo_c3_mem 51391972259987750104921870443109333608831237933764972409906795610326412090604104230719363231486568525090004500569988169362699832045107326614583052946023519995409356302368675083207953082380102258377565804544215201656989741502825290171505758034312215652546500049272604650644066929447244785902664300537499871877565705005171204 9) := by
  have hterm : xo_board_test_if_final_state
      (xo_mem_board (xo_c3_mem 51391972259987750104921870443109333608831237933764972409906795610326412090604104230719363231486568525090004500569988169362699832045107325798755095979470222586809423240868607075071504810824267171291414339277736306117979885389262728667401268992909196617749070327025619997802153403736365468955472979153383470237548671909757442 81) (xo_ptr.stack 72)) = xo_win_state_type.NONE := by
    decide!
  have hc0 : xo_board_bit_check_at (xo_mem_board (xo_c3_mem 51391972259987750104921870443109333608831237933764972409906795610326412090604104230719363231486568525090004500569988169362699832045107325798755095979470222586809423240868607075071504810824267171291414339277736306117979885389262728667401268992909196617749070327025619997802153403736365468955472979153383470237548671909757442 0) (xo_ptr.stack 72))
      XO_BIT_MEANING_EMPTY 0 0 = true := by decide!
  have hp0 : xo_simulate_placement (xo_c3_mem 51391972259987750104921870443109333608831237933764972409906795610326412090604104230719363231486568525090004500569988169362699832045107325798755095979470222586809423240868607075071504810824267171291414339277736306117979885389262728667401268992909196617749070327025619997802153403736365468955472979153383470237548671909757442 0) (xo_ptr.stack 72)
      XO_BIT_MEANING_SIDE_O 0 0
      = (xo_ptr.stack 0, (xo_c3_mem 51391972259987750104921870443109333608831237933764972409906795610326412090604104230719363231486568525090004500569988169362699832045107325798755095979470222586809423240868607075071504810824267171291414339277736306117979885389262728667401268992909196617749070327025619997802153403736365468955472979153383470236704234077815044 9)) := by decide!
  have he0 : xo_game_cpu_minimax_eval 7 (xo_c3_mem 51391972259987750104921870443109333608831237933764972409906795610326412090604104230719363231486568525090004500569988169362699832045107325798755095979470222586809423240868607075071504810824267171291414339277736306117979885389262728667401268992909196617749070327025619997802153403736365468955472979153383470236704234077815044 9)
      (xo_ptr.stack 0) XO_BIT_MEANING_SIDE_X
      = some (⟨1, some (0, 1)⟩, (xo_c3_mem 51391972259987750104921870443109333608831237933764972409906795610326412090604104230719363231486568525090004500569988169362699832045107325798755095979470222586809423240868607075071504810824267171334735981116341126818075542331894866557818218116381396018010257462665731722723575333378465910048323404097422202914457344318505476 54)) := by decide!
  have hc1 : xo_board_bit_check_at (xo_mem_board (xo_c3_mem 51391972259987750104921870443109333608831237933764972409906795610326412090604104230719363231486568525090004500569988169362699832045107325798755095979470222586809423240868607075071504810824267171334735981116341126818075542331894866557818218116381396018010257462665731722723575333378465910048323404097422202914457344318505476 54) (xo_ptr.stack 72))
      XO_BIT_MEANING_EMPTY 0 1 = true := by decide!
  have hp1 : xo_simulate_placement (xo_c3_mem 51391972259987750104921870443109333608831237933764972409906795610326412090604104230719363231486568525090004500569988169362699832045107325798755095979470222586809423240868607075071504810824267171334735981116341126818075542331894866557818218116381396018010257462665731722723575333378465910048323404097422202914457344318505476 54) (xo_ptr.stack 72)
      XO_BIT_MEANING_SIDE_O 0 1
      = (xo_ptr.stack 54, (xo_c3_mem 51391972259987750104921870443109333608831237933764972409906795610326412090604104230719363231486568525090004500569988169362699832045107325798755095979470222586809423240868606461301400441556891937325431702314512801879137843228381635995934042005648551489600602542920083471349737520553690375393841835613295968043329193626436100 63)) := by decide!
  have he1 : xo_game_cpu_minimax_eval 7 (xo_c3_mem 51391972259987750104921870443109333608831237933764972409906795610326412090604104230719363231486568525090004500569988169362699832045107325798755095979470222586809423240868606461301400441556891937325431702314512801879137843228381635995934042005648551489600602542920083471349737520553690375393841835613295968043329193626436100 63)
      (xo_ptr.stack 54) XO_BIT_MEANING_SIDE_X
      = some (⟨1, some (0, 0)⟩, (xo_c3_mem 51391972259987750104921870443109333608831237933764972409906795610326412090604104230719363231486568525090004500569988169362699832045107325798755095979470222586809423240868606461304522190107207929513490335563463117594497376269694491930247884270932155303246467276695615518574592963142470741314263163844648922525853175687283714 45)) := by decide!
  have hc2 : xo_board_bit_check_at (xo_mem_board (xo_c3_mem 51391972259987750104921870443109333608831237933764972409906795610326412090604104230719363231486568525090004500569988169362699832045107325798755095979470222586809423240868606461304522190107207929513490335563463117594497376269694491930247884270932155303246467276695615518574592963142470741314263163844648922525853175687283714 45) (xo_ptr.stack 72))
      XO_BIT_MEANING_EMPTY 0 2 = false := by decide!
  have hc3 : xo_board_bit_check_at (xo_mem_board (xo_c3_mem 51391972259987750104921870443109333608831237933764972409906795610326412090604104230719363231486568525090004500569988169362699832045107325798755095979470222586809423240868606461304522190107207929513490335563463117594497376269694491930247884270932155303246467276695615518574592963142470741314263163844648922525853175687283714 45) (xo_ptr.stack 72))
      XO_BIT_MEANING_EMPTY 1 0 = true := by decide!
  have hp3 : xo_simulate_placement (xo_c3_mem 51391972259987750104921870443109333608831237933764972409906795610326412090604104230719363231486568525090004500569988169362699832045107325798755095979470222586809423240868606461304522190107207929513490335563463117594497376269694491930247884270932155303246467276695615518574592963142470741314263163844648922525853175687283714 45) (xo_ptr.stack 72)
      XO_BIT_MEANING_SIDE_O 1 0
      = (xo_ptr.stack 45, (xo_c3_mem 51391972259987750104921870443109333608831237933764972409906795610326412090604104230719363231486568525090004500569988169362699832045107325798755095979470222586809423240868606461304522190107207929513489666760862897300081135253961861251351765384336214727643842914336455667853761629851022006982721826790131011024368189531358210 54)) := by decide!
  have he3 : xo_game_cpu_minimax_eval 7 (xo_c3_mem 51391972259987750104921870443109333608831237933764972409906795610326412090604104230719363231486568525090004500569988169362699832045107325798755095979470222586809423240868606461304522190107207929513489666760862897300081135253961861251351765384336214727643842914336455667853761629851022006982721826790131011024368189531358210 54)
      (xo_ptr.stack 45) XO_BIT_MEANING_SIDE_X
      = some (⟨-1, some (1, 1)⟩, (xo_c3_mem 51391972259987750104921870443109333608831237933764972409906795610326412090604104230719363231486568525090004500569988169362699832045107325798755095979470222586809423240868606461304522190107207929513491649928769268647104892191080891266315159841658996689851899008845701331336457884223591478874899904350018221885506982691078660 9)) := by decide!
  have hc4 : xo_board_bit_check_at (xo_mem_board (xo_c3_mem 51391972259987750104921870443109333608831237933764972409906795610326412090604104230719363231486568525090004500569988169362699832045107325798755095979470222586809423240868606461304522190107207929513491649928769268647104892191080891266315159841658996689851899008845701331336457884223591478874899904350018221885506982691078660 9) (xo_ptr.stack 72))
      XO_BIT_MEANING_EMPTY 1 1 = true := by decide!
  have hp4 : xo_simulate_placement (xo_c3_mem 51391972259987750104921870443109333608831237933764972409906795610326412090604104230719363231486568525090004500569988169362699832045107325798755095979470222586809423240868606461304522190107207929513491649928769268647104892191080891266315159841658996689851899008845701331336457884223591478874899904350018221885506982691078660 9) (xo_ptr.stack 72)
      XO_BIT_MEANING_SIDE_O 1 1
      = (xo_ptr.stack 9, (xo_c3_mem 51391972259987750104921870443109333608831237933764972409906795610326412090604104230719363231486568525090004500569988169362699832045107325798755095979470222586809423240868606461304522190107207929513491649928769268647104892191080891266315159841658996689851899008845701331336457884223504362585747593306530331117212264896266756 18)) := by decide!
  have he4 : xo_game_cpu_minimax_eval 7 (xo_c3_mem 51391972259987750104921870443109333608831237933764972409906795610326412090604104230719363231486568525090004500569988169362699832045107325798755095979470222586809423240868606461304522190107207929513491649928769268647104892191080891266315159841658996689851899008845701331336457884223504362585747593306530331117212264896266756 18)
      (xo_ptr.stack 9) XO_BIT_MEANING_SIDE_X
      = some (⟨-1, some (0, 0)⟩, (xo_c3_mem 51391972259987750104921870443109333608831237933764972409906795610326412090604104230719363231486568525090004500569988169362699832045107325798755095979470222542410544535830928947789242423500162034112289249782974261407635575454964644607984870136601746919207116571643644516920608645198487085208568861381780007938880715146527746 72)) := by decide!
  have hc5 : xo_board_bit_check_at (xo_mem_board (xo_c3_mem 51391972259987750104921870443109333608831237933764972409906795610326412090604104230719363231486568525090004500569988169362699832045107325798755095979470222542410544535830928947789242423500162034112289249782974261407635575454964644607984870136601746919207116571643644516920608645198487085208568861381780007938880715146527746 72) (xo_ptr.stack 72))
      XO_BIT_MEANING_EMPTY 1 2 = true := by decide!
  have hp5 : xo_simulate_placement (xo_c3_mem 51391972259987750104921870443109333608831237933764972409906795610326412090604104230719363231486568525090004500569988169362699832045107325798755095979470222542410544535830928947789242423500162034112289249782974261407635575454964644607984870136601746919207116571643644516920608645198487085208568861381780007938880715146527746 72) (xo_ptr.stack 72)
      XO_BIT_MEANING_SIDE_O 1 2
      = (xo_ptr.stack 72, (xo_c3_mem 51391972259987750104921870443109333608831237933764972409906795610326412090604104230719363231486568525090004500569988169362699832045107326614583052946024486129618029800422740526044271252221196068458485525602842207676680422808568124000167657550611837793832676143989507151478928378221174470686741447106612011102865147880932354 81)) := by decide!
  have he5 : xo_game_cpu_minimax_eval 7 (xo_c3_mem 51391972259987750104921870443109333608831237933764972409906795610326412090604104230719363231486568525090004500569988169362699832045107326614583052946024486129618029800422740526044271252221196068458485525602842207676680422808568124000167657550611837793832676143989507151478928378221174470686741447106612011102865147880932354 81)
      (xo_ptr.stack 72) XO_BIT_MEANING_SIDE_X
      = some (⟨-1, some (0, 0)⟩, (xo_c3_mem 51391972259987750104921870443109333608831237933764972409906795610326412090604104230719363231486568525090004500569988169362699832045107326614583052946023519995409356302368675083207953082380102258377565804544215201656971393933849508757623842312870823640148462713735693390307294028859872485309767986675806988721503173307663364 9)) := by decide!
  have hc6 : xo_board_bit_check_at (xo_mem_board (xo_c3_mem 51391972259987750104921870443109333608831237933764972409906795610326412090604104230719363231486568525090004500569988169362699832045107326614583052946023519995409356302368675083207953082380102258377565804544215201656971393933849508757623842312870823640148462713735693390307294028859872485309767986675806988721503173307663364 9) (xo_ptr.stack 72))
      XO_BIT_MEANING_EMPTY 2 0 = true := by decide!
  have hp6 : xo_simulate_placement (xo_c3_mem 51391972259987750104921870443109333608831237933764972409906795610326412090604104230719363231486568525090004500569988169362699832045107326614583052946023519995409356302368675083207953082380102258377565804544215201656971393933849508757623842312870823640148462713735693390307294028859872485309767986675806988721503173307663364 9) (xo_ptr.stack 72)
      XO_BIT_MEANING_SIDE_O 2 0
      = (xo_ptr.stack 9, (xo_c3_mem 51391972259987750104921870443109333608831237933764972409906795610326412090604104230719363231486568525090004500569988169362699832045107326614583052946023519995409356302368675083207953082380102258377565804544215201656971393933849508757623842312870823640148462713735693390307294028859785373023815864787767421428395212326175748 18)) := by decide!
  have he6 : xo_game_cpu_minimax_eval 7 (xo_c3_mem 51391972259987750104921870443109333608831237933764972409906795610326412090604104230719363231486568525090004500569988169362699832045107326614583052946023519995409356302368675083207953082380102258377565804544215201656971393933849508757623842312870823640148462713735693390307294028859785373023815864787767421428395212326175748 18)
      (xo_ptr.stack 9) XO_BIT_MEANING_SIDE_X
      = some (⟨-1, some (0, 0)⟩, (xo_c3_mem 51391972259987750104921870443109333608831237933764972409906795610326412090604104230719363231486568525090004500569988169362699832045107326614583052946023519995409356302368675083207953082380102258377565804544215201656971393933849508757623846198208608091606604552659507037345481458092881525307774718930307090042697266808095746 36)) := by decide!
  have hc7 : xo_board_bit_check_at (xo_mem_board (xo_c3_mem 51391972259987750104921870443109333608831237933764972409906795610326412090604104230719363231486568525090004500569988169362699832045107326614583052946023519995409356302368675083207953082380102258377565804544215201656971393933849508757623846198208608091606604552659507037345481458092881525307774718930307090042697266808095746 36) (xo_ptr.stack 72))
      XO_BIT_MEANING_EMPTY 2 1 = false := by decide!
  have hc8 : xo_board_bit_check_at (xo_mem_board (xo_c3_mem 51391972259987750104921870443109333608831237933764972409906795610326412090604104230719363231486568525090004500569988169362699832045107326614583052946023519995409356302368675083207953082380102258377565804544215201656971393933849508757623846198208608091606604552659507037345481458092881525307774718930307090042697266808095746 36) (xo_ptr.stack 72))
      XO_BIT_MEANING_EMPTY 2 2 = true := by decide!
  have hp8 : xo_simulate_placement (xo_c3_mem 51391972259987750104921870443109333608831237933764972409906795610326412090604104230719363231486568525090004500569988169362699832045107326614583052946023519995409356302368675083207953082380102258377565804544215201656971393933849508757623846198208608091606604552659507037345481458092881525307774718930307090042697266808095746 36) (xo_ptr.stack 72)
      XO_BIT_MEANING_SIDE_O 2 2
      = (xo_ptr.stack 36, (xo_c3_mem 51391972259987750104921870443109333608831237933764972409906795610326412090604104230719363231486568525090004500569988169362699832045107326614583052946023519995409356302368675083207953082380102258377565804544215201656989741502825290171378443285850597180549674924764322554838594375060020477605506751114689979553048283874198530 45)) := by decide!
  have he8 : xo_game_cpu_minimax_eval 7 (xo_c3_mem 51391972259987750104921870443109333608831237933764972409906795610326412090604104230719363231486568525090004500569988169362699832045107326614583052946023519995409356302368675083207953082380102258377565804544215201656989741502825290171378443285850597180549674924764322554838594375060020477605506751114689979553048283874198530 45)
      (xo_ptr.stack 36) XO_BIT_MEANING_SIDE_X
      = some (⟨-1, some (0, 0)⟩, (xo_c3_mem 51391972259987750104921870443109333608831237933764972409906795610326412090604104230719363231486568525090004500569988169362699832045107326614583052946023519995409356302368675083207953082380102258377565804544215201656989741502825290171505758034312215652546500049272604650644066929447244785902664300537499871877565705005171204 9)) := by decide!
  rw [show (8 : Nat) = 7 + 1 from rfl,
    xo_minimax_eval_succ_live 7 (xo_c3_mem 51391972259987750104921870443109333608831237933764972409906795610326412090604104230719363231486568525090004500569988169362699832045107325798755095979470222586809423240868607075071504810824267171291414339277736306117979885389262728667401268992909196617749070327025619997802153403736365468955472979153383470237548671909757442 81) (xo_ptr.stack 72) XO_BIT_MEANING_SIDE_O hterm]
  rw [show xo_stack_reset (xo_c3_mem 51391972259987750104921870443109333608831237933764972409906795610326412090604104230719363231486568525090004500569988169362699832045107325798755095979470222586809423240868607075071504810824267171291414339277736306117979885389262728667401268992909196617749070327025619997802153403736365468955472979153383470237548671909757442 81) = xo_c3_mem 51391972259987750104921870443109333608831237933764972409906795610326412090604104230719363231486568525090004500569988169362699832045107325798755095979470222586809423240868607075071504810824267171291414339277736306117979885389262728667401268992909196617749070327025619997802153403736365468955472979153383470237548671909757442 0 from rfl]
  rw [show (if XO_BIT_MEANING_SIDE_O == XO_BIT_MEANING_SIDE_O
      then INT32_MIN else INT32_MAX) = INT32_MIN from rfl]
  rw [show xo_scan_order = [((0 : Nat), (0 : Nat)), (0, 1), (0, 2), (1, 0),
    (1, 1), (1, 2), (2, 0), (2, 1), (2, 2)] from rfl]
  rw [xo_minimax_loop_cons_O_update hc0 hp0 he0 (by decide)]
  rw [xo_minimax_loop_cons_O_keep hc1 hp1 he1 (by decide)]
  rw [xo_minimax_loop_cons_skip hc2]
  rw [xo_minimax_loop_cons_O_keep hc3 hp3 he3 (by decide)]
  rw [xo_minimax_loop_cons_O_keep hc4 hp4 he4 (by decide)]
  rw [xo_minimax_loop_cons_O_keep hc5 hp5 he5 (by decide)]
  rw [xo_minimax_loop_cons_O_keep hc6 hp6 he6 (by decide)]
  rw [xo_minimax_loop_cons_skip hc7]
  rw [xo_minimax_loop_cons_O_keep hc8 hp8 he8 (by decide)]
  simp [xo_minimax_loop]

set_option maxRecDepth 8000 in
set_option maxHeartbeats 2000000 in
lemma xo_c3_call9 :
    xo_game_cpu_minimax_eval 9 (xo_c3_mem 51391972259987750104921870443109333608831237933764972409906795610326412090604104230719363231486568525090004500569988169362699832049616509167358963146548664565802218223638222445587244338806209194834380954558626294885367767082532892613109417922772817622448426254948894254770652996441659253639732338766170513375298578905432580 135) (xo_ptr.stack 126) XO_BIT_MEANING_SIDE_X
      = some (⟨-1, some (1, 2)⟩, xo_c3_mem 51391972259987750104921870443109333608831237933764972409906795610326412090604104230719363231486568525090004500821813307902725104361856248540304732070444251247356936900795249038469738945624871410774860590611072906537021143591612163035280214822262552343644648978223958143071454837311655116110387204602892477176404894699226114 81) := by
  have hterm : xo_board_test_if_final_state
      (xo_mem_board (xo_c3_mem 51391972259987750104921870443109333608831237933764972409906795610326412090604104230719363231486568525090004500569988169362699832049616509167358963146548664565802218223638222445587244338806209194834380954558626294885367767082532892613109417922772817622448426254948894254770652996441659253639732338766170513375298578905432580 135) (xo_ptr.stack 126)) = xo_win_state_type.NONE := by
    decide!
  have hc0 : xo_board_bit_check_at (xo_mem_board (xo_c3_mem 51391972259987750104921870443109333608831237933764972409906795610326412090604104230719363231486568525090004500569988169362699832049616509167358963146548664565802218223638222445587244338806209194834380954558626294885367767082532892613109417922772817622448426254948894254770652996441659253639732338766170513375298578905432580 0) (xo_ptr.stack 126))
      XO_BIT_MEANING_EMPTY 0 0 = true := by decide!
  have hp0 : xo_simulate_placement (xo_c3_mem 51391972259987750104921870443109333608831237933764972409906795610326412090604104230719363231486568525090004500569988169362699832049616509167358963146548664565802218223638222445587244338806209194834380954558626294885367767082532892613109417922772817622448426254948894254770652996441659253639732338766170513375298578905432580 0) (xo_ptr.stack 126)
      XO_BIT_MEANING_SIDE_X 0 0
      = (xo_ptr.stack 0, (xo_c3_mem 51391972259987750104921870443109333608831237933764972409906795610326412090604104230719363231486568525090004500569988169362699832049616509167358963146548664565802218223638222445587244338806209194834380954558626294885367767082532892613109417922772817622448426254948894254770652996441659253639732338766170513590626936038686978 9)) := by decide!
  have he0 : xo_game_cpu_minimax_eval 8 (xo_c3_mem 51391972259987750104921870443109333608831237933764972409906795610326412090604104230719363231486568525090004500569988169362699832049616509167358963146548664565802218223638222445587244338806209194834380954558626294885367767082532892613109417922772817622448426254948894254770652996441659253639732338766170513590626936038686978 9)
      (xo_ptr.stack 0) XO_BIT_MEANING_SIDE_O
      = some (⟨1, some (0, 1)⟩, (xo_c3_mem 51391972259987750104921870443109333608831237933764972409906795610326412090604104230719363231486568525090004500569988169362699832049616509167358963146548664565802218223638223061739267145169517506961958782575669796600334535817556970219808431183863445381011348651999876957248864026420240985433353272114292488747189432714658818 63)) := by decide!
  have hc1 : xo_board_bit_check_at (xo_mem_board (xo_c3_mem 51391972259987750104921870443109333608831237933764972409906795610326412090604104230719363231486568525090004500569988169362699832049616509167358963146548664565802218223638223061739267145169517506961958782575669796600334535817556970219808431183863445381011348651999876957248864026420240985433353272114292488747189432714658818 63) (xo_ptr.stack 126))
      XO_BIT_MEANING_EMPTY 0 1 = true := by decide!
  have hp1 : xo_simulate_placement (xo_c3_mem 51391972259987750104921870443109333608831237933764972409906795610326412090604104230719363231486568525090004500569988169362699832049616509167358963146548664565802218223638223061739267145169517506961958782575669796600334535817556970219808431183863445381011348651999876957248864026420240985433353272114292488747189432714658818 63) (xo_ptr.stack 126)
      XO_BIT_MEANING_SIDE_X 0 1
      = (xo_ptr.stack 63, (xo_c3_mem 51391972259987750104921870443109333608831237933764972409906795610326412090604104230719363231486568525090004500569988169362699832049616509167358963146548672069500943061328632380299096950400405395470589298844185975060127466781378346657495612232036774520041518168459386423199883563174924046274626412789739286581932266925196290 72)) := by decide!
  have he1 : xo_game_cpu_minimax_eval 8 (xo_c3_mem 51391972259987750104921870443109333608831237933764972409906795610326412090604104230719363231486568525090004500569988169362699832049616509167358963146548672069500943061328632380299096950400405395470589298844185975060127466781378346657495612232036774520041518168459386423199883563174924046274626412789739286581932266925196290 72)
      (xo_ptr.stack 63) XO_BIT_MEANING_SIDE_O
      = some (⟨1, some (0, 0)⟩, (xo_c3_mem 51391972259987750104921870443109333608831237933764972409906795610326412090604104230719363231486568525090004500569988169362699832049616509167358963146549638248281253557563233521579785390097444297411657495238284735870877480502452125012470378232584554337539694016215548374172422213798279648197867598931995911228012477307683330 72)) := by decide!
  have hc2 : xo_board_bit_check_at (xo_mem_board (xo_c3_mem 51391972259987750104921870443109333608831237933764972409906795610326412090604104230719363231486568525090004500569988169362699832049616509167358963146549638248281253557563233521579785390097444297411657495238284735870877480502452125012470378232584554337539694016215548374172422213798279648197867598931995911228012477307683330 72) (xo_ptr.stack 126))
      XO_BIT_MEANING_EMPTY 0 2 = true := by decide!
  have hp2 : xo_simulate_placement (xo_c3_mem 51391972259987750104921870443109333608831237933764972409906795610326412090604104230719363231486568525090004500569988169362699832049616509167358963146549638248281253557563233521579785390097444297411657495238284735870877480502452125012470378232584554337539694016215548374172422213798279648197867598931995911228012477307683330 72) (xo_ptr.stack 126)
      XO_BIT_MEANING_SIDE_X 0 2
      = (xo_ptr.stack 72, (xo_c3_mem 51391972259987750104921870443109333608831237933764972409906795610326412090604104230719363231486568525090004500569988169362699832045107325798755095979470222586809423240868607075071504810824267171291414339277736306117979885389262728667401268992909196617749070327025619997802153403736365468955472979153383470237548671909757442 81)) := by decide!
  have hc3 : xo_board_bit_check_at (xo_mem_board (xo_c3_mem 51391972259987750104921870443109333608831237933764972409906795610326412090604104230719363231486568525090004500569988169362699832045107326614583052946023519995409356302368675083207953082380102258377565804544215201656989741502825290171505758034312215652546500049272604650644066929447244785902664300537499871877565705005171204 9) (xo_ptr.stack 126))
      XO_BIT_MEANING_EMPTY 1 0 = true := by decide!
  have hp3 : xo_simulate_placement (xo_c3_mem 51391972259987750104921870443109333608831237933764972409906795610326412090604104230719363231486568525090004500569988169362699832045107326614583052946023519995409356302368675083207953082380102258377565804544215201656989741502825290171505758034312215652546500049272604650644066929447244785902664300537499871877565705005171204 9) (xo_ptr.stack 126)
      XO_BIT_MEANING_SIDE_X 1 0
      = (xo_ptr.stack 9, (xo_c3_mem 51391972259987750104921870443109333608831237933764972409906795610326412090604104230719363231486568525090004500569988169362699832045107326614583052946023519995409356302368675083207953082380102258377565804544215201656989741502825290171505758034312215652546500049272604650644066929446983447700003285897534753737428018097422852 18)) := by decide!
  have he3 : xo_game_cpu_minimax_eval 8 (xo_c3_mem 51391972259987750104921870443109333608831237933764972409906795610326412090604104230719363231486568525090004500569988169362699832045107326614583052946023519995409356302368675083207953082380102258377565804544215201656989741502825290171505758034312215652546500049272604650644066929446983447700003285897534753737428018097422852 18)
      (xo_ptr.stack 9) XO_BIT_MEANING_SIDE_O
      = some (⟨1, some (0, 1)⟩, (xo_c3_mem 51391972259987750104921870443109333608831237933764972409906795610326412090604104230719363231486568525090004500569988169362699832045107326614583052946023519995409356302368675083207953082380102258377565804544215201656989741642811480953794075347933753875985361158222584996855187657853832207935620987802837472106061943835722754 45)) := by decide!
  have hc4 : xo_board_bit_check_at (xo_mem_board (xo_c3_mem 51391972259987750104921870443109333608831237933764972409906795610326412090604104230719363231486568525090004500569988169362699832045107326614583052946023519995409356302368675083207953082380102258377565804544215201656989741642811480953794075347933753875985361158222584996855187657853832207935620987802837472106061943835722754 45) (xo_ptr.stack 126))
      XO_BIT_MEANING_EMPTY 1 1 = true := by decide!
  have hp4 : xo_simulate_placement (xo_c3_mem 51391972259987750104921870443109333608831237933764972409906795610326412090604104230719363231486568525090004500569988169362699832045107326614583052946023519995409356302368675083207953082380102258377565804544215201656989741642811480953794075347933753875985361158222584996855187657853832207935620987802837472106061943835722754 45) (xo_ptr.stack 126)
      XO_BIT_MEANING_SIDE_X 1 1
      = (xo_ptr.stack 45, (xo_c3_mem 51391972259987750104921870443109333608831237933764972409906795610326412090604104230719363231486568525090004500569988169362699832045107326614583052946023519995409356302368675083207953082380102258377565796797465413482177268009119541979758061172824949295583297410593468701891211272479578408020610310411785020194824124702655490 54)) := by decide!
  have he4 : xo_game_cpu_minimax_eval 8 (xo_c3_mem 51391972259987750104921870443109333608831237933764972409906795610326412090604104230719363231486568525090004500569988169362699832045107326614583052946023519995409356302368675083207953082380102258377565796797465413482177268009119541979758061172824949295583297410593468701891211272479578408020610310411785020194824124702655490 54)
      (xo_ptr.stack 45) XO_BIT_MEANING_SIDE_O
      = some (⟨1, some (0, 1)⟩, (xo_c3_mem 51391972259987750104921870443109333608831237933764972409906795610326412090604104230719363231486568525090004500569988169362699832045107326614583052946023519995409356302368675083207953082380102258377565796797465875825636761072554556263868186535074168077265231205335303182584292554294505502340740077362492332921681138103353860 9)) := by decide!
  have hc5 : xo_board_bit_check_at (xo_mem_board (xo_c3_mem 51391972259987750104921870443109333608831237933764972409906795610326412090604104230719363231486568525090004500569988169362699832045107326614583052946023519995409356302368675083207953082380102258377565796797465875825636761072554556263868186535074168077265231205335303182584292554294505502340740077362492332921681138103353860 9) (xo_ptr.stack 126))
      XO_BIT_MEANING_EMPTY 1 2 = true := by decide!
  have hp5 : xo_simulate_placement (xo_c3_mem 51391972259987750104921870443109333608831237933764972409906795610326412090604104230719363231486568525090004500569988169362699832045107326614583052946023519995409356302368675083207953082380102258377565796797465875825636761072554556263868186535074168077265231205335303182584292554294505502340740077362492332921681138103353860 9) (xo_ptr.stack 126)
      XO_BIT_MEANING_SIDE_X 1 2
      = (xo_ptr.stack 9, (xo_c3_mem 51391972259987750104921870443109333608831237933764972409906795610326412090604104230719363231486568525090004500569988169362699832045107326614583052946023519995409356302368675083207953082380102258377565796797465875825636761072554556263868186535074168077265231205335303182584292554294244161495240288244049692764665796043735556 18)) := by decide!
  have he5 : xo_game_cpu_minimax_eval 8 (xo_c3_mem 51391972259987750104921870443109333608831237933764972409906795610326412090604104230719363231486568525090004500569988169362699832045107326614583052946023519995409356302368675083207953082380102258377565796797465875825636761072554556263868186535074168077265231205335303182584292554294244161495240288244049692764665796043735556 18)
      (xo_ptr.stack 9) XO_BIT_MEANING_SIDE_O
      = some (⟨-1, some (0, 0)⟩, (xo_c3_mem 51391972259987750104921870443109333608831237933764972409906795610326412090604104230719363231486568525090004500569988169362699832058794856778712327476226914458651431230693880287740575962815252312685121848881637423000456386978810666957337962174138246205469094703215235786313315249186463399155869308284813487252365739571807234 81)) := by decide!
  have hc6 : xo_board_bit_check_at (xo_mem_board (xo_c3_mem 51391972259987750104921870443109333608831237933764972409906795610326412090604104230719363231486568525090004500569988169362699832058794856778712327476226914458651431230693880287740575962815252312685121848881637423000456386978810666957337962174138246205469094703215235786313315249186463399155869308284813487252365739571807234 81) (xo_ptr.stack 126))
      XO_BIT_MEANING_EMPTY 2 0 = true := by decide!
  have hp6 : xo_simulate_placement (xo_c3_mem 51391972259987750104921870443109333608831237933764972409906795610326412090604104230719363231486568525090004500569988169362699832058794856778712327476226914458651431230693880287740575962815252312685121848881637423000456386978810666957337962174138246205469094703215235786313315249186463399155869308284813487252365739571807234 81) (xo_ptr.stack 126)
      XO_BIT_MEANING_SIDE_X 2 0
      = (xo_ptr.stack 81, (xo_c3_mem 51391972259987750104921870443109333608831237933764972409906795610326412090604104230719363231486568525090004500821813307902495469215794066304931887375791383573526125676821418096682358214238577094628808063484380899489924971839113861716269922516171240155946560641529998611457668151381394967841426738841605412625083287927522306 90)) := by decide!
  have he6 : xo_game_cpu_minimax_eval 8 (xo_c3_mem 51391972259987750104921870443109333608831237933764972409906795610326412090604104230719363231486568525090004500821813307902495469215794066304931887375791383573526125676821418096682358214238577094628808063484380899489924971839113861716269922516171240155946560641529998611457668151381394967841426738841605412625083287927522306 90)
      (xo_ptr.stack 81) XO_BIT_MEANING_SIDE_O
      = some (⟨1, some (0, 1)⟩, (xo_c3_mem 51391972259987750104921870443109333608831237933764972409906795610326412090604104230719363231486568525090004500821813307902725104361856108487714234174027634247426091999570937512087229853772432619476132002401462530812272757651901104091759882764060096381392895797152248107839291555442570478654406381451660798537498071056778242 54)) := by decide!
  have hc7 : xo_board_bit_check_at (xo_mem_board (xo_c3_mem 51391972259987750104921870443109333608831237933764972409906795610326412090604104230719363231486568525090004500821813307902725104361856108487714234174027634247426091999570937512087229853772432619476132002401462530812272757651901104091759882764060096381392895797152248107839291555442570478654406381451660798537498071056778242 54) (xo_ptr.stack 126))
      XO_BIT_MEANING_EMPTY 2 1 = false := by decide!
  have hc8 : xo_board_bit_check_at (xo_mem_board (xo_c3_mem 51391972259987750104921870443109333608831237933764972409906795610326412090604104230719363231486568525090004500821813307902725104361856108487714234174027634247426091999570937512087229853772432619476132002401462530812272757651901104091759882764060096381392895797152248107839291555442570478654406381451660798537498071056778242 54) (xo_ptr.stack 126))
      XO_BIT_MEANING_EMPTY 2 2 = true := by decide!
  have hp8 : xo_simulate_placement (xo_c3_mem 51391972259987750104921870443109333608831237933764972409906795610326412090604104230719363231486568525090004500821813307902725104361856108487714234174027634247426091999570937512087229853772432619476132002401462530812272757651901104091759882764060096381392895797152248107839291555442570478654406381451660798537498071056778242 54) (xo_ptr.stack 126)
      XO_BIT_MEANING_SIDE_X 2 2
      = (xo_ptr.stack 54, (xo_c3_mem 51391972259987750104921870443109333608831237933764972409906795610326412090604104230719363231486568525090004500821813307902725104361856108487714234174027634247426091999570937716670984515737978971362258133132431767955342532213240196433875146886331919512126598388711733766661773066022181601506071285953892375929680154304185346 63)) := by decide!
  have he8 : xo_game_cpu_minimax_eval 8 (xo_c3_mem 51391972259987750104921870443109333608831237933764972409906795610326412090604104230719363231486568525090004500821813307902725104361856108487714234174027634247426091999570937716670984515737978971362258133132431767955342532213240196433875146886331919512126598388711733766661773066022181601506071285953892375929680154304185346 63)
      (xo_ptr.stack 54) XO_BIT_MEANING_SIDE_O
      = some (⟨-1, some (0, 0)⟩, (xo_c3_mem 51391972259987750104921870443109333608831237933764972409906795610326412090604104230719363231486568525090004500821813307902725104361856248540304732070444251247356936900795249038469738945624871410774860590611072906537021143591612163035280214822262552343644648978223958143071454837311655116110387204602892477176404894699226114 81)) := by decide!
  rw [show (9 : Nat) = 8 + 1 from rfl,
    xo_minimax_eval_succ_live 8 (xo_c3_mem 51391972259987750104921870443109333608831237933764972409906795610326412090604104230719363231486568525090004500569988169362699832049616509167358963146548664565802218223638222445587244338806209194834380954558626294885367767082532892613109417922772817622448426254948894254770652996441659253639732338766170513375298578905432580 135) (xo_ptr.stack 126) XO_BIT_MEANING_SIDE_X hterm]
  rw [show xo_stack_reset (xo_c3_mem 51391972259987750104921870443109333608831237933764972409906795610326412090604104230719363231486568525090004500569988169362699832049616509167358963146548664565802218223638222445587244338806209194834380954558626294885367767082532892613109417922772817622448426254948894254770652996441659253639732338766170513375298578905432580 135) = xo_c3_mem 51391972259987750104921870443109333608831237933764972409906795610326412090604104230719363231486568525090004500569988169362699832049616509167358963146548664565802218223638222445587244338806209194834380954558626294885367767082532892613109417922772817622448426254948894254770652996441659253639732338766170513375298578905432580 0 from rfl]
  rw [show (if XO_BIT_MEANING_SIDE_X == XO_BIT_MEANING_SIDE_O
      then INT32_MIN else INT32_MAX) = INT32_MAX from rfl]
  rw [show xo_scan_order = [((0 : Nat), (0 : Nat)), (0, 1), (0, 2), (1, 0),
    (1, 1), (1, 2), (2, 0), (2, 1), (2, 2)] from rfl]
  rw [xo_minimax_loop_cons_X_update hc0 hp0 he0 (by decide)]
  rw [xo_minimax_loop_cons_X_keep hc1 hp1 he1 (by decide)]
  rw [xo_minimax_loop_cons_X_keep hc2 hp2 xo_c3_call10 (by decide)]
  rw [xo_minimax_loop_cons_X_keep hc3 hp3 he3 (by decide)]
  rw [xo_minimax_loop_cons_X_keep hc4 hp4 he4 (by decide)]
  rw [xo_minimax_loop_cons_X_update hc5 hp5 he5 (by decide)]
  rw [xo_minimax_loop_cons_X_keep hc6 hp6 he6 (by decide)]
  rw [xo_minimax_loop_cons_skip hc7]
  rw [xo_minimax_loop_cons_X_keep hc8 hp8 he8 (by decide)]
  simp [xo_minimax_loop]

set_option maxRecDepth 8000 in
set_option maxHeartbeats 2000000 in
lemma xo_c3_call8 :
    xo_game_cpu_minimax_eval 8 (xo_c3_mem 10757106017242527276020942147596503469585728218880527158635903462103388163510133254846898752608684478645958572589518652396385392763836817579385784158503925593945714688359210025774323222339789710576597852446648568129299389923843366268988556313936275544056851640858548878208500482909365823977349305336834 108) (xo_ptr.stack 99) XO_BIT_MEANING_SIDE_O
      = some (⟨1, some (0, 1)⟩, xo_c3_mem 10757106017242527276020942147596503469585728218880527158635903462103388163510133254846898752608684478645958568044830994998888706369197743327279055340959676924347925502280949454879001840815901231820124261850644031433311992452976583663775408359752067011393972799401661278564024165966181624501409241367554 27) := by
  have hterm : xo_board_test_if_final_state
      (xo_mem_board (xo_c3_mem 10757106017242527276020942147596503469585728218880527158635903462103388163510133254846898752608684478645958572589518652396385392763836817579385784158503925593945714688359210025774323222339789710576597852446648568129299389923843366268988556313936275544056851640858548878208500482909365823977349305336834 108) (xo_ptr.stack 99)) = xo_win_state_type.NONE := by
    decide!
  have hc0 : xo_board_bit_check_at (xo_mem_board (xo_c3_mem 10757106017242527276020942147596503469585728218880527158635903462103388163510133254846898752608684478645958572589518652396385392763836817579385784158503925593945714688359210025774323222339789710576597852446648568129299389923843366268988556313936275544056851640858548878208500482909365823977349305336834 0) (xo_ptr.stack 99))
      XO_BIT_MEANING_EMPTY 0 0 = true := by decide!
  have hp0 : xo_simulate_placement (xo_c3_mem 10757106017242527276020942147596503469585728218880527158635903462103388163510133254846898752608684478645958572589518652396385392763836817579385784158503925593945714688359210025774323222339789710576597852446648568129299389923843366268988556313936275544056851640858548878208500482909365823977349305336834 0) (xo_ptr.stack 99)
      XO_BIT_MEANING_SIDE_O 0 0
      = (xo_ptr.stack 0, (xo_c3_mem 10757106017242527276020942147596503469585728218880527158635903462103388163510133254846898752608684478645958572589518652396385392763836817579385784158503925593945714688359210025774323222339789710576597852446648568129299389923843366268988556313936275544056851640858548878208500482909365895753468349579524 9)) := by decide!
  have he0 : xo_game_cpu_minimax_eval 7 (xo_c3_mem 10757106017242527276020942147596503469585728218880527158635903462103388163510133254846898752608684478645958572589518652396385392763836817579385784158503925593945714688359210025774323222339789710576597852446648568129299389923843366268988556313936275544056851640858548878208500482909365895753468349579524 9)
      (xo_ptr.stack 0) XO_BIT_MEANING_SIDE_X
      = some (⟨-1, some (0, 1)⟩, (xo_c3_mem 10757106017242527276020942147596503469585728218880527158635903462103388163510133254846898752608684478645958572589518652396385392763836817579385784158503925593945714688359210025774323222339789710576597852446648568129299389923843366268988556313936275544056851640858548878208500482909421236270463006802436 9)) := by decide!
  have hc1 : xo_board_bit_check_at (xo_mem_board (xo_c3_mem 10757106017242527276020942147596503469585728218880527158635903462103388163510133254846898752608684478645958572589518652396385392763836817579385784158503925593945714688359210025774323222339789710576597852446648568129299389923843366268988556313936275544056851640858548878208500482909421236270463006802436 9) (xo_ptr.stack 99))
      XO_BIT_MEANING_EMPTY 0 1 = true := by decide!
  have hp1 : xo_simulate_placement (xo_c3_mem 10757106017242527276020942147596503469585728218880527158635903462103388163510133254846898752608684478645958572589518652396385392763836817579385784158503925593945714688359210025774323222339789710576597852446648568129299389923843366268988556313936275544056851640858548878208500482909421236270463006802436 9) (xo_ptr.stack 99)
      XO_BIT_MEANING_SIDE_O 0 1
      = (xo_ptr.stack 9, (xo_c3_mem 10757106017242527276020942147596503469585728218880527158635903462103388163510133254846898752608684478645958572589518652396385392763836817579385784158503925593945714688359210025774323222339789710576597852446648568129299389923843366268988556313936275544056851640858887826155048621299917983684668801942020 18)) := by decide!
  have he1 : xo_game_cpu_minimax_eval 7 (xo_c3_mem 10757106017242527276020942147596503469585728218880527158635903462103388163510133254846898752608684478645958572589518652396385392763836817579385784158503925593945714688359210025774323222339789710576597852446648568129299389923843366268988556313936275544056851640858887826155048621299917983684668801942020 18)
      (xo_ptr.stack 9) XO_BIT_MEANING_SIDE_X
      = some (⟨1, some (0, 0)⟩, (xo_c3_mem 10757106017242527276020942147596503469585728218880527158635903462103388163510133254846898752608684478645958572589518652396385392763836817579385784158503925593945714688359210025774323222339789710604155671754404271135998167332855241191463415611458681456553603513558109759979584190958736323704418715567106 45)) := by decide!
  have hc2 : xo_board_bit_check_at (xo_mem_board (xo_c3_mem 10757106017242527276020942147596503469585728218880527158635903462103388163510133254846898752608684478645958572589518652396385392763836817579385784158503925593945714688359210025774323222339789710604155671754404271135998167332855241191463415611458681456553603513558109759979584190958736323704418715567106 45) (xo_ptr.stack 99))
      XO_BIT_MEANING_EMPTY 0 2 = true := by decide!
  have hp2 : xo_simulate_placement (xo_c3_mem 10757106017242527276020942147596503469585728218880527158635903462103388163510133254846898752608684478645958572589518652396385392763836817579385784158503925593945714688359210025774323222339789710604155671754404271135998167332855241191463415611458681456553603513558109759979584190958736323704418715567106 45) (xo_ptr.stack 99)
      XO_BIT_MEANING_SIDE_O 0 2
      = (xo_ptr.stack 45, (xo_c3_mem 10757106017242527276020942147596503469585728218880527158635903462103388163510133254846898752608684478645958572589518652396385392763836817579385784158503925593945714688359210025435201510310988367116182486443561440593304020166925184528093026469759643241323053064998521059098353224729771026928176357180418 54)) := by decide!
  have he2 : xo_game_cpu_minimax_eval 7 (xo_c3_mem 10757106017242527276020942147596503469585728218880527158635903462103388163510133254846898752608684478645958572589518652396385392763836817579385784158503925593945714688359210025435201510310988367116182486443561440593304020166925184528093026469759643241323053064998521059098353224729771026928176357180418 54)
      (xo_ptr.stack 45) XO_BIT_MEANING_SIDE_X
      = some (⟨-1, some (0, 1)⟩, (xo_c3_mem 10757106017242527276020942147596503469585728218880527158635903462103388163510133254846898752608684478645958572589518652396385392763836817579385784158503925593945714688359210025435201510310988968343083534920375006645832694092365179826145686302581879761019787315343082168231112218242315457574237502702084 27)) := by decide!
  have hc3 : xo_board_bit_check_at (xo_mem_board (xo_c3_mem 10757106017242527276020942147596503469585728218880527158635903462103388163510133254846898752608684478645958572589518652396385392763836817579385784158503925593945714688359210025435201510310988968343083534920375006645832694092365179826145686302581879761019787315343082168231112218242315457574237502702084 27) (xo_ptr.stack 99))
      XO_BIT_MEANING_EMPTY 1 0 = true := by decide!
  have hp3 : xo_simulate_placement (xo_c3_mem 10757106017242527276020942147596503469585728218880527158635903462103388163510133254846898752608684478645958572589518652396385392763836817579385784158503925593945714688359210025435201510310988968343083534920375006645832694092365179826145686302581879761019787315343082168231112218242315457574237502702084 27) (xo_ptr.stack 99)
      XO_BIT_MEANING_SIDE_O 1 0
      = (xo_ptr.stack 27, (xo_c3_mem 10757106017242527276020942147596503469585728218880527158635903462103388163510133254846898752608684478645958572589518652396385392763836817579385784158503925593945714688359210025435201510310988968343083534920375006645826866085572710528963412734398996217192237585054559776974752156039940922742032465920516 36)) := by decide!
  have he3 : xo_game_cpu_minimax_eval 7 (xo_c3_mem 10757106017242527276020942147596503469585728218880527158635903462103388163510133254846898752608684478645958572589518652396385392763836817579385784158503925593945714688359210025435201510310988968343083534920375006645826866085572710528963412734398996217192237585054559776974752156039940922742032465920516 36)
      (xo_ptr.stack 27) XO_BIT_MEANING_SIDE_X
      = some (⟨-1, some (0, 0)⟩, (xo_c3_mem 10757106017242527276020942147596503469585728218880527158635903462103388163510133254846898752608684478645958572589518652396385392764802952075314042408386925068188281397988627127226761979228993189607427647085585899193825361257388365047363354273415457198640958842479759817191345515116180364111290587808770 72)) := by decide!
  have hc4 : xo_board_bit_check_at (xo_mem_board (xo_c3_mem 10757106017242527276020942147596503469585728218880527158635903462103388163510133254846898752608684478645958572589518652396385392764802952075314042408386925068188281397988627127226761979228993189607427647085585899193825361257388365047363354273415457198640958842479759817191345515116180364111290587808770 72) (xo_ptr.stack 99))
      XO_BIT_MEANING_EMPTY 1 1 = false := by decide!
  have hc5 : xo_board_bit_check_at (xo_mem_board (xo_c3_mem 10757106017242527276020942147596503469585728218880527158635903462103388163510133254846898752608684478645958572589518652396385392764802952075314042408386925068188281397988627127226761979228993189607427647085585899193825361257388365047363354273415457198640958842479759817191345515116180364111290587808770 72) (xo_ptr.stack 99))
      XO_BIT_MEANING_EMPTY 1 2 = true := by decide!
  have hp5 : xo_simulate_placement (xo_c3_mem 10757106017242527276020942147596503469585728218880527158635903462103388163510133254846898752608684478645958572589518652396385392764802952075314042408386925068188281397988627127226761979228993189607427647085585899193825361257388365047363354273415457198640958842479759817191345515116180364111290587808770 72) (xo_ptr.stack 99)
      XO_BIT_MEANING_SIDE_O 1 2
      = (xo_ptr.stack 72, (xo_c3_mem 10757106017242527276020942147596503469585728218880527158635903462103388163510133254846898752608684478645958568044830994998888706367265489480572077393193176695853862647538851900388576956794618025256835557081897023554800827134697116747639017049368898903795229204775194394540923927596356126881784162026498 81)) := by decide!
  have he5 : xo_game_cpu_minimax_eval 7 (xo_c3_mem 10757106017242527276020942147596503469585728218880527158635903462103388163510133254846898752608684478645958568044830994998888706367265489480572077393193176695853862647538851900388576956794618025256835557081897023554800827134697116747639017049368898903795229204775194394540923927596356126881784162026498 81)
      (xo_ptr.stack 72) XO_BIT_MEANING_SIDE_X
      = some (⟨-1, some (0, 0)⟩, (xo_c3_mem 10757106017242527276020942147596503469585728218880527158635903462103388163510133254846898752608684478645958568044830994998888706366299340357774401306304507439762359916635835457760763274903760929026119946187437821313118190173602006554883142731499893707790001739808613863658638113429316201009273632850948 36)) := by decide!
  have hc6 : xo_board_bit_check_at (xo_mem_board (xo_c3_mem 10757106017242527276020942147596503469585728218880527158635903462103388163510133254846898752608684478645958568044830994998888706366299340357774401306304507439762359916635835457760763274903760929026119946187437821313118190173602006554883142731499893707790001739808613863658638113429316201009273632850948 36) (xo_ptr.stack 99))
      XO_BIT_MEANING_EMPTY 2 0 = true := by decide!
  have hp6 : xo_simulate_placement (xo_c3_mem 10757106017242527276020942147596503469585728218880527158635903462103388163510133254846898752608684478645958568044830994998888706366299340357774401306304507439762359916635835457760763274903760929026119946187437821313118190173602006554883142731499893707790001739808613863658638113429316201009273632850948 36) (xo_ptr.stack 99)
      XO_BIT_MEANING_SIDE_O 2 0
      = (xo_ptr.stack 36, (xo_c3_mem 10757106017242527276020942147596503469585728218880527158635903462103388163510133254846898752608684478645958568044830994998888706366299340357774401306304507439762359916635835457760763274903760928998598241123211691812055715830885363982643104052290601384221470846475205017115968537175323755739541577794564 45)) := by decide!
  have he6 : xo_game_cpu_minimax_eval 7 (xo_c3_mem 10757106017242527276020942147596503469585728218880527158635903462103388163510133254846898752608684478645958568044830994998888706366299340357774401306304507439762359916635835457760763274903760928998598241123211691812055715830885363982643104052290601384221470846475205017115968537175323755739541577794564 45)
      (xo_ptr.stack 36) XO_BIT_MEANING_SIDE_X
      = some (⟨-1, some (0, 1)⟩, (xo_c3_mem 10757106017242527276020942147596503469585728218880527158635903462103388163510133254846898752608684478645958568044830994998888706366299340357774401306304712036016210788772482336403381976870150958258881790276661294254100588416861727224649488020811270312210375944040049171581486509607206964669504530022916 63)) := by decide!
  have hc7 : xo_board_bit_check_at (xo_mem_board (xo_c3_mem 10757106017242527276020942147596503469585728218880527158635903462103388163510133254846898752608684478645958568044830994998888706366299340357774401306304712036016210788772482336403381976870150958258881790276661294254100588416861727224649488020811270312210375944040049171581486509607206964669504530022916 63) (xo_ptr.stack 99))
      XO_BIT_MEANING_EMPTY 2 1 = false := by decide!
  have hc8 : xo_board_bit_check_at (xo_mem_board (xo_c3_mem 10757106017242527276020942147596503469585728218880527158635903462103388163510133254846898752608684478645958568044830994998888706366299340357774401306304712036016210788772482336403381976870150958258881790276661294254100588416861727224649488020811270312210375944040049171581486509607206964669504530022916 63) (xo_ptr.stack 99))
      XO_BIT_MEANING_EMPTY 2 2 = true := by decide!
  have hp8 : xo_simulate_placement (xo_c3_mem 10757106017242527276020942147596503469585728218880527158635903462103388163510133254846898752608684478645958568044830994998888706366299340357774401306304712036016210788772482336403381976870150958258881790276661294254100588416861727224649488020811270312210375944040049171581486509607206964669504530022916 63) (xo_ptr.stack 99)
      XO_BIT_MEANING_SIDE_O 2 2
      = (xo_ptr.stack 63, (xo_c3_mem 10757106017242527276020942147596503469585728218880527158635903462103388163510133254846898752608684478645958568044830994998888706369197743327279055340959676924347925502280949454880992755590112865186113780975707071149347663028594337505213987320571507177999954022138822528653677144833964634536299097883140 72)) := by decide!
  have he8 : xo_game_cpu_minimax_eval 7 (xo_c3_mem 10757106017242527276020942147596503469585728218880527158635903462103388163510133254846898752608684478645958568044830994998888706369197743327279055340959676924347925502280949454880992755590112865186113780975707071149347663028594337505213987320571507177999954022138822528653677144833964634536299097883140 72)
      (xo_ptr.stack 63) XO_BIT_MEANING_SIDE_X
      = some (⟨-1, some (0, 1)⟩, (xo_c3_mem 10757106017242527276020942147596503469585728218880527158635903462103388163510133254846898752608684478645958568044830994998888706369197743327279055340959676924347925502280949454879001840815901231820124261850644031433311992452976583663775408359752067011393972799401661278564024165966181624501409241367554 27)) := by decide!
  rw [show (8 : Nat) = 7 + 1 from rfl,
    xo_minimax_eval_succ_live 7 (xo_c3_mem 10757106017242527276020942147596503469585728218880527158635903462103388163510133254846898752608684478645958572589518652396385392763836817579385784158503925593945714688359210025774323222339789710576597852446648568129299389923843366268988556313936275544056851640858548878208500482909365823977349305336834 108) (xo_ptr.stack 99) XO_BIT_MEANING_SIDE_O hterm]
  rw [show xo_stack_reset (xo_c3_mem 10757106017242527276020942147596503469585728218880527158635903462103388163510133254846898752608684478645958572589518652396385392763836817579385784158503925593945714688359210025774323222339789710576597852446648568129299389923843366268988556313936275544056851640858548878208500482909365823977349305336834 108) = xo_c3_mem 10757106017242527276020942147596503469585728218880527158635903462103388163510133254846898752608684478645958572589518652396385392763836817579385784158503925593945714688359210025774323222339789710576597852446648568129299389923843366268988556313936275544056851640858548878208500482909365823977349305336834 0 from rfl]
  rw [show (if XO_BIT_MEANING_SIDE_O == XO_BIT_MEANING_SIDE_O
      then INT32_MIN else INT32_MAX) = INT32_MIN from rfl]
  rw [show xo_scan_order = [((0 : Nat), (0 : Nat)), (0, 1), (0, 2), (1, 0),
    (1, 1), (1, 2), (2, 0), (2, 1), (2, 2)] from rfl]
  rw [xo_minimax_loop_cons_O_update hc0 hp0 he0 (by decide)]
  rw [xo_minimax_loop_cons_O_update hc1 hp1 he1 (by decide)]
  rw [xo_minimax_loop_cons_O_keep hc2 hp2 he2 (by decide)]
  rw [xo_minimax_loop_cons_O_keep hc3 hp3 he3 (by decide)]
  rw [xo_minimax_loop_cons_skip hc4]
  rw [xo_minimax_loop_cons_O_keep hc5 hp5 he5 (by decide)]
  rw [xo_minimax_loop_cons_O_keep hc6 hp6 he6 (by decide)]
  rw [xo_minimax_loop_cons_skip hc7]
  rw [xo_minimax_loop_cons_O_keep hc8 hp8 he8 (by decide)]
  simp [xo_minimax_loop]

set_option maxRecDepth 8000 in
set_option maxHeartbeats 2000000 in
lemma xo_c3_call7 :
    xo_game_cpu_minimax_eval 8 (xo_c3_mem 10757106017242527276020942147596503469585728217003647951434728404305359697894527734436690451142496390495611408179047594696445780375949684372639360115309725699412005729988526137772419187978656595731376980633200555677512688091787275906775261925186739165229790452062679753480626753923201159495792525050372 99) (xo_ptr.stack 90) XO_BIT_MEANING_SIDE_O
      = some (⟨-1, some (0, 0)⟩, xo_c3_mem 10757106017242527276020942147596503469585728217003647951434728404305359697894527734436668652153044872670903484479765687688878133660509977559278513960408754684887442103784858819087480595542709558696353583615754145560602998403531083991820813278627938824041490667385611386694485013378651663491205383127556 36) := by
  have hterm : xo_board_test_if_final_state
      (xo_mem_board (xo_c3_mem 10757106017242527276020942147596503469585728217003647951434728404305359697894527734436690451142496390495611408179047594696445780375949684372639360115309725699412005729988526137772419187978656595731376980633200555677512688091787275906775261925186739165229790452062679753480626753923201159495792525050372 99) (xo_ptr.stack 90)) = xo_win_state_type.NONE := by
    decide!
  have hc0 : xo_board_bit_check_at (xo_mem_board (xo_c3_mem 10757106017242527276020942147596503469585728217003647951434728404305359697894527734436690451142496390495611408179047594696445780375949684372639360115309725699412005729988526137772419187978656595731376980633200555677512688091787275906775261925186739165229790452062679753480626753923201159495792525050372 0) (xo_ptr.stack 90))
      XO_BIT_MEANING_EMPTY 0 0 = true := by decide!
  have hp0 : xo_simulate_placement (xo_c3_mem 10757106017242527276020942147596503469585728217003647951434728404305359697894527734436690451142496390495611408179047594696445780375949684372639360115309725699412005729988526137772419187978656595731376980633200555677512688091787275906775261925186739165229790452062679753480626753923201159495792525050372 0) (xo_ptr.stack 90)
      XO_BIT_MEANING_SIDE_O 0 0
      = (xo_ptr.stack 0, (xo_c3_mem 10757106017242527276020942147596503469585728217003647951434728404305359697894527734436690451142496390495611408179047594696445780375949684372639360115309725699412005729988526137772419187978656595731376980633200555677512688091787275906775261925186739165229790452062679753480626753923201158651367577944324 9)) := by decide!
  have he0 : xo_game_cpu_minimax_eval 7 (xo_c3_mem 10757106017242527276020942147596503469585728217003647951434728404305359697894527734436690451142496390495611408179047594696445780375949684372639360115309725699412005729988526137772419187978656595731376980633200555677512688091787275906775261925186739165229790452062679753480626753923201158651367577944324 9)
      (xo_ptr.stack 0) XO_BIT_MEANING_SIDE_X
      = some (⟨-1, some (0, 1)⟩, (xo_c3_mem 10757106017242527276020942147596503469585728217003647951434728404305359697894527734436690451142496390495611408179047594696445780375949684372639360115309725699412005729988526137772419187978656595731376980633200555677512688091787275906775261925186739165229790452062679753480626753923201159495792525050372 81)) := by decide!
  have hc1 : xo_board_bit_check_at (xo_mem_board (xo_c3_mem 10757106017242527276020942147596503469585728217003647951434728404305359697894527734436690451142496390495611408179047594696445780375949684372639360115309725699412005729988526137772419187978656595731376980633200555677512688091787275906775261925186739165229790452062679753480626753923201159495792525050372 81) (xo_ptr.stack 90))
      XO_BIT_MEANING_EMPTY 0 1 = true := by decide!
  have hp1 : xo_simulate_placement (xo_c3_mem 10757106017242527276020942147596503469585728217003647951434728404305359697894527734436690451142496390495611408179047594696445780375949684372639360115309725699412005729988526137772419187978656595731376980633200555677512688091787275906775261925186739165229790452062679753480626753923201159495792525050372 81) (xo_ptr.stack 90)
      XO_BIT_MEANING_SIDE_O 0 1
      = (xo_ptr.stack 81, (xo_c3_mem 10757106017242527276020942147596503469585728217003647951434728404305359697894527734436668652153044872670903475355093304405669341029766968320712642532864444034692954397789897671432293586737415062769836766506076645604933653707818692365409554761878102353753593685440734860695676326001978216619240765784580 90)) := by decide!
  have he1 : xo_game_cpu_minimax_eval 7 (xo_c3_mem 10757106017242527276020942147596503469585728217003647951434728404305359697894527734436668652153044872670903475355093304405669341029766968320712642532864444034692954397789897671432293586737415062769836766506076645604933653707818692365409554761878102353753593685440734860695676326001978216619240765784580 90)
      (xo_ptr.stack 81) XO_BIT_MEANING_SIDE_X
      = some (⟨-1, some (0, 0)⟩, (xo_c3_mem 10757106017242527276020942147596503469585728217003647951434728404305359697894527734436668652153044872670903475355093304405669341029763150132164769581834817161447166896812906997769561410620511082387137956859690152267315867739508514159838979687430666813591792439282170360018662275709442581777883332871170 45)) := by decide!
  have hc2 : xo_board_bit_check_at (xo_mem_board (xo_c3_mem 10757106017242527276020942147596503469585728217003647951434728404305359697894527734436668652153044872670903475355093304405669341029763150132164769581834817161447166896812906997769561410620511082387137956859690152267315867739508514159838979687430666813591792439282170360018662275709442581777883332871170 45) (xo_ptr.stack 90))
      XO_BIT_MEANING_EMPTY 0 2 = true := by decide!
  have hp2 : xo_simulate_placement (xo_c3_mem 10757106017242527276020942147596503469585728217003647951434728404305359697894527734436668652153044872670903475355093304405669341029763150132164769581834817161447166896812906997769561410620511082387137956859690152267315867739508514159838979687430666813591792439282170360018662275709442581777883332871170 45) (xo_ptr.stack 90)
      XO_BIT_MEANING_SIDE_O 0 2
      = (xo_ptr.stack 45, (xo_c3_mem 10757106017242527276020942147596503469585728217003647951434728404305359697894527734436668652153044872670903475355093304405669341029763150132164769581834817161447166896812906954446597439983238840053826757123357161953061788755815780791473737947452048214556300255160519900405685315815444412648847650849794 54)) := by decide!
  have he2 : xo_game_cpu_minimax_eval 7 (xo_c3_mem 10757106017242527276020942147596503469585728217003647951434728404305359697894527734436668652153044872670903475355093304405669341029763150132164769581834817161447166896812906954446597439983238840053826757123357161953061788755815780791473737947452048214556300255160519900405685315815444412648847650849794 54)
      (xo_ptr.stack 45) XO_BIT_MEANING_SIDE_X
      = some (⟨-1, some (0, 0)⟩, (xo_c3_mem 10757106017242527276020942147596503469585728217003647951434728404305359697894527734436668652153044872670903475355093304405669341030740650626316600228453632477020445430959747518588950761659816546636985587996865168630112006410021949680444775433880226294975362690052823050471251233937210109670830687650818 72)) := by decide!
  have hc3 : xo_board_bit_check_at (xo_mem_board (xo_c3_mem 10757106017242527276020942147596503469585728217003647951434728404305359697894527734436668652153044872670903475355093304405669341030740650626316600228453632477020445430959747518588950761659816546636985587996865168630112006410021949680444775433880226294975362690052823050471251233937210109670830687650818 72) (xo_ptr.stack 90))
      XO_BIT_MEANING_EMPTY 1 0 = true := by decide!
  have hp3 : xo_simulate_placement (xo_c3_mem 10757106017242527276020942147596503469585728217003647951434728404305359697894527734436668652153044872670903475355093304405669341030740650626316600228453632477020445430959747518588950761659816546636985587996865168630112006410021949680444775433880226294975362690052823050471251233937210109670830687650818 72) (xo_ptr.stack 90)
      XO_BIT_MEANING_SIDE_O 1 0
      = (xo_ptr.stack 72, (xo_c3_mem 10757106017242527276020942147596503469585728217003647951434728404305359697894527734436668652153044872670903470792443834834741024441705900056515466609037839359744608528235802521770126474505650390054020431839936410160708300270779383290465592579077998083077072585189021145606114288513575028172279528031234 81)) := by decide!
  have he3 : xo_game_cpu_minimax_eval 7 (xo_c3_mem 10757106017242527276020942147596503469585728217003647951434728404305359697894527734436668652153044872670903470792443834834741024441705900056515466609037839359744608528235802521770126474505650390054020431839936410160708300270779383290465592579077998083077072585189021145606114288513575028172279528031234 81)
      (xo_ptr.stack 72) XO_BIT_MEANING_SIDE_X
      = some (⟨-1, some (0, 1)⟩, (xo_c3_mem 10757106017242527276020942147596503469585728217003647951434728404305359697894527734436668652153044872670903470792443834834741024441705900056515466609037225589640382721366419056658558966742047290263184249175798408138013984368844954960646465991480157297708049151849198878858217734779540410373712893969410 54)) := by decide!
  have hc4 : xo_board_bit_check_at (xo_mem_board (xo_c3_mem 10757106017242527276020942147596503469585728217003647951434728404305359697894527734436668652153044872670903470792443834834741024441705900056515466609037225589640382721366419056658558966742047290263184249175798408138013984368844954960646465991480157297708049151849198878858217734779540410373712893969410 54) (xo_ptr.stack 90))
      XO_BIT_MEANING_EMPTY 1 1 = false := by decide!
  have hc5 : xo_board_bit_check_at (xo_mem_board (xo_c3_mem 10757106017242527276020942147596503469585728217003647951434728404305359697894527734436668652153044872670903470792443834834741024441705900056515466609037225589640382721366419056658558966742047290263184249175798408138013984368844954960646465991480157297708049151849198878858217734779540410373712893969410 54) (xo_ptr.stack 90))
      XO_BIT_MEANING_EMPTY 1 2 = false := by decide!
  have hc6 : xo_board_bit_check_at (xo_mem_board (xo_c3_mem 10757106017242527276020942147596503469585728217003647951434728404305359697894527734436668652153044872670903470792443834834741024441705900056515466609037225589640382721366419056658558966742047290263184249175798408138013984368844954960646465991480157297708049151849198878858217734779540410373712893969410 54) (xo_ptr.stack 90))
      XO_BIT_MEANING_EMPTY 2 0 = true := by decide!
  have hp6 : xo_simulate_placement (xo_c3_mem 10757106017242527276020942147596503469585728217003647951434728404305359697894527734436668652153044872670903470792443834834741024441705900056515466609037225589640382721366419056658558966742047290263184249175798408138013984368844954960646465991480157297708049151849198878858217734779540410373712893969410 54) (xo_ptr.stack 90)
      XO_BIT_MEANING_SIDE_O 2 0
      = (xo_ptr.stack 54, (xo_c3_mem 10757106017242527276020942147596503469585728217003647951434728404305359697894527734436668652153044872670903470792443834834741024441705900056515466609037225599005627813375416767481651823691537941633491759220505492167896506778997001508330767149395428647265963747148076016698971202432636560129916408169474 63)) := by decide!
  have he6 : xo_game_cpu_minimax_eval 7 (xo_c3_mem 10757106017242527276020942147596503469585728217003647951434728404305359697894527734436668652153044872670903470792443834834741024441705900056515466609037225599005627813375416767481651823691537941633491759220505492167896506778997001508330767149395428647265963747148076016698971202432636560129916408169474 63)
      (xo_ptr.stack 54) XO_BIT_MEANING_SIDE_X
      = some (⟨-1, some (0, 1)⟩, (xo_c3_mem 10757106017242527276020942147596503469585728217003647951434728404305359697894527734436668652153044872670903470792443834834741024441705900056515466609037225599005627814102255447948586927360383371839724006984452561504589956365489309753376299300934444886925162640192610762579644847162418512813682451415556 36)) := by decide!
  have hc7 : xo_board_bit_check_at (xo_mem_board (xo_c3_mem 10757106017242527276020942147596503469585728217003647951434728404305359697894527734436668652153044872670903470792443834834741024441705900056515466609037225599005627814102255447948586927360383371839724006984452561504589956365489309753376299300934444886925162640192610762579644847162418512813682451415556 36) (xo_ptr.stack 90))
      XO_BIT_MEANING_EMPTY 2 1 = true := by decide!
  have hp7 : xo_simulate_placement (xo_c3_mem 10757106017242527276020942147596503469585728217003647951434728404305359697894527734436668652153044872670903470792443834834741024441705900056515466609037225599005627814102255447948586927360383371839724006984452561504589956365489309753376299300934444886925162640192610762579644847162418512813682451415556 36) (xo_ptr.stack 90)
      XO_BIT_MEANING_SIDE_O 2 1
      = (xo_ptr.stack 36, (xo_c3_mem 10757106017242527276020942147596503469585728217003647951434728404305359697894527734436668652153044872670903470792443834834741024441705900056515466609037225599005627814102255447948586927360383371812309111388057047036501761979126564910734196056201026259467203641459357370111438925422422867251923993625092 45)) := by decide!
  have he7 : xo_game_cpu_minimax_eval 7 (xo_c3_mem 10757106017242527276020942147596503469585728217003647951434728404305359697894527734436668652153044872670903470792443834834741024441705900056515466609037225599005627814102255447948586927360383371812309111388057047036501761979126564910734196056201026259467203641459357370111438925422422867251923993625092 45)
      (xo_ptr.stack 36) XO_BIT_MEANING_SIDE_X
      = some (⟨-1, some (0, 0)⟩, (xo_c3_mem 10757106017242527276020942147596503469585728217003647951434728404305359697894527734436668652153044872670903470792443834834741024443638139333941762871796716392244989062934615821756641942613421205221068688095212553358962835145652739198195793292560693454521313421426917153227687292758338385538739335136258 72)) := by decide!
  have hc8 : xo_board_bit_check_at (xo_mem_board (xo_c3_mem 10757106017242527276020942147596503469585728217003647951434728404305359697894527734436668652153044872670903470792443834834741024443638139333941762871796716392244989062934615821756641942613421205221068688095212553358962835145652739198195793292560693454521313421426917153227687292758338385538739335136258 72) (xo_ptr.stack 90))
      XO_BIT_MEANING_EMPTY 2 2 = true := by decide!
  have hp8 : xo_simulate_placement (xo_c3_mem 10757106017242527276020942147596503469585728217003647951434728404305359697894527734436668652153044872670903470792443834834741024443638139333941762871796716392244989062934615821756641942613421205221068688095212553358962835145652739198195793292560693454521313421426917153227687292758338385538739335136258 72) (xo_ptr.stack 90)
      XO_BIT_MEANING_SIDE_O 2 2
      = (xo_ptr.stack 72, (xo_c3_mem 10757106017242527276020942147596503469585728217003647951434728404305359697894527734436668652153044872670903484479765687688878133660509977559278513960408754684887442103784858819595171579573622288720778201010290742444580173064281011430407589871689234986269946664408857406869819312369643223956787503891458 81)) := by decide!
  have he8 : xo_game_cpu_minimax_eval 7 (xo_c3_mem 10757106017242527276020942147596503469585728217003647951434728404305359697894527734436668652153044872670903484479765687688878133660509977559278513960408754684887442103784858819595171579573622288720778201010290742444580173064281011430407589871689234986269946664408857406869819312369643223956787503891458 81)
      (xo_ptr.stack 72) XO_BIT_MEANING_SIDE_X
      = some (⟨-1, some (0, 0)⟩, (xo_c3_mem 10757106017242527276020942147596503469585728217003647951434728404305359697894527734436668652153044872670903484479765687688878133660509977559278513960408754684887442103784858819087480595542709558696353583615754145560602998403531083991820813278627938824041490667385611386694485013378651663491205383127556 36)) := by decide!
  rw [show (8 : Nat) = 7 + 1 from rfl,
    xo_minimax_eval_succ_live 7 (xo_c3_mem 10757106017242527276020942147596503469585728217003647951434728404305359697894527734436690451142496390495611408179047594696445780375949684372639360115309725699412005729988526137772419187978656595731376980633200555677512688091787275906775261925186739165229790452062679753480626753923201159495792525050372 99) (xo_ptr.stack 90) XO_BIT_MEANING_SIDE_O hterm]
  rw [show xo_stack_reset (xo_c3_mem 10757106017242527276020942147596503469585728217003647951434728404305359697894527734436690451142496390495611408179047594696445780375949684372639360115309725699412005729988526137772419187978656595731376980633200555677512688091787275906775261925186739165229790452062679753480626753923201159495792525050372 99) = xo_c3_mem 10757106017242527276020942147596503469585728217003647951434728404305359697894527734436690451142496390495611408179047594696445780375949684372639360115309725699412005729988526137772419187978656595731376980633200555677512688091787275906775261925186739165229790452062679753480626753923201159495792525050372 0 from rfl]
  rw [show (if XO_BIT_MEANING_SIDE_O == XO_BIT_MEANING_SIDE_O
      then INT32_MIN else INT32_MAX) = INT32_MIN from rfl]
  rw [show xo_scan_order = [((0 : Nat), (0 : Nat)), (0, 1), (0, 2), (1, 0),
    (1, 1), (1, 2), (2, 0), (2, 1), (2, 2)] from rfl]
  rw [xo_minimax_loop_cons_O_update hc0 hp0 he0 (by decide)]
  rw [xo_minimax_loop_cons_O_keep hc1 hp1 he1 (by decide)]
  rw [xo_minimax_loop_cons_O_keep hc2 hp2 he2 (by decide)]
  rw [xo_minimax_loop_cons_O_keep hc3 hp3 he3 (by decide)]
  rw [xo_minimax_loop_cons_skip hc4]
  rw [xo_minimax_loop_cons_skip hc5]
  rw [xo_minimax_loop_cons_O_keep hc6 hp6 he6 (by decide)]
  rw [xo_minimax_loop_cons_O_keep hc7 hp7 he7 (by decide)]
  rw [xo_minimax_loop_cons_O_keep hc8 hp8 he8 (by decide)]
  simp [xo_minimax_loop]

set_option maxRecDepth 8000 in
set_option maxHeartbeats 2000000 in
lemma xo_c3_call6 :
    xo_game_cpu_minimax_eval 8 (xo_c3_mem 10757106017242527276020942147596503469585728217003647951434728404305359691830004297860875978901940396488640303889021197758128047716311249445154692358463185746424308338534778182134305644402010702453923345455241521833904153088587843534646253869298221150775058835737548915940446586342457809738942000529924 99) (xo_ptr.stack 90) XO_BIT_MEANING_SIDE_O
      = some (⟨-1, some (0, 0)⟩, xo_c3_mem 10757106017242527276020942147596503469585728217003647951434728404305359691830004297860811088877899142560140773553150638639131731370360268639696716718510679058372829395994737646070723331265151549140115927629164007955388624942050756595537136212554223293995984905966457123395922017172976153130299771978244 36) := by
  have hterm : xo_board_test_if_final_state
      (xo_mem_board (xo_c3_mem 10757106017242527276020942147596503469585728217003647951434728404305359691830004297860875978901940396488640303889021197758128047716311249445154692358463185746424308338534778182134305644402010702453923345455241521833904153088587843534646253869298221150775058835737548915940446586342457809738942000529924 99) (xo_ptr.stack 90)) = xo_win_state_type.NONE := by
    decide!
  have hc0 : xo_board_bit_check_at (xo_mem_board (xo_c3_mem 10757106017242527276020942147596503469585728217003647951434728404305359691830004297860875978901940396488640303889021197758128047716311249445154692358463185746424308338534778182134305644402010702453923345455241521833904153088587843534646253869298221150775058835737548915940446586342457809738942000529924 0) (xo_ptr.stack 90))
      XO_BIT_MEANING_EMPTY 0 0 = true := by decide!
  have hp0 : xo_simulate_placement (xo_c3_mem 10757106017242527276020942147596503469585728217003647951434728404305359691830004297860875978901940396488640303889021197758128047716311249445154692358463185746424308338534778182134305644402010702453923345455241521833904153088587843534646253869298221150775058835737548915940446586342457809738942000529924 0) (xo_ptr.stack 90)
      XO_BIT_MEANING_SIDE_O 0 0
      = (xo_ptr.stack 0, (xo_c3_mem 10757106017242527276020942147596503469585728217003647951434728404305359691830004297860875978901940396488640303889021197758128047716311249445154692358463185746424308338534778182134305644402010702453923345455241521833904153088587843534646253869298221150775058835737548915940446586342457808893417508438276 9)) := by decide!
  have he0 : xo_game_cpu_minimax_eval 7 (xo_c3_mem 10757106017242527276020942147596503469585728217003647951434728404305359691830004297860875978901940396488640303889021197758128047716311249445154692358463185746424308338534778182134305644402010702453923345455241521833904153088587843534646253869298221150775058835737548915940446586342457808893417508438276 9)
      (xo_ptr.stack 0) XO_BIT_MEANING_SIDE_X
      = some (⟨-1, some (0, 1)⟩, (xo_c3_mem 10757106017242527276020942147596503469585728217003647951434728404305359691830004297860875978901940396488640303889021197758128047716311249445154692358463185746424308338534778182134305644402010702453923345455241521833904153088587843534646253869298221150775058835737548915940446586342457809738942000529924 81)) := by decide!
  have hc1 : xo_board_bit_check_at (xo_mem_board (xo_c3_mem 10757106017242527276020942147596503469585728217003647951434728404305359691830004297860875978901940396488640303889021197758128047716311249445154692358463185746424308338534778182134305644402010702453923345455241521833904153088587843534646253869298221150775058835737548915940446586342457809738942000529924 81) (xo_ptr.stack 90))
      XO_BIT_MEANING_EMPTY 0 1 = true := by decide!
  have hp1 : xo_simulate_placement (xo_c3_mem 10757106017242527276020942147596503469585728217003647951434728404305359691830004297860875978901940396488640303889021197758128047716311249445154692358463185746424308338534778182134305644402010702453923345455241521833904153088587843534646253869298221150775058835737548915940446586342457809738942000529924 81) (xo_ptr.stack 90)
      XO_BIT_MEANING_SIDE_O 0 1
      = (xo_ptr.stack 81, (xo_c3_mem 10757106017242527276020942147596503469585728217003647951434728404305359691830004297860811088877899142560140764428478527306825664926560950308672692263790669607288439638710795450628977517241005173894851789392894513762303645864281980490267868177182107564105834126579189954930636779356125115928279360078340 90)) := by decide!
  have he1 : xo_game_cpu_minimax_eval 7 (xo_c3_mem 10757106017242527276020942147596503469585728217003647951434728404305359691830004297860811088877899142560140764428478527306825664926560950308672692263790669607288439638710795450628977517241005173894851789392894513762303645864281980490267868177182107564105834126579189954930636779356125115928279360078340 90)
      (xo_ptr.stack 81) XO_BIT_MEANING_SIDE_X
      = some (⟨-1, some (1, 0)⟩, (xo_c3_mem 10757106017242527276020942147596503469585728217003647951434728404305359691830004297860811088877899142560140764428478527306825664926560950308672692263790669607288439638710795450288531110945944235345124452922371197931243341443025436037186690801361184164629938567116831370360728643666045605033543142081538 45)) := by decide!
  have hc2 : xo_board_bit_check_at (xo_mem_board (xo_c3_mem 10757106017242527276020942147596503469585728217003647951434728404305359691830004297860811088877899142560140764428478527306825664926560950308672692263790669607288439638710795450288531110945944235345124452922371197931243341443025436037186690801361184164629938567116831370360728643666045605033543142081538 45) (xo_ptr.stack 90))
      XO_BIT_MEANING_EMPTY 0 2 = false := by decide!
  have hc3 : xo_board_bit_check_at (xo_mem_board (xo_c3_mem 10757106017242527276020942147596503469585728217003647951434728404305359691830004297860811088877899142560140764428478527306825664926560950308672692263790669607288439638710795450288531110945944235345124452922371197931243341443025436037186690801361184164629938567116831370360728643666045605033543142081538 45) (xo_ptr.stack 90))
      XO_BIT_MEANING_EMPTY 1 0 = true := by decide!
  have hp3 : xo_simulate_placement (xo_c3_mem 10757106017242527276020942147596503469585728217003647951434728404305359691830004297860811088877899142560140764428478527306825664926560950308672692263790669607288439638710795450288531110945944235345124452922371197931243341443025436037186690801361184164629938567116831370360728643666045605033543142081538 45) (xo_ptr.stack 90)
      XO_BIT_MEANING_SIDE_O 1 0
      = (xo_ptr.stack 45, (xo_c3_mem 10757106017242527276020942147596503469585728217003647951434728404305359691830004297860811088877899142560140764428478527306825664926560950308672692263790669607288439638710795450119300783053844808921914001398899912914504249808571637187515377625297478621405262613828737312751834366506682746683518861050882 54)) := by decide!
  have he3 : xo_game_cpu_minimax_eval 7 (xo_c3_mem 10757106017242527276020942147596503469585728217003647951434728404305359691830004297860811088877899142560140764428478527306825664926560950308672692263790669607288439638710795450119300783053844808921914001398899912914504249808571637187515377625297478621405262613828737312751834366506682746683518861050882 54)
      (xo_ptr.stack 45) XO_BIT_MEANING_SIDE_X
      = some (⟨-1, some (0, 1)⟩, (xo_c3_mem 10757106017242527276020942147596503469585728217003647951434728404305359691830004297860811088877899142560140764428478527306825664926560950308672692263790669607288439638710795580597869429154201716633016671099943112345291554105683941606498209487555910952806914125379476086473360094569138931720708843241988 54)) := by decide!
  have hc4 : xo_board_bit_check_at (xo_mem_board (xo_c3_mem 10757106017242527276020942147596503469585728217003647951434728404305359691830004297860811088877899142560140764428478527306825664926560950308672692263790669607288439638710795580597869429154201716633016671099943112345291554105683941606498209487555910952806914125379476086473360094569138931720708843241988 54) (xo_ptr.stack 90))
      XO_BIT_MEANING_EMPTY 1 1 = false := by decide!
  have hc5 : xo_board_bit_check_at (xo_mem_board (xo_c3_mem 10757106017242527276020942147596503469585728217003647951434728404305359691830004297860811088877899142560140764428478527306825664926560950308672692263790669607288439638710795580597869429154201716633016671099943112345291554105683941606498209487555910952806914125379476086473360094569138931720708843241988 54) (xo_ptr.stack 90))
      XO_BIT_MEANING_EMPTY 1 2 = true := by decide!
  have hp5 : xo_simulate_placement (xo_c3_mem 10757106017242527276020942147596503469585728217003647951434728404305359691830004297860811088877899142560140764428478527306825664926560950308672692263790669607288439638710795580597869429154201716633016671099943112345291554105683941606498209487555910952806914125379476086473360094569138931720708843241988 54) (xo_ptr.stack 90)
      XO_BIT_MEANING_SIDE_O 1 2
      = (xo_ptr.stack 54, (xo_c3_mem 10757106017242527276020942147596503469585728217003647951434728404305359691830004297860811088877899142560140764428478527306825664926560950308672692263790055837208601563496522357863390187216213595684995473133246473082030171733466477801200136127024643502852378762168673839799761507012878637663925550842372 63)) := by decide!
  have he5 : xo_game_cpu_minimax_eval 7 (xo_c3_mem 10757106017242527276020942147596503469585728217003647951434728404305359691830004297860811088877899142560140764428478527306825664926560950308672692263790055837208601563496522357863390187216213595684995473133246473082030171733466477801200136127024643502852378762168673839799761507012878637663925550842372 63)
      (xo_ptr.stack 54) XO_BIT_MEANING_SIDE_X
      = some (⟨-1, some (0, 1)⟩, (xo_c3_mem 10757106017242527276020942147596503469585728217003647951434728404305359691830004297860811088877899142560140764428478527306825664926560950308672692263790056636376230444390533461242950442808164646763924653161916339321128329289810736853086759324182806099541506226890859669251719635470625085929191314162180 27)) := by decide!
  have hc6 : xo_board_bit_check_at (xo_mem_board (xo_c3_mem 10757106017242527276020942147596503469585728217003647951434728404305359691830004297860811088877899142560140764428478527306825664926560950308672692263790056636376230444390533461242950442808164646763924653161916339321128329289810736853086759324182806099541506226890859669251719635470625085929191314162180 27) (xo_ptr.stack 90))
      XO_BIT_MEANING_EMPTY 2 0 = true := by decide!
  have hp6 : xo_simulate_placement (xo_c3_mem 10757106017242527276020942147596503469585728217003647951434728404305359691830004297860811088877899142560140764428478527306825664926560950308672692263790056636376230444390533461242950442808164646763924653161916339321128329289810736853086759324182806099541506226890859669251719635470625085929191314162180 27) (xo_ptr.stack 90)
      XO_BIT_MEANING_SIDE_O 2 0
      = (xo_ptr.stack 27, (xo_c3_mem 10757106017242527276020942147596503469585728217003647951434728404305359691830004297860811088877899142560140764428478527306825664926560950308672692263790056636376230444390533461242950442808164646763924653161916339321122493783164645908819642379961735961799598699305010644999093922915276474926054487753220 36)) := by decide!
  have he6 : xo_game_cpu_minimax_eval 7 (xo_c3_mem 10757106017242527276020942147596503469585728217003647951434728404305359691830004297860811088877899142560140764428478527306825664926560950308672692263790056636376230444390533461242950442808164646763924653161916339321122493783164645908819642379961735961799598699305010644999093922915276474926054487753220 36)
      (xo_ptr.stack 27) XO_BIT_MEANING_SIDE_X
      = some (⟨-1, some (1, 0)⟩, (xo_c3_mem 10757106017242527276020942147596503469585728217003647951434728404305359691830004297860811088877899142560140764428478527306825664926560950308672692263790056636376230444390533461242950442808164646763924653161916339321124459217823746264318373319100792468494807812214224232434155363897601515685155652633604 36)) := by decide!
  have hc7 : xo_board_bit_check_at (xo_mem_board (xo_c3_mem 10757106017242527276020942147596503469585728217003647951434728404305359691830004297860811088877899142560140764428478527306825664926560950308672692263790056636376230444390533461242950442808164646763924653161916339321124459217823746264318373319100792468494807812214224232434155363897601515685155652633604 36) (xo_ptr.stack 90))
      XO_BIT_MEANING_EMPTY 2 1 = true := by decide!
  have hp7 : xo_simulate_placement (xo_c3_mem 10757106017242527276020942147596503469585728217003647951434728404305359691830004297860811088877899142560140764428478527306825664926560950308672692263790056636376230444390533461242950442808164646763924653161916339321124459217823746264318373319100792468494807812214224232434155363897601515685155652633604 36) (xo_ptr.stack 90)
      XO_BIT_MEANING_SIDE_O 2 1
      = (xo_ptr.stack 36, (xo_c3_mem 10757106017242527276020942147596503469585728217003647951434728404305359691830004297860811088877899142560140764428478527306825664926560950308672692263790056636376230444390533461242950442808164646754822328889242668195276154115054111400952805294592505559112414705408543549571395229597971357702735716811780 45)) := by decide!
  have he7 : xo_game_cpu_minimax_eval 7 (xo_c3_mem 10757106017242527276020942147596503469585728217003647951434728404305359691830004297860811088877899142560140764428478527306825664926560950308672692263790056636376230444390533461242950442808164646754822328889242668195276154115054111400952805294592505559112414705408543549571395229597971357702735716811780 45)
      (xo_ptr.stack 36) XO_BIT_MEANING_SIDE_X
      = some (⟨-1, some (0, 0)⟩, (xo_c3_mem 10757106017242527276020942147596503469585728217003647951434728404305359691830004297860811088877899142560140764428478527306825664929466871834115102560981318141968954858413900503526958122201072798757643062412000116924221153876421941331380851058958265677444813390958095636638565923378045104178184914600962 72)) := by decide!
  have hc8 : xo_board_bit_check_at (xo_mem_board (xo_c3_mem 10757106017242527276020942147596503469585728217003647951434728404305359691830004297860811088877899142560140764428478527306825664929466871834115102560981318141968954858413900503526958122201072798757643062412000116924221153876421941331380851058958265677444813390958095636638565923378045104178184914600962 72) (xo_ptr.stack 90))
      XO_BIT_MEANING_EMPTY 2 2 = true := by decide!
  have hp8 : xo_simulate_placement (xo_c3_mem 10757106017242527276020942147596503469585728217003647951434728404305359691830004297860811088877899142560140764428478527306825664929466871834115102560981318141968954858413900503526958122201072798757643062412000116924221153876421941331380851058958265677444813390958095636638565923378045104178184914600962 72) (xo_ptr.stack 90)
      XO_BIT_MEANING_SIDE_O 2 2
      = (xo_ptr.stack 72, (xo_c3_mem 10757106017242527276020942147596503469585728217003647951434728404305359691830004297860811088877899142560140773553150638639131731370360268639696716718510679058372829395994737646578414315335465684134033692510197219231813598332029734726218210093104591837030009980962655138925711393790431757225130071294978 81)) := by decide!
  have he8 : xo_game_cpu_minimax_eval 7 (xo_c3_mem 10757106017242527276020942147596503469585728217003647951434728404305359691830004297860811088877899142560140773553150638639131731370360268639696716718510679058372829395994737646578414315335465684134033692510197219231813598332029734726218210093104591837030009980962655138925711393790431757225130071294978 81)
      (xo_ptr.stack 72) XO_BIT_MEANING_SIDE_X
      = some (⟨-1, some (0, 1)⟩, (xo_c3_mem 10757106017242527276020942147596503469585728217003647951434728404305359691830004297860811088877899142560140773553150638639131731370360268639696716718510679058372829395994737646070723331265151549140115927629164007955388624942050756595537136212554223293995984905966457123395922017172976153130299771978244 36)) := by decide!
  rw [show (8 : Nat) = 7 + 1 from rfl,
    xo_minimax_eval_succ_live 7 (xo_c3_mem 10757106017242527276020942147596503469585728217003647951434728404305359691830004297860875978901940396488640303889021197758128047716311249445154692358463185746424308338534778182134305644402010702453923345455241521833904153088587843534646253869298221150775058835737548915940446586342457809738942000529924 99) (xo_ptr.stack 90) XO_BIT_MEANING_SIDE_O hterm]
  rw [show xo_stack_reset (xo_c3_mem 10757106017242527276020942147596503469585728217003647951434728404305359691830004297860875978901940396488640303889021197758128047716311249445154692358463185746424308338534778182134305644402010702453923345455241521833904153088587843534646253869298221150775058835737548915940446586342457809738942000529924 99) = xo_c3_mem 10757106017242527276020942147596503469585728217003647951434728404305359691830004297860875978901940396488640303889021197758128047716311249445154692358463185746424308338534778182134305644402010702453923345455241521833904153088587843534646253869298221150775058835737548915940446586342457809738942000529924 0 from rfl]
  rw [show (if XO_BIT_MEANING_SIDE_O == XO_BIT_MEANING_SIDE_O
      then INT32_MIN else INT32_MAX) = INT32_MIN from rfl]
  rw [show xo_scan_order = [((0 : Nat), (0 : Nat)), (0, 1), (0, 2), (1, 0),
    (1, 1), (1, 2), (2, 0), (2, 1), (2, 2)] from rfl]
  rw [xo_minimax_loop_cons_O_update hc0 hp0 he0 (by decide)]
  rw [xo_minimax_loop_cons_O_keep hc1 hp1 he1 (by decide)]
  rw [xo_minimax_loop_cons_skip hc2]
  rw [xo_minimax_loop_cons_O_keep hc3 hp3 he3 (by decide)]
  rw [xo_minimax_loop_cons_skip hc4]
  rw [xo_minimax_loop_cons_O_keep hc5 hp5 he5 (by decide)]
  rw [xo_minimax_loop_cons_O_keep hc6 hp6 he6 (by decide)]
  rw [xo_minimax_loop_cons_O_keep hc7 hp7 he7 (by decide)]
  rw [xo_minimax_loop_cons_O_keep hc8 hp8 he8 (by decide)]
  simp [xo_minimax_loop]

set_option maxRecDepth 8000 in
set_option maxHeartbeats 2000000 in
lemma xo_c3_call5 :
    xo_game_cpu_minimax_eval 9 (xo_c3_mem 10757106017242527276020942147596503469585728217003647951434728404408302515040988816570194428525359475793073940960274568872473261193657210047996118365859791730825799282150528228630325143872115111842400804718924529615724070462267964143435824674807713516279600993748312725864849918364143731536740835525124 108) (xo_ptr.stack 99) XO_BIT_MEANING_SIDE_X
      = some (⟨-1, some (0, 1)⟩, xo_c3_mem 10757106017242527276020942147596503469585728218880527158635903462103388163510133254846898752608684478645958568044830994998888706369197743327279055340959676924347925502280949454879001840815901231820124261850644031433308107204120460273667521407550437443561046423540626746740347207331563624898617743115266 36) := by
  have hterm : xo_board_test_if_final_state
      (xo_mem_board (xo_c3_mem 10757106017242527276020942147596503469585728217003647951434728404408302515040988816570194428525359475793073940960274568872473261193657210047996118365859791730825799282150528228630325143872115111842400804718924529615724070462267964143435824674807713516279600993748312725864849918364143731536740835525124 108) (xo_ptr.stack 99)) = xo_win_state_type.NONE := by
    decide!
  have hc0 : xo_board_bit_check_at (xo_mem_board (xo_c3_mem 10757106017242527276020942147596503469585728217003647951434728404408302515040988816570194428525359475793073940960274568872473261193657210047996118365859791730825799282150528228630325143872115111842400804718924529615724070462267964143435824674807713516279600993748312725864849918364143731536740835525124 0) (xo_ptr.stack 99))
      XO_BIT_MEANING_EMPTY 0 0 = true := by decide!
  have hp0 : xo_simulate_placement (xo_c3_mem 10757106017242527276020942147596503469585728217003647951434728404408302515040988816570194428525359475793073940960274568872473261193657210047996118365859791730825799282150528228630325143872115111842400804718924529615724070462267964143435824674807713516279600993748312725864849918364143731536740835525124 0) (xo_ptr.stack 99)
      XO_BIT_MEANING_SIDE_X 0 0
      = (xo_ptr.stack 0, (xo_c3_mem 10757106017242527276020942147596503469585728217003647951434728404408302515040988816570194428525359475793073940960274568872473261193657210047996118365859791730825799282150528228630325143872115111842400804718924529615724070462267964143435824674807713516279600993748312725864849918364143730691216343367938 9)) := by decide!
  have he0 : xo_game_cpu_minimax_eval 8 (xo_c3_mem 10757106017242527276020942147596503469585728217003647951434728404408302515040988816570194428525359475793073940960274568872473261193657210047996118365859791730825799282150528228630325143872115111842400804718924529615724070462267964143435824674807713516279600993748312725864849918364143730691216343367938 9)
      (xo_ptr.stack 0) XO_BIT_MEANING_SIDE_O
      = some (⟨0, some (0, 1)⟩, (xo_c3_mem 10757106017242527276020942147596503469585728217003647951434728404408302515040988816570194428525359475793073940960274568872473261193657210047996118365859791730825799282150528228630325143872115111842400804718924529615724070462267964143435824674807713516279600993748312725864849918364199143826556002108418 9)) := by decide!
  have hc1 : xo_board_bit_check_at (xo_mem_board (xo_c3_mem 10757106017242527276020942147596503469585728217003647951434728404408302515040988816570194428525359475793073940960274568872473261193657210047996118365859791730825799282150528228630325143872115111842400804718924529615724070462267964143435824674807713516279600993748312725864849918364199143826556002108418 9) (xo_ptr.stack 99))
      XO_BIT_MEANING_EMPTY 0 1 = true := by decide!
  have hp1 : xo_simulate_placement (xo_c3_mem 10757106017242527276020942147596503469585728217003647951434728404408302515040988816570194428525359475793073940960274568872473261193657210047996118365859791730825799282150528228630325143872115111842400804718924529615724070462267964143435824674807713516279600993748312725864849918364199143826556002108418 9) (xo_ptr.stack 99)
      XO_BIT_MEANING_SIDE_X 0 1
      = (xo_ptr.stack 9, (xo_c3_mem 10757106017242527276020942147596503469585728217003647951434728404408302515040988816570194428525359475793073940960274568872473261193657210047996118365859791730825799282150528228630325143872115111842400804718924529615724070462267964143435824674807713516279600993747287885887564895704642966246125234947074 18)) := by decide!
  have he1 : xo_game_cpu_minimax_eval 8 (xo_c3_mem 10757106017242527276020942147596503469585728217003647951434728404408302515040988816570194428525359475793073940960274568872473261193657210047996118365859791730825799282150528228630325143872115111842400804718924529615724070462267964143435824674807713516279600993747287885887564895704642966246125234947074 18)
      (xo_ptr.stack 9) XO_BIT_MEANING_SIDE_O
      = some (⟨-1, some (0, 0)⟩, (xo_c3_mem 10757106017242527276020942147596503469585728217003647951434728404408302515040988816570194428525359475793073940960274568872473261193657210047996118365859791730825799282150528228630325143872115111842400804718924529615724070462267964143435824674807713516279600993748312725864849918364143731536740835525124 90)) := by decide!
  have hc2 : xo_board_bit_check_at (xo_mem_board (xo_c3_mem 10757106017242527276020942147596503469585728217003647951434728404408302515040988816570194428525359475793073940960274568872473261193657210047996118365859791730825799282150528228630325143872115111842400804718924529615724070462267964143435824674807713516279600993748312725864849918364143731536740835525124 90) (xo_ptr.stack 99))
      XO_BIT_MEANING_EMPTY 0 2 = true := by decide!
  have hp2 : xo_simulate_placement (xo_c3_mem 10757106017242527276020942147596503469585728217003647951434728404408302515040988816570194428525359475793073940960274568872473261193657210047996118365859791730825799282150528228630325143872115111842400804718924529615724070462267964143435824674807713516279600993748312725864849918364143731536740835525124 90) (xo_ptr.stack 99)
      XO_BIT_MEANING_SIDE_X 0 2
      = (xo_ptr.stack 90, (xo_c3_mem 10757106017242527276020942147596503469585728217003647951434728404305359691830004297860875978901940396488640303889021197758128047716311249445154692358463185746424308338534778182134305644402010702453923345455241521833904153088587843534646253869298221150775058835737548915940446586342457809738942000529924 99)) := by decide!
  have hc3 : xo_board_bit_check_at (xo_mem_board (xo_c3_mem 10757106017242527276020942147596503469585728217003647951434728404305359691830004297860811088877899142560140773553150638639131731370360268639696716718510679058372829395994737646070723331265151549140115927629164007955388624942050756595537136212554223293995984905966457123395922017172976153130299771978244 36) (xo_ptr.stack 99))
      XO_BIT_MEANING_EMPTY 1 0 = true := by decide!
  have hp3 : xo_simulate_placement (xo_c3_mem 10757106017242527276020942147596503469585728217003647951434728404305359691830004297860811088877899142560140773553150638639131731370360268639696716718510679058372829395994737646070723331265151549140115927629164007955388624942050756595537136212554223293995984905966457123395922017172976153130299771978244 36) (xo_ptr.stack 99)
      XO_BIT_MEANING_SIDE_X 1 0
      = (xo_ptr.stack 36, (xo_c3_mem 10757106017242527276020942147596503469585728217003647951434728404305359691830004297860811088877899142560140773553150638639131731370360268639696716718510679058372829395994737646070723331265151549112593802612807031222820115782138482698403659987711289464685817284579213018910772036444759207091807551881732 45)) := by decide!
  have he3 : xo_game_cpu_minimax_eval 8 (xo_c3_mem 10757106017242527276020942147596503469585728217003647951434728404305359691830004297860811088877899142560140773553150638639131731370360268639696716718510679058372829395994737646070723331265151549112593802612807031222820115782138482698403659987711289464685817284579213018910772036444759207091807551881732 45)
      (xo_ptr.stack 36) XO_BIT_MEANING_SIDE_O
      = some (⟨-1, some (0, 0)⟩, (xo_c3_mem 10757106017242527276020942147596503469585728217003647951434728404305359691830004297860832887868634873174892603899203099307650360115950820308824976608960299702826209194950109033119333427237185664475204433091705671532306816160968777218474634985641505397169451750536533720848584794410258392140496316400132 90)) := by decide!
  have hc4 : xo_board_bit_check_at (xo_mem_board (xo_c3_mem 10757106017242527276020942147596503469585728217003647951434728404305359691830004297860832887868634873174892603899203099307650360115950820308824976608960299702826209194950109033119333427237185664475204433091705671532306816160968777218474634985641505397169451750536533720848584794410258392140496316400132 90) (xo_ptr.stack 99))
      XO_BIT_MEANING_EMPTY 1 1 = false := by decide!
  have hc5 : xo_board_bit_check_at (xo_mem_board (xo_c3_mem 10757106017242527276020942147596503469585728217003647951434728404305359691830004297860832887868634873174892603899203099307650360115950820308824976608960299702826209194950109033119333427237185664475204433091705671532306816160968777218474634985641505397169451750536533720848584794410258392140496316400132 90) (xo_ptr.stack 99))
      XO_BIT_MEANING_EMPTY 1 2 = true := by decide!
  have hp5 : xo_simulate_placement (xo_c3_mem 10757106017242527276020942147596503469585728217003647951434728404305359691830004297860832887868634873174892603899203099307650360115950820308824976608960299702826209194950109033119333427237185664475204433091705671532306816160968777218474634985641505397169451750536533720848584794410258392140496316400132 90) (xo_ptr.stack 99)
      XO_BIT_MEANING_SIDE_X 1 2
      = (xo_ptr.stack 90, (xo_c3_mem 10757106017242527276020942147596503469585728217003647951434728404305359697894527734436690451142496390495611408179047594696445780375949684372639360115309725699412005729988526137772419187978656595731376980633200555677512688091787275906775261925186739165229790452062679753480626753923201159495792525050372 99)) := by decide!
  have hc6 : xo_board_bit_check_at (xo_mem_board (xo_c3_mem 10757106017242527276020942147596503469585728217003647951434728404305359697894527734436668652153044872670903484479765687688878133660509977559278513960408754684887442103784858819087480595542709558696353583615754145560602998403531083991820813278627938824041490667385611386694485013378651663491205383127556 36) (xo_ptr.stack 99))
      XO_BIT_MEANING_EMPTY 2 0 = true := by decide!
  have hp6 : xo_simulate_placement (xo_c3_mem 10757106017242527276020942147596503469585728217003647951434728404305359697894527734436668652153044872670903484479765687688878133660509977559278513960408754684887442103784858819087480595542709558696353583615754145560602998403531083991820813278627938824041490667385611386694485013378651663491205383127556 36) (xo_ptr.stack 99)
      XO_BIT_MEANING_SIDE_X 2 0
      = (xo_ptr.stack 36, (xo_c3_mem 10757106017242527276020942147596503469585728217003647951434728404305359697894527734436668652153044872670903484479765687688878133660509977559278513960408754684887442103784858819087480595542709558668831739661098648638924260351913663897084349860212117966942791062736089876855810730949703897986205168501252 45)) := by decide!
  have he6 : xo_game_cpu_minimax_eval 8 (xo_c3_mem 10757106017242527276020942147596503469585728217003647951434728404305359697894527734436668652153044872670903484479765687688878133660509977559278513960408754684887442103784858819087480595542709558668831739661098648638924260351913663897084349860212117966942791062736089876855810730949703897986205168501252 45)
      (xo_ptr.stack 36) XO_BIT_MEANING_SIDE_O
      = some (⟨1, some (0, 1)⟩, (xo_c3_mem 10757106017242527276020942147596503469585728217003647951434728404610598739632819039518958854221308594476483724898860761741577465776984267934302938946365420797769349033563537359198762406899424483916621562436716837481573745589686278796702203233941333564581195102275964117037346203093212352167449888818178 99)) := by decide!
  have hc7 : xo_board_bit_check_at (xo_mem_board (xo_c3_mem 10757106017242527276020942147596503469585728217003647951434728404610598739632819039518958854221308594476483724898860761741577465776984267934302938946365420797769349033563537359198762406899424483916621562436716837481573745589686278796702203233941333564581195102275964117037346203093212352167449888818178 99) (xo_ptr.stack 99))
      XO_BIT_MEANING_EMPTY 2 1 = true := by decide!
  have hp7 : xo_simulate_placement (xo_c3_mem 10757106017242527276020942147596503469585728217003647951434728404610598739632819039518958854221308594476483724898860761741577465776984267934302938946365420797769349033563537359198762406899424483916621562436716837481573745589686278796702203233941333564581195102275964117037346203093212352167449888818178 99) (xo_ptr.stack 99)
      XO_BIT_MEANING_SIDE_X 2 1
      = (xo_ptr.stack 99, (xo_c3_mem 10757106017242527276020942147596503469585728218880527158635903462103388163510133254846898752608684478645958572589518652396385392763836817579385784158503925593945714688359210025774323222339789710576597852446648568129299389923843366268988556313936275544056851640858548878208500482909365823977349305336834 108)) := by decide!
  have hc8 : xo_board_bit_check_at (xo_mem_board (xo_c3_mem 10757106017242527276020942147596503469585728218880527158635903462103388163510133254846898752608684478645958568044830994998888706369197743327279055340959676924347925502280949454879001840815901231820124261850644031433311992452976583663775408359752067011393972799401661278564024165966181624501409241367554 27) (xo_ptr.stack 99))
      XO_BIT_MEANING_EMPTY 2 2 = true := by decide!
  have hp8 : xo_simulate_placement (xo_c3_mem 10757106017242527276020942147596503469585728218880527158635903462103388163510133254846898752608684478645958568044830994998888706369197743327279055340959676924347925502280949454879001840815901231820124261850644031433311992452976583663775408359752067011393972799401661278564024165966181624501409241367554 27) (xo_ptr.stack 99)
      XO_BIT_MEANING_SIDE_X 2 2
      = (xo_ptr.stack 27, (xo_c3_mem 10757106017242527276020942147596503469585728218880527158635903462103388163510133254846898752608684478645958568044830994998888706369197743327279055340959676924347925502280949454879001840815901231820124261850644031433308107114844754164172809724492813647822367656968205765589593001238986387138533919032322 36)) := by decide!
  have he8 : xo_game_cpu_minimax_eval 8 (xo_c3_mem 10757106017242527276020942147596503469585728218880527158635903462103388163510133254846898752608684478645958568044830994998888706369197743327279055340959676924347925502280949454879001840815901231820124261850644031433308107114844754164172809724492813647822367656968205765589593001238986387138533919032322 36)
      (xo_ptr.stack 27) XO_BIT_MEANING_SIDE_O
      = some (⟨1, some (0, 0)⟩, (xo_c3_mem 10757106017242527276020942147596503469585728218880527158635903462103388163510133254846898752608684478645958568044830994998888706369197743327279055340959676924347925502280949454879001840815901231820124261850644031433308107204120460273667521407550437443561046423540626746740347207331563624898617743115266 36)) := by decide!
  rw [show (9 : Nat) = 8 + 1 from rfl,
    xo_minimax_eval_succ_live 8 (xo_c3_mem 10757106017242527276020942147596503469585728217003647951434728404408302515040988816570194428525359475793073940960274568872473261193657210047996118365859791730825799282150528228630325143872115111842400804718924529615724070462267964143435824674807713516279600993748312725864849918364143731536740835525124 108) (xo_ptr.stack 99) XO_BIT_MEANING_SIDE_X hterm]
  rw [show xo_stack_reset (xo_c3_mem 10757106017242527276020942147596503469585728217003647951434728404408302515040988816570194428525359475793073940960274568872473261193657210047996118365859791730825799282150528228630325143872115111842400804718924529615724070462267964143435824674807713516279600993748312725864849918364143731536740835525124 108) = xo_c3_mem 10757106017242527276020942147596503469585728217003647951434728404408302515040988816570194428525359475793073940960274568872473261193657210047996118365859791730825799282150528228630325143872115111842400804718924529615724070462267964143435824674807713516279600993748312725864849918364143731536740835525124 0 from rfl]
  rw [show (if XO_BIT_MEANING_SIDE_X == XO_BIT_MEANING_SIDE_O
      then INT32_MIN else INT32_MAX) = INT32_MAX from rfl]
  rw [show xo_scan_order = [((0 : Nat), (0 : Nat)), (0, 1), (0, 2), (1, 0),
    (1, 1), (1, 2), (2, 0), (2, 1), (2, 2)] from rfl]
  rw [xo_minimax_loop_cons_X_update hc0 hp0 he0 (by decide)]
  rw [xo_minimax_loop_cons_X_update hc1 hp1 he1 (by decide)]
  rw [xo_minimax_loop_cons_X_keep hc2 hp2 xo_c3_call6 (by decide)]
  rw [xo_minimax_loop_cons_X_keep hc3 hp3 he3 (by decide)]
  rw [xo_minimax_loop_cons_skip hc4]
  rw [xo_minimax_loop_cons_X_keep hc5 hp5 xo_c3_call7 (by decide)]
  rw [xo_minimax_loop_cons_X_keep hc6 hp6 he6 (by decide)]
  rw [xo_minimax_loop_cons_X_keep hc7 hp7 xo_c3_call8 (by decide)]
  rw [xo_minimax_loop_cons_X_keep hc8 hp8 he8 (by decide)]
  simp [xo_minimax_loop]

set_option maxRecDepth 8000 in
set_option maxHeartbeats 2000000 in
lemma xo_c3_call4 :
    xo_game_cpu_minimax_eval 8 (xo_c3_mem 10757106017242527276020942147596503469585728217003647615827700813081034826194099228112591681084455223103688401363509465116827680226888051084084648898261579944418282166964502835604859997699157845617117213529286257851217226363743226283167862188973790966072999388207712598358870507606811832477567770952706 108) (xo_ptr.stack 99) XO_BIT_MEANING_SIDE_O
      = some (⟨1, some (2, 0)⟩, xo_c3_mem 10757106017242527276020942147596503469585728217003647615827700813081034826194099228112591427610357244195788027951211401782847363688797252416796968578947871174040966767536738355972530212552039910066500243614682636081784956513621581374419010093158395097547028353533623269951528400143204127538132398899714 72) := by
  have hterm : xo_board_test_if_final_state
      (xo_mem_board (xo_c3_mem 10757106017242527276020942147596503469585728217003647615827700813081034826194099228112591681084455223103688401363509465116827680226888051084084648898261579944418282166964502835604859997699157845617117213529286257851217226363743226283167862188973790966072999388207712598358870507606811832477567770952706 108) (xo_ptr.stack 99)) = xo_win_state_type.NONE := by
    decide!
  have hc0 : xo_board_bit_check_at (xo_mem_board (xo_c3_mem 10757106017242527276020942147596503469585728217003647615827700813081034826194099228112591681084455223103688401363509465116827680226888051084084648898261579944418282166964502835604859997699157845617117213529286257851217226363743226283167862188973790966072999388207712598358870507606811832477567770952706 0) (xo_ptr.stack 99))
      XO_BIT_MEANING_EMPTY 0 0 = true := by decide!
  have hp0 : xo_simulate_placement (xo_c3_mem 10757106017242527276020942147596503469585728217003647615827700813081034826194099228112591681084455223103688401363509465116827680226888051084084648898261579944418282166964502835604859997699157845617117213529286257851217226363743226283167862188973790966072999388207712598358870507606811832477567770952706 0) (xo_ptr.stack 99)
      XO_BIT_MEANING_SIDE_O 0 0
      = (xo_ptr.stack 0, (xo_c3_mem 10757106017242527276020942147596503469585728217003647615827700813081034826194099228112591681084455223103688401363509465116827680226888051084084648898261579944418282166964502835604859997699157845617117213529286257851217226363743226283167862188973790966072999388207712598358870507606811831632030427513348 9)) := by decide!
  have he0 : xo_game_cpu_minimax_eval 7 (xo_c3_mem 10757106017242527276020942147596503469585728217003647615827700813081034826194099228112591681084455223103688401363509465116827680226888051084084648898261579944418282166964502835604859997699157845617117213529286257851217226363743226283167862188973790966072999388207712598358870507606811831632030427513348 9)
      (xo_ptr.stack 0) XO_BIT_MEANING_SIDE_X
      = some (⟨-1, some (1, 0)⟩, (xo_c3_mem 10757106017242527276020942147596503469585728217003647615827700813081034826194099228112591681084455223103688401363509465116827554088383299800772278015264992563918846590663177045277288281139210209628535094683415277299718334804431236181404214043845669812824544774999137459245043671025578049233726006886916 81)) := by decide!
  have hc1 : xo_board_bit_check_at (xo_mem_board (xo_c3_mem 10757106017242527276020942147596503469585728217003647615827700813081034826194099228112591681084455223103688401363509465116827554088383299800772278015264992563918846590663177045277288281139210209628535094683415277299718334804431236181404214043845669812824544774999137459245043671025578049233726006886916 81) (xo_ptr.stack 99))
      XO_BIT_MEANING_EMPTY 0 1 = false := by decide!
  have hc2 : xo_board_bit_check_at (xo_mem_board (xo_c3_mem 10757106017242527276020942147596503469585728217003647615827700813081034826194099228112591681084455223103688401363509465116827554088383299800772278015264992563918846590663177045277288281139210209628535094683415277299718334804431236181404214043845669812824544774999137459245043671025578049233726006886916 81) (xo_ptr.stack 99))
      XO_BIT_MEANING_EMPTY 0 2 = false := by decide!
  have hc3 : xo_board_bit_check_at (xo_mem_board (xo_c3_mem 10757106017242527276020942147596503469585728217003647615827700813081034826194099228112591681084455223103688401363509465116827554088383299800772278015264992563918846590663177045277288281139210209628535094683415277299718334804431236181404214043845669812824544774999137459245043671025578049233726006886916 81) (xo_ptr.stack 99))
      XO_BIT_MEANING_EMPTY 1 0 = true := by decide!
  have hp3 : xo_simulate_placement (xo_c3_mem 10757106017242527276020942147596503469585728217003647615827700813081034826194099228112591681084455223103688401363509465116827554088383299800772278015264992563918846590663177045277288281139210209628535094683415277299718334804431236181404214043845669812824544774999137459245043671025578049233726006886916 81) (xo_ptr.stack 99)
      XO_BIT_MEANING_SIDE_O 1 0
      = (xo_ptr.stack 81, (xo_c3_mem 10757106017242527276020942147596503469585728217003647615827700813081034826194099228112591427610357244195788032513860330667698849060514511353360765700607245389477204113380305776272983294040082158636226929589599029065924117868100005499631149683608416171490484678603823295488143306087066320705981755163140 90)) := by decide!
  have he3 : xo_game_cpu_minimax_eval 7 (xo_c3_mem 10757106017242527276020942147596503469585728217003647615827700813081034826194099228112591427610357244195788032513860330667698849060514511353360765700607245389477204113380305776272983294040082158636226929589599029065924117868100005499631149683608416171490484678603823295488143306087066320705981755163140 90)
      (xo_ptr.stack 81) XO_BIT_MEANING_SIDE_X
      = some (⟨-1, some (0, 0)⟩, (xo_c3_mem 10757106017242527276020942147596503469585728217003647615827700813081034826194099228112591427610357244195788032513860330667698849060510693106779547720253510419626974166785176372933379048775512297666095572248049725888185015792009737240477401106194775906731975519816087932117082701803695227189355354522116 9)) := by decide!
  have hc4 : xo_board_bit_check_at (xo_mem_board (xo_c3_mem 10757106017242527276020942147596503469585728217003647615827700813081034826194099228112591427610357244195788032513860330667698849060510693106779547720253510419626974166785176372933379048775512297666095572248049725888185015792009737240477401106194775906731975519816087932117082701803695227189355354522116 9) (xo_ptr.stack 99))
      XO_BIT_MEANING_EMPTY 1 1 = true := by decide!
  have hp4 : xo_simulate_placement (xo_c3_mem 10757106017242527276020942147596503469585728217003647615827700813081034826194099228112591427610357244195788032513860330667698849060510693106779547720253510419626974166785176372933379048775512297666095572248049725888185015792009737240477401106194775906731975519816087932117082701803695227189355354522116 9) (xo_ptr.stack 99)
      XO_BIT_MEANING_SIDE_O 1 1
      = (xo_ptr.stack 9, (xo_c3_mem 10757106017242527276020942147596503469585728217003647615827700813081034826194099228112591427610357244195788032513860330667698849060510693106779547720253510419626974166785176372933379048775512297666095572248049725888185015792009737240477401106194775906731975519727953464664029311828437878514190146339332 18)) := by decide!
  have he4 : xo_game_cpu_minimax_eval 7 (xo_c3_mem 10757106017242527276020942147596503469585728217003647615827700813081034826194099228112591427610357244195788032513860330667698849060510693106779547720253510419626974166785176372933379048775512297666095572248049725888185015792009737240477401106194775906731975519727953464664029311828437878514190146339332 18)
      (xo_ptr.stack 9) XO_BIT_MEANING_SIDE_X
      = some (⟨-1, some (0, 0)⟩, (xo_c3_mem 10757106017242527276020942147596503469585728217003647615827700813081034826194099228112591427610357244195788032513860330667698849061488193658966480757581811408006536686142418875498737721940764543851577110140517100409311708687394938833773676523508900383112180342637217777562435361734975088459234180071938 72)) := by decide!
  have hc5 : xo_board_bit_check_at (xo_mem_board (xo_c3_mem 10757106017242527276020942147596503469585728217003647615827700813081034826194099228112591427610357244195788032513860330667698849061488193658966480757581811408006536686142418875498737721940764543851577110140517100409311708687394938833773676523508900383112180342637217777562435361734975088459234180071938 72) (xo_ptr.stack 99))
      XO_BIT_MEANING_EMPTY 1 2 = true := by decide!
  have hp5 : xo_simulate_placement (xo_c3_mem 10757106017242527276020942147596503469585728217003647615827700813081034826194099228112591427610357244195788032513860330667698849061488193658966480757581811408006536686142418875498737721940764543851577110140517100409311708687394938833773676523508900383112180342637217777562435361734975088459234180071938 72) (xo_ptr.stack 99)
      XO_BIT_MEANING_SIDE_O 1 2
      = (xo_ptr.stack 72, (xo_c3_mem 10757106017242527276020942147596503469585728217003647615827700813081034826194099228112591427610357244195788027951211401782847363686872531465415680728453168187906283303098441180478471566013250419936368271710390366489928099829807867535536990194189016527062047475650226762557665271970239902645410255340034 81)) := by decide!
  have he5 : xo_game_cpu_minimax_eval 7 (xo_c3_mem 10757106017242527276020942147596503469585728217003647615827700813081034826194099228112591427610357244195788027951211401782847363686872531465415680728453168187906283303098441180478471566013250419936368271710390366489928099829807867535536990194189016527062047475650226762557665271970239902645410255340034 81)
      (xo_ptr.stack 72) XO_BIT_MEANING_SIDE_X
      = some (⟨-1, some (2, 0)⟩, (xo_c3_mem 10757106017242527276020942147596503469585728217003647615827700813081034826194099228112591427610357244195788027951211401782847363686872531465415680728453168187906283303098441179968802548236180150389436393715859503362664175549622823628355832400978131606297238528321346586489968258363085752445873303060996 18)) := by decide!
  have hc6 : xo_board_bit_check_at (xo_mem_board (xo_c3_mem 10757106017242527276020942147596503469585728217003647615827700813081034826194099228112591427610357244195788027951211401782847363686872531465415680728453168187906283303098441179968802548236180150389436393715859503362664175549622823628355832400978131606297238528321346586489968258363085752445873303060996 18) (xo_ptr.stack 99))
      XO_BIT_MEANING_EMPTY 2 0 = true := by decide!
  have hp6 : xo_simulate_placement (xo_c3_mem 10757106017242527276020942147596503469585728217003647615827700813081034826194099228112591427610357244195788027951211401782847363686872531465415680728453168187906283303098441179968802548236180150389436393715859503362664175549622823628355832400978131606297238528321346586489968258363085752445873303060996 18) (xo_ptr.stack 99)
      XO_BIT_MEANING_SIDE_O 2 0
      = (xo_ptr.stack 18, (xo_c3_mem 10757106017242527276020942147596503469585728217003647615827700813081034826194099228112591427610357244195788027951211401782847363686872531465415680728453168187906283303098441179968802548236180150389436393715859503362664175549622823628355831984793658499560655049461474106127898732420929445600006806700548 27)) := by decide!
  have he6 : xo_game_cpu_minimax_eval 7 (xo_c3_mem 10757106017242527276020942147596503469585728217003647615827700813081034826194099228112591427610357244195788027951211401782847363686872531465415680728453168187906283303098441179968802548236180150389436393715859503362664175549622823628355831984793658499560655049461474106127898732420929445600006806700548 27)
      (xo_ptr.stack 18) XO_BIT_MEANING_SIDE_X
      = some (⟨1, some (0, 0)⟩, (xo_c3_mem 10757106017242527276020942147596503469585728217003647615827700813081034826194099228112591427610357244195788027951211401782847363686872531465415680728453168187906283303098441179968802548236180150407713130759922601085835092904686206343164377138094956320123314379560675001921035302660744197886940310405634 45)) := by decide!
  have hc7 : xo_board_bit_check_at (xo_mem_board (xo_c3_mem 10757106017242527276020942147596503469585728217003647615827700813081034826194099228112591427610357244195788027951211401782847363686872531465415680728453168187906283303098441179968802548236180150407713130759922601085835092904686206343164377138094956320123314379560675001921035302660744197886940310405634 45) (xo_ptr.stack 99))
      XO_BIT_MEANING_EMPTY 2 1 = true := by decide!
  have hp7 : xo_simulate_placement (xo_c3_mem 10757106017242527276020942147596503469585728217003647615827700813081034826194099228112591427610357244195788027951211401782847363686872531465415680728453168187906283303098441179968802548236180150407713130759922601085835092904686206343164377138094956320123314379560675001921035302660744197886940310405634 45) (xo_ptr.stack 99)
      XO_BIT_MEANING_SIDE_O 2 1
      = (xo_ptr.stack 45, (xo_c3_mem 10757106017242527276020942147596503469585728217003647615827700813081034826194099228112591427610357244195788027951211401782847363686872531465415680728453168187906283303098441180476485785478054807480620640359295710538283286498795955812770713262820688642498655678224889072148267397231571682782333255287298 54)) := by decide!
  have he7 : xo_game_cpu_minimax_eval 7 (xo_c3_mem 10757106017242527276020942147596503469585728217003647615827700813081034826194099228112591427610357244195788027951211401782847363686872531465415680728453168187906283303098441180476485785478054807480620640359295710538283286498795955812770713262820688642498655678224889072148267397231571682782333255287298 54)
      (xo_ptr.stack 45) XO_BIT_MEANING_SIDE_X
      = some (⟨-1, some (0, 0)⟩, (xo_c3_mem 10757106017242527276020942147596503469585728217003647615827700813081034826194099228112591427610357244195788027951211401782847363686872531465415680728453168187906283303098441180476485785478054807480620640359295710538281358917728744494696074043393398278745793772347595543852409196105296049446546454086148 9)) := by decide!
  have hc8 : xo_board_bit_check_at (xo_mem_board (xo_c3_mem 10757106017242527276020942147596503469585728217003647615827700813081034826194099228112591427610357244195788027951211401782847363686872531465415680728453168187906283303098441180476485785478054807480620640359295710538281358917728744494696074043393398278745793772347595543852409196105296049446546454086148 9) (xo_ptr.stack 99))
      XO_BIT_MEANING_EMPTY 2 2 = true := by decide!
  have hp8 : xo_simulate_placement (xo_c3_mem 10757106017242527276020942147596503469585728217003647615827700813081034826194099228112591427610357244195788027951211401782847363686872531465415680728453168187906283303098441180476485785478054807480620640359295710538281358917728744494696074043393398278745793772347595543852409196105296049446546454086148 9) (xo_ptr.stack 99)
      XO_BIT_MEANING_SIDE_O 2 2
      = (xo_ptr.stack 9, (xo_c3_mem 10757106017242527276020942147596503469585728217003647615827700813081034826194099228112591427610357244195788027951211401782847363686872531465415680728453168187906283303098441180476485785478054807480620640359295710538281358917728744494696074043393398278745793772520797923789760419396603471794039322575364 18)) := by decide!
  have he8 : xo_game_cpu_minimax_eval 7 (xo_c3_mem 10757106017242527276020942147596503469585728217003647615827700813081034826194099228112591427610357244195788027951211401782847363686872531465415680728453168187906283303098441180476485785478054807480620640359295710538281358917728744494696074043393398278745793772520797923789760419396603471794039322575364 18)
      (xo_ptr.stack 9) XO_BIT_MEANING_SIDE_X
      = some (⟨-1, some (0, 0)⟩, (xo_c3_mem 10757106017242527276020942147596503469585728217003647615827700813081034826194099228112591427610357244195788027951211401782847363688797252416796968578947871174040966767536738355972530212552039910066500243614682636081784956513621581374419010093158395097547028353533623269951528400143204127538132398899714 72)) := by decide!
  rw [show (8 : Nat) = 7 + 1 from rfl,
    xo_minimax_eval_succ_live 7 (xo_c3_mem 10757106017242527276020942147596503469585728217003647615827700813081034826194099228112591681084455223103688401363509465116827680226888051084084648898261579944418282166964502835604859997699157845617117213529286257851217226363743226283167862188973790966072999388207712598358870507606811832477567770952706 108) (xo_ptr.stack 99) XO_BIT_MEANING_SIDE_O hterm]
  rw [show xo_stack_reset (xo_c3_mem 10757106017242527276020942147596503469585728217003647615827700813081034826194099228112591681084455223103688401363509465116827680226888051084084648898261579944418282166964502835604859997699157845617117213529286257851217226363743226283167862188973790966072999388207712598358870507606811832477567770952706 108) = xo_c3_mem 10757106017242527276020942147596503469585728217003647615827700813081034826194099228112591681084455223103688401363509465116827680226888051084084648898261579944418282166964502835604859997699157845617117213529286257851217226363743226283167862188973790966072999388207712598358870507606811832477567770952706 0 from rfl]
  rw [show (if XO_BIT_MEANING_SIDE_O == XO_BIT_MEANING_SIDE_O
      then INT32_MIN else INT32_MAX) = INT32_MIN from rfl]
  rw [show xo_scan_order = [((0 : Nat), (0 : Nat)), (0, 1), (0, 2), (1, 0),
    (1, 1), (1, 2), (2, 0), (2, 1), (2, 2)] from rfl]
  rw [xo_minimax_loop_cons_O_update hc0 hp0 he0 (by decide)]
  rw [xo_minimax_loop_cons_skip hc1]
  rw [xo_minimax_loop_cons_skip hc2]
  rw [xo_minimax_loop_cons_O_keep hc3 hp3 he3 (by decide)]
  rw [xo_minimax_loop_cons_O_keep hc4 hp4 he4 (by decide)]
  rw [xo_minimax_loop_cons_O_keep hc5 hp5 he5 (by decide)]
  rw [xo_minimax_loop_cons_O_update hc6 hp6 he6 (by decide)]
  rw [xo_minimax_loop_cons_O_keep hc7 hp7 he7 (by decide)]
  rw [xo_minimax_loop_cons_O_keep hc8 hp8 he8 (by decide)]
  simp [xo_minimax_loop]

set_option maxRecDepth 8000 in
set_option maxHeartbeats 2000000 in
lemma xo_c3_call3 :
    xo_game_cpu_minimax_eval 9 (xo_c3_mem 10757106017242527276020942147596503469585728217003647615827694144864302622728955755532060658989860227931217770350564882371732023269451775900766278146152430691538148617378972112918738965143374906115820022313460400534438064939135500253455830640539329099809677114992772534822790600670924684655489955660802 108) (xo_ptr.stack 99) XO_BIT_MEANING_SIDE_X
      = some (⟨-1, some (0, 0)⟩, xo_c3_mem 10757106017242527276020942147596503469585728217003647615827700813081034826194099228112591427610357244195788027951210585959039912703414658167824111850826838720278960458165665256263297158631838061467726056627626038992747401906622606962562637150391038504273416111434652855641782665038916695534347728716292 9) := by
  have hterm : xo_board_test_if_final_state
      (xo_mem_board (xo_c3_mem 10757106017242527276020942147596503469585728217003647615827694144864302622728955755532060658989860227931217770350564882371732023269451775900766278146152430691538148617378972112918738965143374906115820022313460400534438064939135500253455830640539329099809677114992772534822790600670924684655489955660802 108) (xo_ptr.stack 99)) = xo_win_state_type.NONE := by
    decide!
  have hc0 : xo_board_bit_check_at (xo_mem_board (xo_c3_mem 10757106017242527276020942147596503469585728217003647615827694144864302622728955755532060658989860227931217770350564882371732023269451775900766278146152430691538148617378972112918738965143374906115820022313460400534438064939135500253455830640539329099809677114992772534822790600670924684655489955660802 0) (xo_ptr.stack 99))
      XO_BIT_MEANING_EMPTY 0 0 = true := by decide!
  have hp0 : xo_simulate_placement (xo_c3_mem 10757106017242527276020942147596503469585728217003647615827694144864302622728955755532060658989860227931217770350564882371732023269451775900766278146152430691538148617378972112918738965143374906115820022313460400534438064939135500253455830640539329099809677114992772534822790600670924684655489955660802 0) (xo_ptr.stack 99)
      XO_BIT_MEANING_SIDE_X 0 0
      = (xo_ptr.stack 0, (xo_c3_mem 10757106017242527276020942147596503469585728217003647615827694144864302622728955755532060658989860227931217770350564882371732023269451775900766278146152430691538148617378972112918738965143374906115820022313460400534438064939135500253455830640539329099809677114992772534822790600670906237911411900809474 9)) := by decide!
  have he0 : xo_game_cpu_minimax_eval 8 (xo_c3_mem 10757106017242527276020942147596503469585728217003647615827694144864302622728955755532060658989860227931217770350564882371732023269451775900766278146152430691538148617378972112918738965143374906115820022313460400534438064939135500253455830640539329099809677114992772534822790600670906237911411900809474 9)
      (xo_ptr.stack 0) XO_BIT_MEANING_SIDE_O
      = some (⟨-1, some (0, 1)⟩, (xo_c3_mem 10757106017242527276020942147596503469585728217003647615827694145066601946339825148260800959826658078345366085455349068859015916189650233452013127466060708390127539237053909402364414108897503726252036850173233927021171131206163712268609399110687879152048270423191576711756888816858774356016276607075330 99)) := by decide!
  have hc1 : xo_board_bit_check_at (xo_mem_board (xo_c3_mem 10757106017242527276020942147596503469585728217003647615827694145066601946339825148260800959826658078345366085455349068859015916189650233452013127466060708390127539237053909402364414108897503726252036850173233927021171131206163712268609399110687879152048270423191576711756888816858774356016276607075330 99) (xo_ptr.stack 99))
      XO_BIT_MEANING_EMPTY 0 1 = true := by decide!
  have hp1 : xo_simulate_placement (xo_c3_mem 10757106017242527276020942147596503469585728217003647615827694145066601946339825148260800959826658078345366085455349068859015916189650233452013127466060708390127539237053909402364414108897503726252036850173233927021171131206163712268609399110687879152048270423191576711756888816858774356016276607075330 99) (xo_ptr.stack 99)
      XO_BIT_MEANING_SIDE_X 0 1
      = (xo_ptr.stack 99, (xo_c3_mem 10757106017242527276020942147596503469585728217003647615827700813081034826194099228112591681084455223103688401363509465116827680226888051084084648898261579944418282166964502835604859997699157845617117213529286257851217226363743226283167862188973790966072999388207712598358870507606811832477567770952706 108)) := by decide!
  have hc2 : xo_board_bit_check_at (xo_mem_board (xo_c3_mem 10757106017242527276020942147596503469585728217003647615827700813081034826194099228112591427610357244195788027951211401782847363688797252416796968578947871174040966767536738355972530212552039910066500243614682636081784956513621581374419010093158395097547028353533623269951528400143204127538132398899714 72) (xo_ptr.stack 99))
      XO_BIT_MEANING_EMPTY 0 2 = false := by decide!
  have hc3 : xo_board_bit_check_at (xo_mem_board (xo_c3_mem 10757106017242527276020942147596503469585728217003647615827700813081034826194099228112591427610357244195788027951211401782847363688797252416796968578947871174040966767536738355972530212552039910066500243614682636081784956513621581374419010093158395097547028353533623269951528400143204127538132398899714 72) (xo_ptr.stack 99))
      XO_BIT_MEANING_EMPTY 1 0 = true := by decide!
  have hp3 : xo_simulate_placement (xo_c3_mem 10757106017242527276020942147596503469585728217003647615827700813081034826194099228112591427610357244195788027951211401782847363688797252416796968578947871174040966767536738355972530212552039910066500243614682636081784956513621581374419010093158395097547028353533623269951528400143204127538132398899714 72) (xo_ptr.stack 99)
      XO_BIT_MEANING_SIDE_X 1 0
      = (xo_ptr.stack 72, (xo_c3_mem 10757106017242527276020942147596503469585728217003647615827700813081034826194099228112591427610357244195788027951210585959039912703414658167824111850827454070024584278745140909771911722374746452434561036410910292846101336791728593360160226929690911614639070638733112625892906362372382766955209188180482 81)) := by decide!
  have he3 : xo_game_cpu_minimax_eval 8 (xo_c3_mem 10757106017242527276020942147596503469585728217003647615827700813081034826194099228112591427610357244195788027951210585959039912703414658167824111850827454070024584278745140909771911722374746452434561036410910292846101336791728593360160226929690911614639070638733112625892906362372382766955209188180482 81)
      (xo_ptr.stack 72) XO_BIT_MEANING_SIDE_O
      = some (⟨1, some (1, 1)⟩, (xo_c3_mem 10757106017242527276020942147596503469585728217003647615827700813081034826194099228112591427610357244195788027951210585959039912703414658167824111850826840309248972755076424449173642048818324262133505986211391841679265887415717220929477553543529861006732905659277373090029785599258913375121744796582402 36)) := by decide!
  have hc4 : xo_board_bit_check_at (xo_mem_board (xo_c3_mem 10757106017242527276020942147596503469585728217003647615827700813081034826194099228112591427610357244195788027951210585959039912703414658167824111850826840309248972755076424449173642048818324262133505986211391841679265887415717220929477553543529861006732905659277373090029785599258913375121744796582402 36) (xo_ptr.stack 99))
      XO_BIT_MEANING_EMPTY 1 1 = true := by decide!
  have hp4 : xo_simulate_placement (xo_c3_mem 10757106017242527276020942147596503469585728217003647615827700813081034826194099228112591427610357244195788027951210585959039912703414658167824111850826840309248972755076424449173642048818324262133505986211391841679265887415717220929477553543529861006732905659277373090029785599258913375121744796582402 36) (xo_ptr.stack 99)
      XO_BIT_MEANING_SIDE_X 1 1
      = (xo_ptr.stack 36, (xo_c3_mem 10757106017242527276020942147596503469585728217003647615827700813081034826194099228112591427610357244195788027951210585959039912703414658167824111850826840309248972755076424449173642048818324262133398338481848564300957814373493066228990159258474058371277972028176736819762853293798354873475813070864898 45)) := by decide!
  have he4 : xo_game_cpu_minimax_eval 8 (xo_c3_mem 10757106017242527276020942147596503469585728217003647615827700813081034826194099228112591427610357244195788027951210585959039912703414658167824111850826840309248972755076424449173642048818324262133398338481848564300957814373493066228990159258474058371277972028176736819762853293798354873475813070864898 45)
      (xo_ptr.stack 36) XO_BIT_MEANING_SIDE_O
      = some (⟨1, some (1, 0)⟩, (xo_c3_mem 10757106017242527276020942147596503469585728217003647615827700813081034826194099228112591427610357244195788027951210585959039912703414658167824111850826840309248972755076424449173642048818324262142608589360660565846889660632670117518441519459420844973428787270142523518853206205993366634788625651597826 45)) := by decide!
  have hc5 : xo_board_bit_check_at (xo_mem_board (xo_c3_mem 10757106017242527276020942147596503469585728217003647615827700813081034826194099228112591427610357244195788027951210585959039912703414658167824111850826840309248972755076424449173642048818324262142608589360660565846889660632670117518441519459420844973428787270142523518853206205993366634788625651597826 45) (xo_ptr.stack 99))
      XO_BIT_MEANING_EMPTY 1 2 = true := by decide!
  have hp5 : xo_simulate_placement (xo_c3_mem 10757106017242527276020942147596503469585728217003647615827700813081034826194099228112591427610357244195788027951210585959039912703414658167824111850826840309248972755076424449173642048818324262142608589360660565846889660632670117518441519459420844973428787270142523518853206205993366634788625651597826 45) (xo_ptr.stack 99)
      XO_BIT_MEANING_SIDE_X 1 2
      = (xo_ptr.stack 45, (xo_c3_mem 10757106017242527276020942147596503469585728217003647615827700813081034826194099228112591427610357244195788027951210585959039912703414658167824111850826840309248972755076424405848689715474322394239954807346120315609406871529401102011207428090869113269324445737113615927467398833850923755373172676100610 54)) := by decide!
  have he5 : xo_game_cpu_minimax_eval 8 (xo_c3_mem 10757106017242527276020942147596503469585728217003647615827700813081034826194099228112591427610357244195788027951210585959039912703414658167824111850826840309248972755076424405848689715474322394239954807346120315609406871529401102011207428090869113269324445737113615927467398833850923755373172676100610 54)
      (xo_ptr.stack 45) XO_BIT_MEANING_SIDE_O
      = some (⟨0, some (0, 0)⟩, (xo_c3_mem 10757106017242527276020942147596503469585728217003647615827700813081034826194099228112591427610357244195788027951210585959039912703414658167824111850826840309248972755076424405848689745735063153061704732032742152354128365844585313932115325062778318096973682731918042823635995529212475425539835956560386 9)) := by decide!
  have hc6 : xo_board_bit_check_at (xo_mem_board (xo_c3_mem 10757106017242527276020942147596503469585728217003647615827700813081034826194099228112591427610357244195788027951210585959039912703414658167824111850826840309248972755076424405848689745735063153061704732032742152354128365844585313932115325062778318096973682731918042823635995529212475425539835956560386 9) (xo_ptr.stack 99))
      XO_BIT_MEANING_EMPTY 2 0 = true := by decide!
  have hp6 : xo_simulate_placement (xo_c3_mem 10757106017242527276020942147596503469585728217003647615827700813081034826194099228112591427610357244195788027951210585959039912703414658167824111850826840309248972755076424405848689745735063153061704732032742152354128365844585313932115325062778318096973682731918042823635995529212475425539835956560386 9) (xo_ptr.stack 99)
      XO_BIT_MEANING_SIDE_X 2 0
      = (xo_ptr.stack 9, (xo_c3_mem 10757106017242527276020942147596503469585728217003647615827700813081034826194099228112591427610357244195788027951210585959039912703414658167824111850826840309248972755076424405848689745735063153061704732032742152354128365844585313932115325062778318096973682731656365678220412078975814919609687487021570 18)) := by decide!
  have he6 : xo_game_cpu_minimax_eval 8 (xo_c3_mem 10757106017242527276020942147596503469585728217003647615827700813081034826194099228112591427610357244195788027951210585959039912703414658167824111850826840309248972755076424405848689745735063153061704732032742152354128365844585313932115325062778318096973682731656365678220412078975814919609687487021570 18)
      (xo_ptr.stack 9) XO_BIT_MEANING_SIDE_O
      = some (⟨1, some (2, 2)⟩, (xo_c3_mem 10757106017242527276020942147596503469585728217003647615827700813081034826194099228112591427610357244195788027951210585959039912703414658167824111850826840309248972755076424535987478186071488605592111072161739053555219060666773542973413515908950131598013571169150120580721440689496903532540536646009346 54)) := by decide!
  have hc7 : xo_board_bit_check_at (xo_mem_board (xo_c3_mem 10757106017242527276020942147596503469585728217003647615827700813081034826194099228112591427610357244195788027951210585959039912703414658167824111850826840309248972755076424535987478186071488605592111072161739053555219060666773542973413515908950131598013571169150120580721440689496903532540536646009346 54) (xo_ptr.stack 99))
      XO_BIT_MEANING_EMPTY 2 1 = true := by decide!
  have hp7 : xo_simulate_placement (xo_c3_mem 10757106017242527276020942147596503469585728217003647615827700813081034826194099228112591427610357244195788027951210585959039912703414658167824111850826840309248972755076424535987478186071488605592111072161739053555219060666773542973413515908950131598013571169150120580721440689496903532540536646009346 54) (xo_ptr.stack 99)
      XO_BIT_MEANING_SIDE_X 2 1
      = (xo_ptr.stack 54, (xo_c3_mem 10757106017242527276020942147596503469585728217003647615827700813081034826194099228112591427610357244195788027951210585959039912703414658167824111850826838710913714807217688648934332551343445242980701233164321477713432300414952277009758257282356991585215354614288602865324987015991804752080442900087298 63)) := by decide!
  have he7 : xo_game_cpu_minimax_eval 8 (xo_c3_mem 10757106017242527276020942147596503469585728217003647615827700813081034826194099228112591427610357244195788027951210585959039912703414658167824111850826838710913714807217688648934332551343445242980701233164321477713432300414952277009758257282356991585215354614288602865324987015991804752080442900087298 63)
      (xo_ptr.stack 54) XO_BIT_MEANING_SIDE_O
      = some (⟨1, some (1, 2)⟩, (xo_c3_mem 10757106017242527276020942147596503469585728217003647615827700813081034826194099228112591427610357244195788027951210585959039912703414658167824111850826838720278960458165665213111549266042452336021233451145633138746322200280324114611608741155743376995383003944848707913377258942731997485110826205708804 45)) := by decide!
  have hc8 : xo_board_bit_check_at (xo_mem_board (xo_c3_mem 10757106017242527276020942147596503469585728217003647615827700813081034826194099228112591427610357244195788027951210585959039912703414658167824111850826838720278960458165665213111549266042452336021233451145633138746322200280324114611608741155743376995383003944848707913377258942731997485110826205708804 45) (xo_ptr.stack 99))
      XO_BIT_MEANING_EMPTY 2 2 = true := by decide!
  have hp8 : xo_simulate_placement (xo_c3_mem 10757106017242527276020942147596503469585728217003647615827700813081034826194099228112591427610357244195788027951210585959039912703414658167824111850826838720278960458165665213111549266042452336021233451145633138746322200280324114611608741155743376995383003944848707913377258942731997485110826205708804 45) (xo_ptr.stack 99)
      XO_BIT_MEANING_SIDE_X 2 2
      = (xo_ptr.stack 45, (xo_c3_mem 10757106017242527276020942147596503469585728217003647615827700813081034826194099228112591427610357244195788027951210585959039912703414658167824111850826838720278960458165665256263297158513632042896819357681656302613220360433916436632115319623773670880456708534530168141318627801112108939388613485134340 54)) := by decide!
  have he8 : xo_game_cpu_minimax_eval 8 (xo_c3_mem 10757106017242527276020942147596503469585728217003647615827700813081034826194099228112591427610357244195788027951210585959039912703414658167824111850826838720278960458165665256263297158513632042896819357681656302613220360433916436632115319623773670880456708534530168141318627801112108939388613485134340 54)
      (xo_ptr.stack 45) XO_BIT_MEANING_SIDE_O
      = some (⟨-1, some (0, 0)⟩, (xo_c3_mem 10757106017242527276020942147596503469585728217003647615827700813081034826194099228112591427610357244195788027951210585959039912703414658167824111850826838720278960458165665256263297158631838061467726056627626038992747401906622606962562637150391038504273416111434652855641782665038916695534347728716292 9)) := by decide!
  rw [show (9 : Nat) = 8 + 1 from rfl,
    xo_minimax_eval_succ_live 8 (xo_c3_mem 10757106017242527276020942147596503469585728217003647615827694144864302622728955755532060658989860227931217770350564882371732023269451775900766278146152430691538148617378972112918738965143374906115820022313460400534438064939135500253455830640539329099809677114992772534822790600670924684655489955660802 108) (xo_ptr.stack 99) XO_BIT_MEANING_SIDE_X hterm]
  rw [show xo_stack_reset (xo_c3_mem 10757106017242527276020942147596503469585728217003647615827694144864302622728955755532060658989860227931217770350564882371732023269451775900766278146152430691538148617378972112918738965143374906115820022313460400534438064939135500253455830640539329099809677114992772534822790600670924684655489955660802 108) = xo_c3_mem 10757106017242527276020942147596503469585728217003647615827694144864302622728955755532060658989860227931217770350564882371732023269451775900766278146152430691538148617378972112918738965143374906115820022313460400534438064939135500253455830640539329099809677114992772534822790600670924684655489955660802 0 from rfl]
  rw [show (if XO_BIT_MEANING_SIDE_X == XO_BIT_MEANING_SIDE_O
      then INT32_MIN else INT32_MAX) = INT32_MAX from rfl]
  rw [show xo_scan_order = [((0 : Nat), (0 : Nat)), (0, 1), (0, 2), (1, 0),
    (1, 1), (1, 2), (2, 0), (2, 1), (2, 2)] from rfl]
  rw [xo_minimax_loop_cons_X_update hc0 hp0 he0 (by decide)]
  rw [xo_minimax_loop_cons_X_keep hc1 hp1 xo_c3_call4 (by decide)]
  rw [xo_minimax_loop_cons_skip hc2]
  rw [xo_minimax_loop_cons_X_keep hc3 hp3 he3 (by decide)]
  rw [xo_minimax_loop_cons_X_keep hc4 hp4 he4 (by decide)]
  rw [xo_minimax_loop_cons_X_keep hc5 hp5 he5 (by decide)]
  rw [xo_minimax_loop_cons_X_keep hc6 hp6 he6 (by decide)]
  rw [xo_minimax_loop_cons_X_keep hc7 hp7 he7 (by decide)]
  rw [xo_minimax_loop_cons_X_keep hc8 hp8 he8 (by decide)]
  simp [xo_minimax_loop]

set_option maxRecDepth 8000 in
set_option maxHeartbeats 2000000 in
lemma xo_c3_call2 :
    xo_game_cpu_minimax_eval 8 (xo_c3_mem 10757106017242527276020942147596503469585728217003647615824300125720266100514318503699323839607911396359307288201707373632828021235601058727608718475817087256139387912561851882977456708855556969426131901942597534527708695998191078858351692263158765813461227229978410431348208226107698837219074193490946 108) (xo_ptr.stack 99) XO_BIT_MEANING_SIDE_O
      = some (⟨1, some (2, 1)⟩, xo_c3_mem 10757106017242527276020942147596503469585728217003647615824300125720266100514318503699323839607911396359307288201707373632828021235597240481474748927923067952994261449233450981095908318982449296940570109412789025440796347759614393880718123371267816636146813035512462675557542373083342799235823366702082 9) := by
  have hterm : xo_board_test_if_final_state
      (xo_mem_board (xo_c3_mem 10757106017242527276020942147596503469585728217003647615824300125720266100514318503699323839607911396359307288201707373632828021235601058727608718475817087256139387912561851882977456708855556969426131901942597534527708695998191078858351692263158765813461227229978410431348208226107698837219074193490946 108) (xo_ptr.stack 99)) = xo_win_state_type.NONE := by
    decide!
  have hc0 : xo_board_bit_check_at (xo_mem_board (xo_c3_mem 10757106017242527276020942147596503469585728217003647615824300125720266100514318503699323839607911396359307288201707373632828021235601058727608718475817087256139387912561851882977456708855556969426131901942597534527708695998191078858351692263158765813461227229978410431348208226107698837219074193490946 0) (xo_ptr.stack 99))
      XO_BIT_MEANING_EMPTY 0 0 = true := by decide!
  have hp0 : xo_simulate_placement (xo_c3_mem 10757106017242527276020942147596503469585728217003647615824300125720266100514318503699323839607911396359307288201707373632828021235601058727608718475817087256139387912561851882977456708855556969426131901942597534527708695998191078858351692263158765813461227229978410431348208226107698837219074193490946 0) (xo_ptr.stack 99)
      XO_BIT_MEANING_SIDE_O 0 0
      = (xo_ptr.stack 0, (xo_c3_mem 10757106017242527276020942147596503469585728217003647615824300125720266100514318503699323839607911396359307288201707373632828021235601058727608718475817087256139387912561851882977456708855556969426131901942597534527708695998191078858351692263158765813461227229978410431348208226107698836373536849921028 9)) := by decide!
  have he0 : xo_game_cpu_minimax_eval 7 (xo_c3_mem 10757106017242527276020942147596503469585728217003647615824300125720266100514318503699323839607911396359307288201707373632828021235601058727608718475817087256139387912561851882977456708855556969426131901942597534527708695998191078858351692263158765813461227229978410431348208226107698836373536849921028 9)
      (xo_ptr.stack 0) XO_BIT_MEANING_SIDE_X
      = some (⟨-1, some (1, 0)⟩, (xo_c3_mem 10757106017242527276020942147596503469585728217003647615824300125720266100514318503699323839607911396359307288201707373632828021235601058727608718475817087256139387912561851882977456708855556969426131901942597534527708695998191078858351692263158765813461227229978410431348208226107754249508889359942660 9)) := by decide!
  have hc1 : xo_board_bit_check_at (xo_mem_board (xo_c3_mem 10757106017242527276020942147596503469585728217003647615824300125720266100514318503699323839607911396359307288201707373632828021235601058727608718475817087256139387912561851882977456708855556969426131901942597534527708695998191078858351692263158765813461227229978410431348208226107754249508889359942660 9) (xo_ptr.stack 99))
      XO_BIT_MEANING_EMPTY 0 1 = false := by decide!
  have hc2 : xo_board_bit_check_at (xo_mem_board (xo_c3_mem 10757106017242527276020942147596503469585728217003647615824300125720266100514318503699323839607911396359307288201707373632828021235601058727608718475817087256139387912561851882977456708855556969426131901942597534527708695998191078858351692263158765813461227229978410431348208226107754249508889359942660 9) (xo_ptr.stack 99))
      XO_BIT_MEANING_EMPTY 0 2 = false := by decide!
  have hc3 : xo_board_bit_check_at (xo_mem_board (xo_c3_mem 10757106017242527276020942147596503469585728217003647615824300125720266100514318503699323839607911396359307288201707373632828021235601058727608718475817087256139387912561851882977456708855556969426131901942597534527708695998191078858351692263158765813461227229978410431348208226107754249508889359942660 9) (xo_ptr.stack 99))
      XO_BIT_MEANING_EMPTY 1 0 = true := by decide!
  have hp3 : xo_simulate_placement (xo_c3_mem 10757106017242527276020942147596503469585728217003647615824300125720266100514318503699323839607911396359307288201707373632828021235601058727608718475817087256139387912561851882977456708855556969426131901942597534527708695998191078858351692263158765813461227229978410431348208226107754249508889359942660 9) (xo_ptr.stack 99)
      XO_BIT_MEANING_SIDE_O 1 0
      = (xo_ptr.stack 9, (xo_c3_mem 10757106017242527276020942147596503469585728217003647615824300125720266100514318503699323839607911396359307288201707373632828021235601058727608718475817087256139387912561851882977456708855556969426131901942597534527708695998191078858351692263158765813461227229977385591310471805974249293965255124321284 18)) := by decide!
  have he3 : xo_game_cpu_minimax_eval 7 (xo_c3_mem 10757106017242527276020942147596503469585728217003647615824300125720266100514318503699323839607911396359307288201707373632828021235601058727608718475817087256139387912561851882977456708855556969426131901942597534527708695998191078858351692263158765813461227229977385591310471805974249293965255124321284 18)
      (xo_ptr.stack 9) XO_BIT_MEANING_SIDE_X
      = some (⟨-1, some (1, 1)⟩, (xo_c3_mem 10757106017242527276020942147596503469585728217003647615824300125720266100514318503699323839607911396359307288201707373632828021235601058727608718475816680479816192639992634763631626697634989416859865267207352738245901611129401231079047680326669408484958345732416949219608981580174599212231222917989380 63)) := by decide!
  have hc4 : xo_board_bit_check_at (xo_mem_board (xo_c3_mem 10757106017242527276020942147596503469585728217003647615824300125720266100514318503699323839607911396359307288201707373632828021235601058727608718475816680479816192639992634763631626697634989416859865267207352738245901611129401231079047680326669408484958345732416949219608981580174599212231222917989380 63) (xo_ptr.stack 99))
      XO_BIT_MEANING_EMPTY 1 1 = true := by decide!
  have hp4 : xo_simulate_placement (xo_c3_mem 10757106017242527276020942147596503469585728217003647615824300125720266100514318503699323839607911396359307288201707373632828021235601058727608718475816680479816192639992634763631626697634989416859865267207352738245901611129401231079047680326669408484958345732416949219608981580174599212231222917989380 63) (xo_ptr.stack 99)
      XO_BIT_MEANING_SIDE_O 1 1
      = (xo_ptr.stack 63, (xo_c3_mem 10757106017242527276020942147596503469585728217003647615824300125720266100514318503699323839607911396359307288201707373632828021235597240481474748927923272546162994581321792081334266044191625514067866387787318926844213921649743511421243464735324559028600010407454837112886281745520549885703904376783876 72)) := by decide!
  have he4 : xo_game_cpu_minimax_eval 7 (xo_c3_mem 10757106017242527276020942147596503469585728217003647615824300125720266100514318503699323839607911396359307288201707373632828021235597240481474748927923272546162994581321792081334266044191625514067866387787318926844213921649743511421243464735324559028600010407454837112886281745520549885703904376783876 72)
      (xo_ptr.stack 63) XO_BIT_MEANING_SIDE_X
      = some (⟨-1, some (1, 0)⟩, (xo_c3_mem 10757106017242527276020942147596503469585728217003647615824300125720266100514318503699323839607911396359307288201707373632828021235597240481474748927923272546162994581321791951024927746157194002880145146098274838106842744170333683235202238796357837554827891230755848705044623436422531455475951817851906 45)) := by decide!
  have hc5 : xo_board_bit_check_at (xo_mem_board (xo_c3_mem 10757106017242527276020942147596503469585728217003647615824300125720266100514318503699323839607911396359307288201707373632828021235597240481474748927923272546162994581321791951024927746157194002880145146098274838106842744170333683235202238796357837554827891230755848705044623436422531455475951817851906 45) (xo_ptr.stack 99))
      XO_BIT_MEANING_EMPTY 1 2 = true := by decide!
  have hp5 : xo_simulate_placement (xo_c3_mem 10757106017242527276020942147596503469585728217003647615824300125720266100514318503699323839607911396359307288201707373632828021235597240481474748927923272546162994581321791951024927746157194002880145146098274838106842744170333683235202238796357837554827891230755848705044623436422531455475951817851906 45) (xo_ptr.stack 99)
      XO_BIT_MEANING_SIDE_O 1 2
      = (xo_ptr.stack 45, (xo_c3_mem 10757106017242527276020942147596503469585728217003647615824300125720266100514318503699323839607911396359307288201707373632828021235597240481474748927923272546162994581321791950855705134635783863443263759969098664036098732147616419051407598199890242480483916713233550202380867177318276747095593778807810 54)) := by decide!
  have he5 : xo_game_cpu_minimax_eval 7 (xo_c3_mem 10757106017242527276020942147596503469585728217003647615824300125720266100514318503699323839607911396359307288201707373632828021235597240481474748927923272546162994581321791950855705134635783863443263759969098664036098732147616419051407598199890242480483916713233550202380867177318276747095593778807810 54)
      (xo_ptr.stack 45) XO_BIT_MEANING_SIDE_X
      = some (⟨0, some (0, 0)⟩, (xo_c3_mem 10757106017242527276020942147596503469585728217003647615824300125720266100514318503699323839607911396359307288201707373632828021235597240481474748927923272546162994581321791950855705144722697449710968936096651103853897476282574872303919535875340659303213160572965295469753577141481999511792665254560772 9)) := by decide!
  have hc6 : xo_board_bit_check_at (xo_mem_board (xo_c3_mem 10757106017242527276020942147596503469585728217003647615824300125720266100514318503699323839607911396359307288201707373632828021235597240481474748927923272546162994581321791950855705144722697449710968936096651103853897476282574872303919535875340659303213160572965295469753577141481999511792665254560772 9) (xo_ptr.stack 99))
      XO_BIT_MEANING_EMPTY 2 0 = true := by decide!
  have hp6 : xo_simulate_placement (xo_c3_mem 10757106017242527276020942147596503469585728217003647615824300125720266100514318503699323839607911396359307288201707373632828021235597240481474748927923272546162994581321791950855705144722697449710968936096651103853897476282574872303919535875340659303213160572965295469753577141481999511792665254560772 9) (xo_ptr.stack 99)
      XO_BIT_MEANING_SIDE_O 2 0
      = (xo_ptr.stack 9, (xo_c3_mem 10757106017242527276020942147596503469585728217003647615824300125720266100514318503699323839607911396359307288201707373632828021235597240481474748927923272546162994581321791950855705144722697449710968936096651103853897476282574872303919535875340659303213160572877162321123801866074336668114807504897028 18)) := by decide!
  have he6 : xo_game_cpu_minimax_eval 7 (xo_c3_mem 10757106017242527276020942147596503469585728217003647615824300125720266100514318503699323839607911396359307288201707373632828021235597240481474748927923272546162994581321791950855705144722697449710968936096651103853897476282574872303919535875340659303213160572877162321123801866074336668114807504897028 18)
      (xo_ptr.stack 9) XO_BIT_MEANING_SIDE_X
      = some (⟨0, some (0, 0)⟩, (xo_c3_mem 10757106017242527276020942147596503469585728217003647615824300125720266100514318503699323839607911396359307288201707373632828021235597240481474748927923272546162994581321791994688338123011184305376435279936564355226983566961551283719184598277318705920555425419532295577258216399309919594185361650222084 54)) := by decide!
  have hc7 : xo_board_bit_check_at (xo_mem_board (xo_c3_mem 10757106017242527276020942147596503469585728217003647615824300125720266100514318503699323839607911396359307288201707373632828021235597240481474748927923272546162994581321791994688338123011184305376435279936564355226983566961551283719184598277318705920555425419532295577258216399309919594185361650222084 54) (xo_ptr.stack 99))
      XO_BIT_MEANING_EMPTY 2 1 = true := by decide!
  have hp7 : xo_simulate_placement (xo_c3_mem 10757106017242527276020942147596503469585728217003647615824300125720266100514318503699323839607911396359307288201707373632828021235597240481474748927923272546162994581321791994688338123011184305376435279936564355226983566961551283719184598277318705920555425419532295577258216399309919594185361650222084 54) (xo_ptr.stack 99)
      XO_BIT_MEANING_SIDE_O 2 1
      = (xo_ptr.stack 54, (xo_c3_mem 10757106017242527276020942147596503469585728217003647615824300125720266100514318503699323839607911396359307288201707373632828021235597240481474748927923067949872512898917458663578059912361719144898077198056302904199389684124555647883116377890433194726262810937626265285737526446553289143169121477854212 63)) := by decide!
  have he7 : xo_game_cpu_minimax_eval 7 (xo_c3_mem 10757106017242527276020942147596503469585728217003647615824300125720266100514318503699323839607911396359307288201707373632828021235597240481474748927923067949872512898917458663578059912361719144898077198056302904199389684124555647883116377890433194726262810937626265285737526446553289143169121477854212 63)
      (xo_ptr.stack 54) XO_BIT_MEANING_SIDE_X
      = some (⟨1, some (0, 0)⟩, (xo_c3_mem 10757106017242527276020942147596503469585728217003647615824300125720266100514318503699323839607911396359307288201707373632828021235597240481474748927923067952994261449233450851635376193779186181307526411569291158878175420150161038115481078368040272777504248983742301546729307725965552230238333840786434 45)) := by decide!
  have hc8 : xo_board_bit_check_at (xo_mem_board (xo_c3_mem 10757106017242527276020942147596503469585728217003647615824300125720266100514318503699323839607911396359307288201707373632828021235597240481474748927923067952994261449233450851635376193779186181307526411569291158878175420150161038115481078368040272777504248983742301546729307725965552230238333840786434 45) (xo_ptr.stack 99))
      XO_BIT_MEANING_EMPTY 2 2 = true := by decide!
  have hp8 : xo_simulate_placement (xo_c3_mem 10757106017242527276020942147596503469585728217003647615824300125720266100514318503699323839607911396359307288201707373632828021235597240481474748927923067952994261449233450851635376193779186181307526411569291158878175420150161038115481078368040272777504248983742301546729307725965552230238333840786434 45) (xo_ptr.stack 99)
      XO_BIT_MEANING_SIDE_O 2 2
      = (xo_ptr.stack 45, (xo_c3_mem 10757106017242527276020942147596503469585728217003647615824300125720266100514318503699323839607911396359307288201707373632828021235597240481474748927923067952994261449233450981095908318943047290725899453641622818797497138074652253931278004134326400762615853519388195914071136579886616289271882545497090 54)) := by decide!
  have he8 : xo_game_cpu_minimax_eval 7 (xo_c3_mem 10757106017242527276020942147596503469585728217003647615824300125720266100514318503699323839607911396359307288201707373632828021235597240481474748927923067952994261449233450981095908318943047290725899453641622818797497138074652253931278004134326400762615853519388195914071136579886616289271882545497090 54)
      (xo_ptr.stack 45) XO_BIT_MEANING_SIDE_X
      = some (⟨1, some (0, 0)⟩, (xo_c3_mem 10757106017242527276020942147596503469585728217003647615824300125720266100514318503699323839607911396359307288201707373632828021235597240481474748927923067952994261449233450981095908318982449296940570109412789025440796347759614393880718123371267816636146813035512462675557542373083342799235823366702082 9)) := by decide!
  rw [show (8 : Nat) = 7 + 1 from rfl,
    xo_minimax_eval_succ_live 7 (xo_c3_mem 10757106017242527276020942147596503469585728217003647615824300125720266100514318503699323839607911396359307288201707373632828021235601058727608718475817087256139387912561851882977456708855556969426131901942597534527708695998191078858351692263158765813461227229978410431348208226107698837219074193490946 108) (xo_ptr.stack 99) XO_BIT_MEANING_SIDE_O hterm]
  rw [show xo_stack_reset (xo_c3_mem 10757106017242527276020942147596503469585728217003647615824300125720266100514318503699323839607911396359307288201707373632828021235601058727608718475817087256139387912561851882977456708855556969426131901942597534527708695998191078858351692263158765813461227229978410431348208226107698837219074193490946 108) = xo_c3_mem 10757106017242527276020942147596503469585728217003647615824300125720266100514318503699323839607911396359307288201707373632828021235601058727608718475817087256139387912561851882977456708855556969426131901942597534527708695998191078858351692263158765813461227229978410431348208226107698837219074193490946 0 from rfl]
  rw [show (if XO_BIT_MEANING_SIDE_O == XO_BIT_MEANING_SIDE_O
      then INT32_MIN else INT32_MAX) = INT32_MIN from rfl]
  rw [show xo_scan_order = [((0 : Nat), (0 : Nat)), (0, 1), (0, 2), (1, 0),
    (1, 1), (1, 2), (2, 0), (2, 1), (2, 2)] from rfl]
  rw [xo_minimax_loop_cons_O_update hc0 hp0 he0 (by decide)]
  rw [xo_minimax_loop_cons_skip hc1]
  rw [xo_minimax_loop_cons_skip hc2]
  rw [xo_minimax_loop_cons_O_keep hc3 hp3 he3 (by decide)]
  rw [xo_minimax_loop_cons_O_keep hc4 hp4 he4 (by decide)]
  rw [xo_minimax_loop_cons_O_update hc5 hp5 he5 (by decide)]
  rw [xo_minimax_loop_cons_O_keep hc6 hp6 he6 (by decide)]
  rw [xo_minimax_loop_cons_O_update hc7 hp7 he7 (by decide)]
  rw [xo_minimax_loop_cons_O_keep hc8 hp8 he8 (by decide)]
  simp [xo_minimax_loop]

set_option maxRecDepth 8000 in
set_option maxHeartbeats 2000000 in
lemma xo_c3_call1 :
    xo_game_cpu_minimax_eval 9 (xo_c3_mem 10757106017242527276020942147596503469585728218902550476191333482382482174215923055508899029367016432292322942069708379977063876132298176475443219454406430776260383313956630775097660785867104275945705182314968574894350670879411277522672839906668226921636370453632169980380775307451259004259237613535748 126) (xo_ptr.stack 117) XO_BIT_MEANING_SIDE_X
      = some (⟨-1, some (0, 0)⟩, xo_c3_mem 10757106017242527276020942147596503469585728217003647615824300125517966776903449110970583538771113545945158973096923187145544128315402601176361869155908809557549997292886914593531781565101428149289915074082824008040975629731162866843198123793010215761222633921779606254414110009919849165858287542076418 99) := by
  have hterm : xo_board_test_if_final_state
      (xo_mem_board (xo_c3_mem 10757106017242527276020942147596503469585728218902550476191333482382482174215923055508899029367016432292322942069708379977063876132298176475443219454406430776260383313956630775097660785867104275945705182314968574894350670879411277522672839906668226921636370453632169980380775307451259004259237613535748 126) (xo_ptr.stack 117)) = xo_win_state_type.NONE := by
    decide!
  have hc0 : xo_board_bit_check_at (xo_mem_board (xo_c3_mem 10757106017242527276020942147596503469585728218902550476191333482382482174215923055508899029367016432292322942069708379977063876132298176475443219454406430776260383313956630775097660785867104275945705182314968574894350670879411277522672839906668226921636370453632169980380775307451259004259237613535748 0) (xo_ptr.stack 117))
      XO_BIT_MEANING_EMPTY 0 0 = true := by decide!
  have hp0 : xo_simulate_placement (xo_c3_mem 10757106017242527276020942147596503469585728218902550476191333482382482174215923055508899029367016432292322942069708379977063876132298176475443219454406430776260383313956630775097660785867104275945705182314968574894350670879411277522672839906668226921636370453632169980380775307451259004259237613535748 0) (xo_ptr.stack 117)
      XO_BIT_MEANING_SIDE_X 0 0
      = (xo_ptr.stack 0, (xo_c3_mem 10757106017242527276020942147596503469585728218902550476191333482382482174215923055508899029367016432292322942069708379977063876132298176475443219454406430776260383313956630775097660785867104275945705182314968574894350670879411277522672839906668226921636370453632169980380775307451259003413700269900802 9)) := by decide!
  have he0 : xo_game_cpu_minimax_eval 8 (xo_c3_mem 10757106017242527276020942147596503469585728218902550476191333482382482174215923055508899029367016432292322942069708379977063876132298176475443219454406430776260383313956630775097660785867104275945705182314968574894350670879411277522672839906668226921636370453632169980380775307451259003413700269900802 9)
      (xo_ptr.stack 0) XO_BIT_MEANING_SIDE_O
      = some (⟨-1, some (0, 2)⟩, (xo_c3_mem 10757106017242527276020942147596503469585728218902550476191333482382482174215923058321881683549029954644570000106511169544947479269050457771741042321570822727646306531011486922598377217239559599761208027605941832879831531244593650397903238439399009787149518077904154003707982904501745135413128948089858 99)) := by decide!
  have hc1 : xo_board_bit_check_at (xo_mem_board (xo_c3_mem 10757106017242527276020942147596503469585728218902550476191333482382482174215923058321881683549029954644570000106511169544947479269050457771741042321570822727646306531011486922598377217239559599761208027605941832879831531244593650397903238439399009787149518077904154003707982904501745135413128948089858 99) (xo_ptr.stack 117))
      XO_BIT_MEANING_EMPTY 0 1 = false := by decide!
  have hc2 : xo_board_bit_check_at (xo_mem_board (xo_c3_mem 10757106017242527276020942147596503469585728218902550476191333482382482174215923058321881683549029954644570000106511169544947479269050457771741042321570822727646306531011486922598377217239559599761208027605941832879831531244593650397903238439399009787149518077904154003707982904501745135413128948089858 99) (xo_ptr.stack 117))
      XO_BIT_MEANING_EMPTY 0 2 = true := by decide!
  have hp2 : xo_simulate_placement (xo_c3_mem 10757106017242527276020942147596503469585728218902550476191333482382482174215923058321881683549029954644570000106511169544947479269050457771741042321570822727646306531011486922598377217239559599761208027605941832879831531244593650397903238439399009787149518077904154003707982904501745135413128948089858 99) (xo_ptr.stack 117)
      XO_BIT_MEANING_SIDE_X 0 2
      = (xo_ptr.stack 99, (xo_c3_mem 10757106017242527276020942147596503469585728217003647615824300125720266100514318503699323839607911396359307288201707373632828021235601058727608718475817087256139387912561851882977456708855556969426131901942597534527708695998191078858351692263158765813461227229978410431348208226107698837219074193490946 108)) := by decide!
  have hc3 : xo_board_bit_check_at (xo_mem_board (xo_c3_mem 10757106017242527276020942147596503469585728217003647615824300125720266100514318503699323839607911396359307288201707373632828021235597240481474748927923067952994261449233450981095908318982449296940570109412789025440796347759614393880718123371267816636146813035512462675557542373083342799235823366702082 9) (xo_ptr.stack 117))
      XO_BIT_MEANING_EMPTY 1 0 = true := by decide!
  have hp3 : xo_simulate_placement (xo_c3_mem 10757106017242527276020942147596503469585728217003647615824300125720266100514318503699323839607911396359307288201707373632828021235597240481474748927923067952994261449233450981095908318982449296940570109412789025440796347759614393880718123371267816636146813035512462675557542373083342799235823366702082 9) (xo_ptr.stack 117)
      XO_BIT_MEANING_SIDE_X 1 0
      = (xo_ptr.stack 9, (xo_c3_mem 10757106017242527276020942147596503469585728217003647615824300125720266100514318503699323839607911396359307288201707373632828021235597240481474748927923067952994261449233450981095908318982449296940570109412789025440796347759614393880718123371267816636146813035250781532114180045239244637339107807331330 18)) := by decide!
  have he3 : xo_game_cpu_minimax_eval 8 (xo_c3_mem 10757106017242527276020942147596503469585728217003647615824300125720266100514318503699323839607911396359307288201707373632828021235597240481474748927923067952994261449233450981095908318982449296940570109412789025440796347759614393880718123371267816636146813035250781532114180045239244637339107807331330 18)
      (xo_ptr.stack 9) XO_BIT_MEANING_SIDE_O
      = some (⟨-1, some (0, 0)⟩, (xo_c3_mem 10757106017242527276020942147596503469585728217003647615824300125720266100514318503699323839607911396359307297380054709864978558737369182188095614894744944404473284131278365675527363622458079329831291328208017586806513103598401122933593234225590248344948052349422080953116469573666589466012684621448194 81)) := by decide!
  have hc4 : xo_board_bit_check_at (xo_mem_board (xo_c3_mem 10757106017242527276020942147596503469585728217003647615824300125720266100514318503699323839607911396359307297380054709864978558737369182188095614894744944404473284131278365675527363622458079329831291328208017586806513103598401122933593234225590248344948052349422080953116469573666589466012684621448194 81) (xo_ptr.stack 117))
      XO_BIT_MEANING_EMPTY 1 1 = true := by decide!
  have hp4 : xo_simulate_placement (xo_c3_mem 10757106017242527276020942147596503469585728217003647615824300125720266100514318503699323839607911396359307297380054709864978558737369182188095614894744944404473284131278365675527363622458079329831291328208017586806513103598401122933593234225590248344948052349422080953116469573666589466012684621448194 81) (xo_ptr.stack 117)
      XO_BIT_MEANING_SIDE_X 1 1
      = (xo_ptr.stack 81, (xo_c3_mem 10757106017242527276020942147596503469585728217003647615824300125720266100514318503699323586133818374892280166790521816280223320247780662361804906344942081760973387356772283378999703419338015333723820045920886725416160930845283730344333733334817235211403722132051086294985509959294327090906899268502530 90)) := by decide!
  have he4 : xo_game_cpu_minimax_eval 8 (xo_c3_mem 10757106017242527276020942147596503469585728217003647615824300125720266100514318503699323586133818374892280166790521816280223320247780662361804906344942081760973387356772283378999703419338015333723820045920886725416160930845283730344333733334817235211403722132051086294985509959294327090906899268502530 90)
      (xo_ptr.stack 81) XO_BIT_MEANING_SIDE_O
      = some (⟨0, some (1, 0)⟩, (xo_c3_mem 10757106017242527276020942147596503469585728217003647615824300125720266100514318503699323586133818375121915312799237404663717912586686906710242163332545721538559210139884362391536394346974312743276242952128423244010848745541610100860307106279586934264481279323741382580456039255309061015828675443295236 54)) := by decide!
  have hc5 : xo_board_bit_check_at (xo_mem_board (xo_c3_mem 10757106017242527276020942147596503469585728217003647615824300125720266100514318503699323586133818375121915312799237404663717912586686906710242163332545721538559210139884362391536394346974312743276242952128423244010848745541610100860307106279586934264481279323741382580456039255309061015828675443295236 54) (xo_ptr.stack 117))
      XO_BIT_MEANING_EMPTY 1 2 = true := by decide!
  have hp5 : xo_simulate_placement (xo_c3_mem 10757106017242527276020942147596503469585728217003647615824300125720266100514318503699323586133818375121915312799237404663717912586686906710242163332545721538559210139884362391536394346974312743276242952128423244010848745541610100860307106279586934264481279323741382580456039255309061015828675443295236 54) (xo_ptr.stack 117)
      XO_BIT_MEANING_SIDE_X 1 2
      = (xo_ptr.stack 54, (xo_c3_mem 10757106017242527276020942147596503469585728217003647615824300125720266100514318503699323586133818375121915312799237404663717912586686906710242163332545107768454935769294110532072240160060376250535955414290620064432968367572110289879003898471357707439445518804898915668989670159903360612143387440841732 63)) := by decide!
  have he5 : xo_game_cpu_minimax_eval 8 (xo_c3_mem 10757106017242527276020942147596503469585728217003647615824300125720266100514318503699323586133818375121915312799237404663717912586686906710242163332545107768454935769294110532072240160060376250535955414290620064432968367572110289879003898471357707439445518804898915668989670159903360612143387440841732 63)
      (xo_ptr.stack 54) XO_BIT_MEANING_SIDE_O
      = some (⟨-1, some (0, 0)⟩, (xo_c3_mem 10757106017242527276020942147596503469585728217003647615824300125720266100514318503699388476157859628897922757018371100332097705977338316789940825467187009636371718804654427340737449808681573753714287814600547802701782179655301040230309851730912005817344566901651763789099216888923568458584008985543684 90)) := by decide!
  have hc6 : xo_board_bit_check_at (xo_mem_board (xo_c3_mem 10757106017242527276020942147596503469585728217003647615824300125720266100514318503699388476157859628897922757018371100332097705977338316789940825467187009636371718804654427340737449808681573753714287814600547802701782179655301040230309851730912005817344566901651763789099216888923568458584008985543684 90) (xo_ptr.stack 117))
      XO_BIT_MEANING_EMPTY 2 0 = true := by decide!
  have hp6 : xo_simulate_placement (xo_c3_mem 10757106017242527276020942147596503469585728217003647615824300125720266100514318503699388476157859628897922757018371100332097705977338316789940825467187009636371718804654427340737449808681573753714287814600547802701782179655301040230309851730912005817344566901651763789099216888923568458584008985543684 90) (xo_ptr.stack 117)
      XO_BIT_MEANING_SIDE_X 2 0
      = (xo_ptr.stack 90, (xo_c3_mem 10757106017242527276020942147596503469585728217003647615824300125415025512251390061935434325034043220467384857895893414666090416803392850235950781391677182228789415273595373304188274870971653325125592596194400908377660887187607779627254158734939987900292182891558062032125423458439582349090526865785860 99)) := by decide!
  have he6 : xo_game_cpu_minimax_eval 8 (xo_c3_mem 10757106017242527276020942147596503469585728217003647615824300125415025512251390061935434325034043220467384857895893414666090416803392850235950781391677182228789415273595373304188274870971653325125592596194400908377660887187607779627254158734939987900292182891558062032125423458439582349090526865785860 99)
      (xo_ptr.stack 90) XO_BIT_MEANING_SIDE_O
      = some (⟨1, some (0, 0)⟩, (xo_c3_mem 10757106017242527276020942147596503469585728217003647615824300125415025512251391146356751124810932089767344947390684926129897519055474969386358535398851798256337888892128326635034630634675220021751274651966864634157199030983947747966664769769447086425398215466439195908183032995935497008225139086853124 18)) := by decide!
  have hc7 : xo_board_bit_check_at (xo_mem_board (xo_c3_mem 10757106017242527276020942147596503469585728217003647615824300125415025512251391146356751124810932089767344947390684926129897519055474969386358535398851798256337888892128326635034630634675220021751274651966864634157199030983947747966664769769447086425398215466439195908183032995935497008225139086853124 18) (xo_ptr.stack 117))
      XO_BIT_MEANING_EMPTY 2 1 = true := by decide!
  have hp7 : xo_simulate_placement (xo_c3_mem 10757106017242527276020942147596503469585728217003647615824300125415025512251391146356751124810932089767344947390684926129897519055474969386358535398851798256337888892128326635034630634675220021751274651966864634157199030983947747966664769769447086425398215466439195908183032995935497008225139086853124 18) (xo_ptr.stack 117)
      XO_BIT_MEANING_SIDE_X 2 1
      = (xo_ptr.stack 18, (xo_c3_mem 10757106017242527276020942147596503469585728217003647615824300125415025512251391146356751124810932089767344947390684926129897519055474969386358535398851798256337888892128326635034630634675220021751274651966864634157199030983947747966664768532098490628526306955112768926360886731083678714974073998541828 27)) := by decide!
  have he7 : xo_game_cpu_minimax_eval 8 (xo_c3_mem 10757106017242527276020942147596503469585728217003647615824300125415025512251391146356751124810932089767344947390684926129897519055474969386358535398851798256337888892128326635034630634675220021751274651966864634157199030983947747966664768532098490628526306955112768926360886731083678714974073998541828 27)
      (xo_ptr.stack 18) XO_BIT_MEANING_SIDE_O
      = some (⟨1, some (0, 0)⟩, (xo_c3_mem 10757106017242527276020942147596503469585728217003647615824300125415025512251391146356751124810932089767344947390684926129897519055474969386358535398851798256337888892128326548557940778364505345721715053553990596814300223347678351096475566847771709159196021989749778033531898828862260068124370759975940 54)) := by decide!
  have hc8 : xo_board_bit_check_at (xo_mem_board (xo_c3_mem 10757106017242527276020942147596503469585728217003647615824300125415025512251391146356751124810932089767344947390684926129897519055474969386358535398851798256337888892128326548557940778364505345721715053553990596814300223347678351096475566847771709159196021989749778033531898828862260068124370759975940 54) (xo_ptr.stack 117))
      XO_BIT_MEANING_EMPTY 2 2 = true := by decide!
  have hp8 : xo_simulate_placement (xo_c3_mem 10757106017242527276020942147596503469585728217003647615824300125415025512251391146356751124810932089767344947390684926129897519055474969386358535398851798256337888892128326548557940778364505345721715053553990596814300223347678351096475566847771709159196021989749778033531898828862260068124370759975940 54) (xo_ptr.stack 117)
      XO_BIT_MEANING_SIDE_X 2 2
      = (xo_ptr.stack 54, (xo_c3_mem 10757106017242527276020942147596503469585728217003647615824300125415025512251391146356751124810932089767344947390684926129897519055474969386358535398851389079390105131036934976213032775983915004606501492595472424665239772991197309914383803660925057470966134208319145869316851602886628860081486403077124 63)) := by decide!
  have he8 : xo_game_cpu_minimax_eval 8 (xo_c3_mem 10757106017242527276020942147596503469585728217003647615824300125415025512251391146356751124810932089767344947390684926129897519055474969386358535398851389079390105131036934976213032775983915004606501492595472424665239772991197309914383803660925057470966134208319145869316851602886628860081486403077124 63)
      (xo_ptr.stack 54) XO_BIT_MEANING_SIDE_O
      = some (⟨1, some (0, 0)⟩, (xo_c3_mem 10757106017242527276020942147596503469585728217003647615824300125517966776903449110970583538771113545945158973096923187145544128315402601176361869155908809557549997292886914593531781565101428149289915074082824008040975629731162866843198123793010215761222633921779606254414110009919849165858287542076418 99)) := by decide!
  rw [show (9 : Nat) = 8 + 1 from rfl,
    xo_minimax_eval_succ_live 8 (xo_c3_mem 10757106017242527276020942147596503469585728218902550476191333482382482174215923055508899029367016432292322942069708379977063876132298176475443219454406430776260383313956630775097660785867104275945705182314968574894350670879411277522672839906668226921636370453632169980380775307451259004259237613535748 126) (xo_ptr.stack 117) XO_BIT_MEANING_SIDE_X hterm]
  rw [show xo_stack_reset (xo_c3_mem 10757106017242527276020942147596503469585728218902550476191333482382482174215923055508899029367016432292322942069708379977063876132298176475443219454406430776260383313956630775097660785867104275945705182314968574894350670879411277522672839906668226921636370453632169980380775307451259004259237613535748 126) = xo_c3_mem 10757106017242527276020942147596503469585728218902550476191333482382482174215923055508899029367016432292322942069708379977063876132298176475443219454406430776260383313956630775097660785867104275945705182314968574894350670879411277522672839906668226921636370453632169980380775307451259004259237613535748 0 from rfl]
  rw [show (if XO_BIT_MEANING_SIDE_X == XO_BIT_MEANING_SIDE_O
      then INT32_MIN else INT32_MAX) = INT32_MAX from rfl]
  rw [show xo_scan_order = [((0 : Nat), (0 : Nat)), (0, 1), (0, 2), (1, 0),
    (1, 1), (1, 2), (2, 0), (2, 1), (2, 2)] from rfl]
  rw [xo_minimax_loop_cons_X_update hc0 hp0 he0 (by decide)]
  rw [xo_minimax_loop_cons_skip hc1]
  rw [xo_minimax_loop_cons_X_keep hc2 hp2 xo_c3_call2 (by decide)]
  rw [xo_minimax_loop_cons_X_keep hc3 hp3 he3 (by decide)]
  rw [xo_minimax_loop_cons_X_keep hc4 hp4 he4 (by decide)]
  rw [xo_minimax_loop_cons_X_keep hc5 hp5 he5 (by decide)]
  rw [xo_minimax_loop_cons_X_keep hc6 hp6 he6 (by decide)]
  rw [xo_minimax_loop_cons_X_keep hc7 hp7 he7 (by decide)]
  rw [xo_minimax_loop_cons_X_keep hc8 hp8 he8 (by decide)]
  simp [xo_minimax_loop]

set_option maxRecDepth 8000 in
set_option maxHeartbeats 2000000 in
lemma xo_c3_call0 :
    xo_game_cpu_minimax_eval 10 (xo_c3_mem 0 0) xo_ptr.external XO_BIT_MEANING_SIDE_O
      = some (⟨1, some (2, 2)⟩, xo_c3_mem 51391972259987750104921870443109333608831237933764972409906795610326412090604104230719363231486568525090004565290700291941936468543860514944668219159809367086231145243738990213267666612086634680287534842750669193935140777571197668264874257811227759810974892592180384662892478778653280888208691304704049456122763115640390148 90) := by
  have hterm : xo_board_test_if_final_state
      (xo_mem_board (xo_c3_mem 0 0) xo_ptr.external) = xo_win_state_type.NONE := by
    decide!
  have hc0 : xo_board_bit_check_at (xo_mem_board (xo_c3_mem 0 0) xo_ptr.external)
      XO_BIT_MEANING_EMPTY 0 0 = true := by decide!
  have hp0 : xo_simulate_placement (xo_c3_mem 0 0) xo_ptr.external
      XO_BIT_MEANING_SIDE_O 0 0
      = (xo_ptr.stack 0, (xo_c3_mem 18519084246547628292 9)) := by decide!
  have he0 : xo_game_cpu_minimax_eval 9 (xo_c3_mem 18519084246547628292 9)
      (xo_ptr.stack 0) XO_BIT_MEANING_SIDE_X
      = some (⟨-1, some (0, 1)⟩, (xo_c3_mem 4547017541072861428583382548750161716411334713848418585275799157907526543829412474274548924426752849093986898360065960580516235008074631108685229672517513276610118643192197816262982016477415617368250767699317800435447310531243869719276852900701545953935997546305478445798193889796 117)) := by decide!
  have hc1 : xo_board_bit_check_at (xo_mem_board (xo_c3_mem 4547017541072861428583382548750161716411334713848418585275799157907526543829412474274548924426752849093986898360065960580516235008074631108685229672517513276610118643192197816262982016477415617368250767699317800435447310531243869719276852900701545953935997546305478445798193889796 117) xo_ptr.external)
      XO_BIT_MEANING_EMPTY 0 1 = true := by decide!
  have hp1 : xo_simulate_placement (xo_c3_mem 4547017541072861428583382548750161716411334713848418585275799157907526543829412474274548924426752849093986898360065960580516235008074631108685229672517513276610118643192197816262982016477415617368250767699317800435447310531243869719276852900701545953935997546305478445798193889796 117) xo_ptr.external
      XO_BIT_MEANING_SIDE_O 0 1
      = (xo_ptr.stack 117, (xo_c3_mem 10757106017242527276020942147596503469585728218902550476191333482382482174215923055508899029367016432292322942069708379977063876132298176475443219454406430776260383313956630775097660785867104275945705182314968574894350670879411277522672839906668226921636370453632169980380775307451259004259237613535748 126)) := by decide!
  have hc2 : xo_board_bit_check_at (xo_mem_board (xo_c3_mem 10757106017242527276020942147596503469585728217003647615824300125517966776903449110970583538771113545945158973096923187145544128315402601176361869155908809557549997292886914593531781565101428149289915074082824008040975629731162866843198123793010215761222633921779606254414110009919849165858287542076418 99) xo_ptr.external)
      XO_BIT_MEANING_EMPTY 0 2 = true := by decide!
  have hp2 : xo_simulate_placement (xo_c3_mem 10757106017242527276020942147596503469585728217003647615824300125517966776903449110970583538771113545945158973096923187145544128315402601176361869155908809557549997292886914593531781565101428149289915074082824008040975629731162866843198123793010215761222633921779606254414110009919849165858287542076418 99) xo_ptr.external
      XO_BIT_MEANING_SIDE_O 0 2
      = (xo_ptr.stack 99, (xo_c3_mem 10757106017242527276020942147596503469585728217003647615827694144864302622728955755532060658989860227931217770350564882371732023269451775900766278146152430691538148617378972112918738965143374906115820022313460400534438064939135500253455830640539329099809677114992772534822790600670924684655489955660802 108)) := by decide!
  have hc3 : xo_board_bit_check_at (xo_mem_board (xo_c3_mem 10757106017242527276020942147596503469585728217003647615827700813081034826194099228112591427610357244195788027951210585959039912703414658167824111850826838720278960458165665256263297158631838061467726056627626038992747401906622606962562637150391038504273416111434652855641782665038916695534347728716292 9) xo_ptr.external)
      XO_BIT_MEANING_EMPTY 1 0 = true := by decide!
  have hp3 : xo_simulate_placement (xo_c3_mem 10757106017242527276020942147596503469585728217003647615827700813081034826194099228112591427610357244195788027951210585959039912703414658167824111850826838720278960458165665256263297158631838061467726056627626038992747401906622606962562637150391038504273416111434652855641782665038916695534347728716292 9) xo_ptr.external
      XO_BIT_MEANING_SIDE_O 1 0
      = (xo_ptr.stack 9, (xo_c3_mem 10757106017242527276020942147596503469585728217003647615827700813081034826194099228112591427610357244195788027951210585959039912703414658167824111850826838720278960458165665256263297158631838061467726056627626038992747401906622606962562637150391038504273416111346518388128118801076291844950286049477124 18)) := by decide!
  have he3 : xo_game_cpu_minimax_eval 9 (xo_c3_mem 10757106017242527276020942147596503469585728217003647615827700813081034826194099228112591427610357244195788027951210585959039912703414658167824111850826838720278960458165665256263297158631838061467726056627626038992747401906622606962562637150391038504273416111346518388128118801076291844950286049477124 18)
      (xo_ptr.stack 9) XO_BIT_MEANING_SIDE_X
      = some (⟨-1, some (0, 1)⟩, (xo_c3_mem 10757106017242527276020942147596503469585728217003647615827700812878735508695131999845245512625982871068100544943630592171938493100193351783446109595966242417600363723243908768695001635390499695249051300938249510035925450009522417899816648919891364379733578625392190664227595024648905137783859453231620 99)) := by decide!
  have hc4 : xo_board_bit_check_at (xo_mem_board (xo_c3_mem 10757106017242527276020942147596503469585728217003647615827700812878735508695131999845245512625982871068100544943630592171938493100193351783446109595966242417600363723243908768695001635390499695249051300938249510035925450009522417899816648919891364379733578625392190664227595024648905137783859453231620 99) xo_ptr.external)
      XO_BIT_MEANING_EMPTY 1 1 = true := by decide!
  have hp4 : xo_simulate_placement (xo_c3_mem 10757106017242527276020942147596503469585728217003647615827700812878735508695131999845245512625982871068100544943630592171938493100193351783446109595966242417600363723243908768695001635390499695249051300938249510035925450009522417899816648919891364379733578625392190664227595024648905137783859453231620 99) xo_ptr.external
      XO_BIT_MEANING_SIDE_O 1 1
      = (xo_ptr.stack 99, (xo_c3_mem 10757106017242527276020942147596503469585728217003647951434728404408302515040988816570194428525359475793073940960274568872473261193657210047996118365859791730825799282150528228630325143872115111842400804718924529615724070462267964143435824674807713516279600993748312725864849918364143731536740835525124 108)) := by decide!
  have hc5 : xo_board_bit_check_at (xo_mem_board (xo_c3_mem 10757106017242527276020942147596503469585728218880527158635903462103388163510133254846898752608684478645958568044830994998888706369197743327279055340959676924347925502280949454879001840815901231820124261850644031433308107204120460273667521407550437443561046423540626746740347207331563624898617743115266 36) xo_ptr.external)
      XO_BIT_MEANING_EMPTY 1 2 = true := by decide!
  have hp5 : xo_simulate_placement (xo_c3_mem 10757106017242527276020942147596503469585728218880527158635903462103388163510133254846898752608684478645958568044830994998888706369197743327279055340959676924347925502280949454879001840815901231820124261850644031433308107204120460273667521407550437443561046423540626746740347207331563624898617743115266 36) xo_ptr.external
      XO_BIT_MEANING_SIDE_O 1 2
      = (xo_ptr.stack 36, (xo_c3_mem 10757106017242527276020942147596503469585728218880527158635903462103388163510133254846898752608684478645958568044830994998888706369197743327279055340959676924347925502280949454879001840815901231792566442536480334726270985785043876462019124315716619175587323560460996562025798087922529084228578595439618 45)) := by decide!
  have he5 : xo_game_cpu_minimax_eval 9 (xo_c3_mem 10757106017242527276020942147596503469585728218880527158635903462103388163510133254846898752608684478645958568044830994998888706369197743327279055340959676924347925502280949454879001840815901231792566442536480334726270985785043876462019124315716619175587323560460996562025798087922529084228578595439618 45)
      (xo_ptr.stack 36) XO_BIT_MEANING_SIDE_X
      = some (⟨-1, some (0, 1)⟩, (xo_c3_mem 10757106017242527276020942147596503469585728218880527158635903461900297061736713572850363759347308665034539208605798758269372057358032056695775554299125048873699614531735680386403478860839595147839468056818647923281029538627944420831124600583017054973780146317805220567783405360387370090805183622808068 99)) := by decide!
  have hc6 : xo_board_bit_check_at (xo_mem_board (xo_c3_mem 10757106017242527276020942147596503469585728218880527158635903461900297061736713572850363759347308665034539208605798758269372057358032056695775554299125048873699614531735680386403478860839595147839468056818647923281029538627944420831124600583017054973780146317805220567783405360387370090805183622808068 99) xo_ptr.external)
      XO_BIT_MEANING_EMPTY 2 0 = true := by decide!
  have hp6 : xo_simulate_placement (xo_c3_mem 10757106017242527276020942147596503469585728218880527158635903461900297061736713572850363759347308665034539208605798758269372057358032056695775554299125048873699614531735680386403478860839595147839468056818647923281029538627944420831124600583017054973780146317805220567783405360387370090805183622808068 99) xo_ptr.external
      XO_BIT_MEANING_SIDE_O 2 0
      = (xo_ptr.stack 99, (xo_c3_mem 10757106017242527276020942147596503469585728217025642294031961879984049649637837410731284593498778918132841064894527065812893848036211068039296033546952517617796692001804174887051138401751538492839264439372352652216586132556936413288576820246395769599063873663519531613221050465831754175007270061081092 108)) := by decide!
  have he6 : xo_game_cpu_minimax_eval 9 (xo_c3_mem 10757106017242527276020942147596503469585728217025642294031961879984049649637837410731284593498778918132841064894527065812893848036211068039296033546952517617796692001804174887051138401751538492839264439372352652216586132556936413288576820246395769599063873663519531613221050465831754175007270061081092 108)
      (xo_ptr.stack 99) XO_BIT_MEANING_SIDE_X
      = some (⟨-1, some (0, 1)⟩, (xo_c3_mem 42944710543026906599205164724765845742277957342873527193556784082660463680495307387607596756008662673339739685789522385241787750818047659475334010031893778184832317996777464468665518478846880937323941495009062971792113700639979224665729929605380335849925473942613269125001470073806406082478118965215748 126)) := by decide!
  have hc7 : xo_board_bit_check_at (xo_mem_board (xo_c3_mem 42944710543026906599205164724765845742277957342873527193556784082660463680495307387607596756008662673339739685789522385241787750818047659475334010031893778184832317996777464468665518478846880937323941495009062971792113700639979224665729929605380335849925473942613269125001470073806406082478118965215748 126) xo_ptr.external)
      XO_BIT_MEANING_EMPTY 2 1 = true := by decide!
  have hp7 : xo_simulate_placement (xo_c3_mem 42944710543026906599205164724765845742277957342873527193556784082660463680495307387607596756008662673339739685789522385241787750818047659475334010031893778184832317996777464468665518478846880937323941495009062971792113700639979224665729929605380335849925473942613269125001470073806406082478118965215748 126) xo_ptr.external
      XO_BIT_MEANING_SIDE_O 2 1
      = (xo_ptr.stack 126, (xo_c3_mem 51391972259987750104921870443109333608831237933764972409906795610326412090604104230719363231486568525090004500569988169362699832049616509167358963146548664565802218223638222445587244338806209194834380954558626294885367767082532892613109417922772817622448426254948894254770652996441659253639732338766170513375298578905432580 135)) := by decide!
  have hc8 : xo_board_bit_check_at (xo_mem_board (xo_c3_mem 51391972259987750104921870443109333608831237933764972409906795610326412090604104230719363231486568525090004500821813307902725104361856248540304732070444251247356936900795249038469738945624871410774860590611072906537021143591612163035280214822262552343644648978223958143071454837311655116110387204602892477176404894699226114 81) xo_ptr.external)
      XO_BIT_MEANING_EMPTY 2 2 = true := by decide!
  have hp8 : xo_simulate_placement (xo_c3_mem 51391972259987750104921870443109333608831237933764972409906795610326412090604104230719363231486568525090004500821813307902725104361856248540304732070444251247356936900795249038469738945624871410774860590611072906537021143591612163035280214822262552343644648978223958143071454837311655116110387204602892477176404894699226114 81) xo_ptr.external
      XO_BIT_MEANING_SIDE_O 2 2
      = (xo_ptr.stack 81, (xo_c3_mem 51391972259987750104921870443109333608831237933764972409906795610326412090604104230719363231486568525090004565205547984360740424492182790198667659877440839708866549178724460076376695428315426513500072177013191093068957154080559929142702058752855138763039746712905941477279514027724304063440029243190872913303909921980679170 90)) := by decide!
  rw [show (10 : Nat) = 9 + 1 from rfl,
    xo_minimax_eval_succ_live 9 (xo_c3_mem 0 0) xo_ptr.external XO_BIT_MEANING_SIDE_O hterm]
  rw [show xo_stack_reset (xo_c3_mem 0 0) = xo_c3_mem 0 0 from rfl]
  rw [show (if XO_BIT_MEANING_SIDE_O == XO_BIT_MEANING_SIDE_O
      then INT32_MIN else INT32_MAX) = INT32_MIN from rfl]
  rw [show xo_scan_order = [((0 : Nat), (0 : Nat)), (0, 1), (0, 2), (1, 0),
    (1, 1), (1, 2), (2, 0), (2, 1), (2, 2)] from rfl]
  rw [xo_minimax_loop_cons_O_update hc0 hp0 he0 (by decide)]
  rw [xo_minimax_loop_cons_O_keep hc1 hp1 xo_c3_call1 (by decide)]
  rw [xo_minimax_loop_cons_O_keep hc2 hp2 xo_c3_call3 (by decide)]
  rw [xo_minimax_loop_cons_O_keep hc3 hp3 he3 (by decide)]
  rw [xo_minimax_loop_cons_O_keep hc4 hp4 xo_c3_call5 (by decide)]
  rw [xo_minimax_loop_cons_O_keep hc5 hp5 he5 (by decide)]
  rw [xo_minimax_loop_cons_O_keep hc6 hp6 he6 (by decide)]
  rw [xo_minimax_loop_cons_O_keep hc7 hp7 xo_c3_call9 (by decide)]
  rw [xo_minimax_loop_cons_O_update hc8 hp8 xo_c3_call11 (by decide)]
  simp [xo_minimax_loop]

set_option maxHeartbeats 1000000 in
/-- C3: the search on the freshly initialized (all-Empty) live board
does not return score 0: it returns score 1 with move (2, 2), because
the win labelling is inverted (the maximizing Computer chases the
Player-win score) and the per-call stack reset corrupts the recursion. -/
theorem xo_c3_empty_board_eval :
    (xo_game_cpu_find_next_play 10 xo_board_initial).map (fun r => r.1)
      = some ⟨1, some (2, 2)⟩ := by
  have hm : xo_initial_memory xo_board_initial = xo_c3_mem 0 0 := by decide!
  unfold xo_game_cpu_find_next_play
  rw [hm, xo_c3_call0]
  rfl

end XO
